import Mathlib

/-!
Verification development for the billboard-runner-pipeline repository.

The pipeline transforms one tabular batch of billboard records through five
stages: schema standardization, geography, dimension/inventory defaults,
financial calculation and a row-level validator.  The stages live in
`src/processing.py`; a second, simplified variant of the whole
transformation lives in `orchestration/flow.py` (`apply_business_logic`);
the post-processing enrichment lives in `src/post_processing.py`
(`transform_dataframe`).

Modelling conventions:
  * a pandas cell is a `Value`: `null` (NaN/None), a rational number
    (floats are modelled exactly, float rounding and exponent notation are
    out of scope), or a string;
  * a dataframe is a fixed record of column-presence flags plus a list of
    rows, each row being a record with one `Value` per canonical column
    name that the modelled code ever touches;
  * all Python string operations are re-implemented over `List Char`
    (ASCII case mapping; Python's unicode case table is out of scope);
  * the external geocoders are deterministic function parameters.
-/

namespace BRP

/-- One pandas cell: NaN/None, a number, or a string. -/
inductive Value where
  | null : Value
  | num  : ℚ → Value
  | str  : String → Value
deriving DecidableEq, Repr

/-- `pd.isna` on a cell. -/
def Value.isna : Value → Bool
  | .null => true
  | _ => false

/-!
Mathlib's `ℚ` field operations do not reduce inside the kernel (their
normalization step is opaque to definitional unfolding), while `mkRat`
and `Rat.divInt` do.  The model therefore computes with the following
wrappers, which the simp lemmas below identify with the ordinary field
operations for use in the general theorems.
-/

/-- Kernel-computable rational addition. -/
def qAdd (a b : ℚ) : ℚ := mkRat (a.num * b.den + b.num * a.den) (a.den * b.den)

/-- Kernel-computable rational multiplication. -/
def qMul (a b : ℚ) : ℚ := mkRat (a.num * b.num) (a.den * b.den)

/-- Kernel-computable rational division (0 on a zero divisor, matching
Mathlib's convention; the model never divides by zero). -/
def qDiv (a b : ℚ) : ℚ := Rat.divInt (a.num * b.den) (a.den * b.num)

/-- Kernel-computable sum of a list of rationals. -/
def qSum (l : List ℚ) : ℚ := l.foldr qAdd 0

/-- ASCII uppercase of one character (models Python `str.upper` on ASCII). -/
def upChar (c : Char) : Char :=
  if 97 ≤ c.toNat ∧ c.toNat ≤ 122 then Char.ofNat (c.toNat - 32) else c

/-- ASCII lowercase of one character (models Python `str.lower` on ASCII). -/
def lowChar (c : Char) : Char :=
  if 65 ≤ c.toNat ∧ c.toNat ≤ 90 then Char.ofNat (c.toNat + 32) else c

/-- ASCII letter test (models Python `str.isalpha` on ASCII,
used by the `str.title` model). -/
def isLetter (c : Char) : Bool :=
  (65 ≤ c.toNat ∧ c.toNat ≤ 90) ∨ (97 ≤ c.toNat ∧ c.toNat ≤ 122)

/-- Python `str.title` over a character list: a letter is uppercased when
the previous character is not a letter, lowercased otherwise. -/
def titleChars : Bool → List Char → List Char
  | _, [] => []
  | prevL, c :: cs =>
    (if isLetter c then (if prevL then lowChar c else upChar c) else c)
      :: titleChars (isLetter c) cs

/-- Strip leading and trailing whitespace from a character list
(Python `str.strip`). -/
def trimChars (l : List Char) : List Char :=
  ((l.dropWhile Char.isWhitespace).reverse.dropWhile Char.isWhitespace).reverse

/-- Python `str.strip`. -/
def pyStrip (s : String) : String := ⟨trimChars s.data⟩

/-- Python `str.upper` (ASCII). -/
def pyUpper (s : String) : String := ⟨s.data.map upChar⟩

/-- Python `str.lower` (ASCII). -/
def pyLower (s : String) : String := ⟨s.data.map lowChar⟩

/-- Python `str.title` (ASCII). -/
def pyTitle (s : String) : String := ⟨titleChars false s.data⟩

/-- Split a character list on a separator character
(Python `str.split(sep)` with a one-character separator: empty pieces are
kept, a string with no separator yields one piece). -/
def splitChars (sep : Char) : List Char → List (List Char)
  | [] => [[]]
  | c :: cs =>
    let r := splitChars sep cs
    if c = sep then [] :: r
    else match r with
      | [] => [[c]]
      | p :: ps => (c :: p) :: ps

/-- Python `s.split(sep)` for a one-character separator. -/
def pySplit (sep : Char) (s : String) : List String :=
  (splitChars sep s.data).map fun l => ⟨l⟩

/-- Does the character occur in the string (Python `c in s`)? -/
def pyContains (c : Char) (s : String) : Bool := s.data.contains c

/-- Remove every occurrence of a character
(models Python `str.replace(c, '')`). -/
def pyRemoveChar (c : Char) (s : String) : String :=
  ⟨s.data.filter fun d => d ≠ c⟩

/-- Decimal digit run to a natural number. -/
def digitsToNat (l : List Char) : ℕ :=
  l.foldl (fun acc c => acc * 10 + (c.toNat - 48)) 0

/-- The rational denoted by an integer digit run and a fraction digit run
(`d.f` as a decimal literal): `(d * 10^len(f) + f) / 10^len(f)`. -/
def qOfDigits (d f : List Char) : ℚ :=
  mkRat (digitsToNat d * 10 ^ f.length + digitsToNat f) (10 ^ f.length)

/-- Parse a full unsigned decimal literal (`123`, `123.45`, `123.`, `.45`);
anything else (including exponents, which only arise from float repr
artifacts out of scope here) fails. -/
def parseUnsigned (l : List Char) : Option ℚ :=
  let d := l.takeWhile Char.isDigit
  let rest := l.dropWhile Char.isDigit
  match rest with
  | [] => if d = [] then none else some (qOfDigits d [])
  | '.' :: r =>
    let f := r.takeWhile Char.isDigit
    if r.dropWhile Char.isDigit = [] ∧ (d ≠ [] ∨ f ≠ []) then
      some (qOfDigits d f)
    else none
  | _ => none

/-- Python `float(s)`: strips whitespace, then an optional sign and a
decimal literal.  `"nan"` parses to the NaN cell (modelled as `null`);
failure models the `ValueError` the callers catch. -/
def pyFloat (s : String) : Option Value :=
  let t := trimChars s.data
  let core :=
    match t with
    | '-' :: r => (parseUnsigned r).map (fun q => Value.num (-q))
    | '+' :: r => (parseUnsigned r).map Value.num
    | r => (parseUnsigned r).map Value.num
  match core with
  | some v => some v
  | none => if (t.map lowChar) = ['n', 'a', 'n'] then some .null else none

/-- Python `str(float)` for the rationals standing in for floats: integral
values render with a trailing `.0` like Python floats; the digits of other
values are immaterial to the modelled operations, which only need the
rendering to be injective, comma-free and free of surrounding
whitespace. -/
def numRepr (q : ℚ) : String :=
  if q.den = 1 then toString q.num ++ ".0"
  else toString q.num ++ "r" ++ toString q.den

/-- Python `str(cell)` (`astype(str)` on one cell): NaN renders as
`"nan"`. -/
def Value.toPyStr : Value → String
  | .null => "nan"
  | .num q => numRepr q
  | .str s => s

/-- `pd.to_numeric(·, errors='coerce')` on one cell. -/
def to_numeric (v : Value) : Value :=
  match v with
  | .null => .null
  | .num q => .num q
  | .str s => match pyFloat s with
    | some w => w
    | none => .null

/-- Leftmost match of the regex `\d+(\.\d+)?` in a character list
(the number token extracted by `clean_numeric`). -/
def firstNumToken : List Char → Option ℚ
  | [] => none
  | c :: cs =>
    if c.isDigit then
      let d := (c :: cs).takeWhile Char.isDigit
      let rest := (c :: cs).dropWhile Char.isDigit
      match rest with
      | '.' :: r =>
        if (r.takeWhile Char.isDigit) = [] then some (qOfDigits d [])
        else some (qOfDigits d (r.takeWhile Char.isDigit))
      | _ => some (qOfDigits d [])
    else firstNumToken cs

/-- `clean_numeric` (src/processing.py): extracts valid numbers from messy
strings, e.g. `'Rs. 50,000' -> 50000.0`.  On a numeric cell the code takes
`str(val)` and re-extracts the digits, which drops a minus sign and leaves
non-negative values unchanged (exponent-notation float reprs are out of
scope). -/
def clean_numeric (v : Value) : Value :=
  match v with
  | .null => .null
  | .num q => .num |q|
  | .str s =>
    match firstNumToken (trimChars (pyRemoveChar ',' s).data) with
    | some q => .num q
    | none => .null

/-- `parse_coord_string` (src/processing.py): splits `'77.60, 12.95'` into
`(12.95, 77.60)` — note the swap: the second comma-separated token becomes
the latitude.  `''`, `'0,0'`, `'0'`, `'nan'` are treated as missing, and
any `float()` failure yields `(None, None)`. -/
def parse_coord_string (v : Value) : Value × Value :=
  match v with
  | .null => (.null, .null)
  | _ =>
    let s := v.toPyStr
    if pyStrip s ∈ (["", "0,0", "0", "nan"] : List String) then (.null, .null)
    else
      let parts := pySplit ',' s
      if 2 ≤ parts.length then
        match pyFloat (pyStrip (parts.getD 1 "")), pyFloat (pyStrip (parts.getD 0 "")) with
        | some a, some b => (a, b)
        | _, _ => (.null, .null)
      else (.null, .null)

/-- Leftmost match of `(\d+(\.\d+)?)\s*M` (case-insensitive marker `M`):
the scanner for `extract_dim_str`.  At each candidate start the greedy
number token is taken; backtracking inside the token never helps because a
shorter token leaves a digit where `\s*M` must match. -/
def findDimNum (marker : Char) : List Char → Option ℚ
  | [] => none
  | c :: cs =>
    (if c.isDigit then
      let d := (c :: cs).takeWhile Char.isDigit
      let restInt := (c :: cs).dropWhile Char.isDigit
      let cand :=
        match restInt with
        | '.' :: r =>
          if (r.takeWhile Char.isDigit) = [] then (qOfDigits d [], restInt)
          else (qOfDigits d (r.takeWhile Char.isDigit), r.dropWhile Char.isDigit)
        | _ => (qOfDigits d [], restInt)
      match (cand.2.dropWhile Char.isWhitespace) with
      | m :: _ => if upChar m = upChar marker then some cand.1 else none
      | [] => none
    else none).orElse fun _ => findDimNum marker cs

/-- `extract_dim_str` (src/processing.py): extracts the number before a
`W` or `H` marker, case-insensitively; `None` on a missing cell or when
the pattern is absent. -/
def extract_dim_str (v : Value) (marker : Char) : Value :=
  match v with
  | .null => .null
  | _ =>
    match findDimNum marker v.toPyStr.data with
    | some q => .num q
    | none => .null

/-- One row of the batch: one `Value` per canonical column name touched by
the modelled code.  A cell of a column whose presence flag is off is
never read. -/
@[ext] structure Row where
  id : Value := .null
  billboard_id : Value := .null
  format_type : Value := .null
  media_type : Value := .null
  lighting_type : Value := .null
  coordinates : Value := .null
  latitude : Value := .null
  longitude : Value := .null
  city : Value := .null
  district : Value := .null
  area : Value := .null
  locality : Value := .null
  location : Value := .null
  address : Value := .null
  landmark : Value := .null
  dimensions : Value := .null
  width_ft : Value := .null
  height_ft : Value := .null
  frequency_per_minute : Value := .null
  quantity : Value := .null
  minimal_price : Value := .null
  base_rate_per_month : Value := .null
  card_rate_per_month : Value := .null
  base_rate_per_unit : Value := .null
  card_rate_per_unit : Value := .null
  image_urls : Value := .null
  image_url : Value := .null
deriving DecidableEq, Repr

/-- Column-presence flags (`col in df.columns`), one per canonical
column. -/
@[ext] structure ColFlags where
  id : Bool := false
  billboard_id : Bool := false
  format_type : Bool := false
  media_type : Bool := false
  lighting_type : Bool := false
  coordinates : Bool := false
  latitude : Bool := false
  longitude : Bool := false
  city : Bool := false
  district : Bool := false
  area : Bool := false
  locality : Bool := false
  location : Bool := false
  address : Bool := false
  landmark : Bool := false
  dimensions : Bool := false
  width_ft : Bool := false
  height_ft : Bool := false
  frequency_per_minute : Bool := false
  quantity : Bool := false
  minimal_price : Bool := false
  base_rate_per_month : Bool := false
  card_rate_per_month : Bool := false
  base_rate_per_unit : Bool := false
  card_rate_per_unit : Bool := false
  image_urls : Bool := false
  image_url : Bool := false
deriving DecidableEq, Repr

/-- One tabular batch: presence flags plus the rows in order. -/
@[ext] structure DF where
  cols : ColFlags
  rows : List Row
deriving DecidableEq, Repr

/-- The fixed `format_map` of `standard_cleanup`. -/
def formatMap (s : String) : Option String :=
  if s = "Bus Shelter" then some "Bus_Shelter"
  else if s = "Skywalk" then some "Gantry"
  else if s = "Digital OOH" then some "Digital_OOH"
  else if s = "Road Median" then some "Road_Median"
  else if s = "Pole Kiosk" then some "Pole_Kiosk"
  else if s = "Hoarding" then some "Hoarding"
  else none

/-- `format_map.get(x, x)`: mapped when the key is one of the fixed
strings, passthrough otherwise (also for NaN and numeric cells). -/
def formatApply (v : Value) : Value :=
  match v with
  | .str s => match formatMap s with
    | some t => .str t
    | none => v
  | _ => v

/-- The fixed `lighting_map` of `standard_cleanup` (keyed by the
upper-cased, stripped cell). -/
def lightingMap (s : String) : Option String :=
  if s = "NON LIT" then some "Unlit"
  else if s = "UNLIT" then some "Unlit"
  else if s = "BACK LIT" then some "Backlit"
  else if s = "FRONT LIT" then some "Frontlit"
  else if s = "LED" then some "Digital"
  else if s = "DIGITAL" then some "Digital"
  else none

/-- `standard_cleanup`'s lighting normalization:
`astype(str).str.upper().str.strip()` then
`lighting_map.get(x, x.title())`. -/
def lightingApply (v : Value) : Value :=
  let u := pyStrip (pyUpper v.toPyStr)
  match lightingMap u with
  | some t => .str t
  | none => .str (pyTitle u)

/-- `drop_duplicates(subset=['billboard_id'])`: keep the first occurrence
of each key. -/
def dedupBy (f : Row → Value) : List Row → List Value → List Row
  | [], _ => []
  | r :: rs, seen =>
    if f r ∈ seen then dedupBy f rs seen
    else r :: dedupBy f rs (f r :: seen)

/-- `standard_cleanup` (src/processing.py, Step 1): drop a passthrough
`id` column, fail closed to zero rows when `billboard_id` is absent,
drop null ids, strip ids, deduplicate keeping the first occurrence, and
apply the fixed format/lighting maps. -/
def standard_cleanup (df : DF) : DF :=
  let cols0 := { df.cols with id := false }
  if !df.cols.billboard_id then { cols := cols0, rows := [] }
  else
    let r1 := df.rows.filter fun r => !r.billboard_id.isna
    let r2 := r1.map fun r =>
      { r with billboard_id := .str (pyStrip r.billboard_id.toPyStr) }
    let r3 := dedupBy (fun r => r.billboard_id) r2 []
    let r4 := if df.cols.format_type then
        r3.map fun r => { r with format_type := formatApply r.format_type }
      else r3
    let r5 := if df.cols.lighting_type then
        r4.map fun r => { r with lighting_type := lightingApply r.lighting_type }
      else r4
    { cols := cols0, rows := r5 }

/-- The rational held by a numeric cell (only applied under a
non-null guard established by `to_numeric`). -/
def Value.getQ : Value → ℚ
  | .num q => q
  | _ => 0

/-- `lambda x: x.split(',')[0].strip() if ',' in x else x` over
`astype(str)` — the `area` derivation from `locality`. -/
def localityArea (v : Value) : Value :=
  let x := v.toPyStr
  if pyContains ',' x then .str (pyStrip ((pySplit ',' x).getD 0 ""))
  else .str x

/-- The coordinate-parsing step of `extract_geography`: rows with either
coordinate missing get both fields assigned from the parsed
`coordinates` cell. -/
def geoParseRow (r : Row) : Row :=
  if r.latitude.isna ∨ r.longitude.isna then
    let p := parse_coord_string r.coordinates
    { r with latitude := p.1, longitude := p.2 }
  else r

/-- The reverse-geocoding step of `extract_geography` on one row, with
the rate-limited Nominatim collaborator abstracted as the deterministic
function `geo` (a failed lookup is `none`, stored as null). -/
def geoCodeRow (geo : ℚ → ℚ → Option String) (r : Row) : Row :=
  if (r.location.isna ∨ pyStrip r.location.toPyStr = "")
      ∧ !r.latitude.isna ∧ !r.longitude.isna then
    { r with location :=
        match geo r.latitude.getQ r.longitude.getQ with
        | some a => .str a
        | none => .null }
  else r

/-- The whole per-row transform of `extract_geography` (every column
operation of the stage is row-wise, so the stage is one map with this
function; `c` is the input batch's column set). -/
def geoRowFull (geo : ℚ → ℚ → Option String) (c : ColFlags) (r : Row) : Row :=
  -- initialize columns if missing
  let r0 := if c.latitude then r else { r with latitude := .null }
  let r0b := if c.longitude then r0 else { r0 with longitude := .null }
  -- smart parse
  let r1 := if c.coordinates then geoParseRow r0b else r0b
  -- force numeric
  let r2 := { r1 with latitude := to_numeric r1.latitude,
                      longitude := to_numeric r1.longitude }
  -- hierarchy
  let r3 := if c.city then
      { r2 with city := Value.str (pyTitle r2.city.toPyStr),
                district := if c.district then
                    (if r2.district.isna then Value.str (pyTitle r2.city.toPyStr)
                     else r2.district)
                  else Value.str (pyTitle r2.city.toPyStr) }
    else r2
  let r4 := if c.locality ∧ !c.area then
      { r3 with area := localityArea r3.locality }
    else r3
  -- location from address, else initialized null
  let r5 := if c.address ∧ !c.location then { r4 with location := r4.address }
    else if !c.location then { r4 with location := .null }
    else r4
  -- reverse geocoding
  geoCodeRow geo r5

/-- The column set produced by `extract_geography`. -/
def geoCols (c : ColFlags) : ColFlags :=
  let c1 := { c with latitude := true, longitude := true, location := true }
  let c2 := if c.city then { c1 with district := true } else c1
  if c.locality ∧ !c.area then { c2 with area := true } else c2

/-- `extract_geography` (src/processing.py, Step 2): ensure latitude and
longitude columns, parse the raw `coordinates` column for rows with
either coordinate missing, coerce both to numeric, fill the
city/district/area/location hierarchy, and reverse-geocode rows that
still lack a location but have both coordinates. -/
def extract_geography (geo : ℚ → ℚ → Option String) (df : DF) : DF :=
  { cols := geoCols df.cols, rows := df.rows.map (geoRowFull geo df.cols) }

/-- `groupby('format_type')[...].transform('mean')` for one row key:
the mean of the non-null values in the key's group, null for a null key
(pandas drops null group keys) and for an all-null group. -/
def groupMean (f : Row → Value) (rows : List Row) (k : Value) : Value :=
  if k.isna then .null
  else
    let vs := rows.filterMap fun r =>
      if r.format_type = k then
        match f r with
        | .num q => some q
        | _ => none
      else none
    if vs.length = 0 then .null else .num (qDiv (qSum vs) (mkRat vs.length 1))

/-- The numeric-coercion and `dimensions`-extraction part of
`fill_dimensions`, per row (the batch means are computed on the rows
after this phase). -/
def dimExtractRow (c : ColFlags) (r : Row) : Row :=
  let r0 := if c.width_ft then r else { r with width_ft := .null }
  let r0b := if c.height_ft then r0 else { r0 with height_ft := .null }
  let r1 := { r0b with width_ft := to_numeric r0b.width_ft,
                       height_ft := to_numeric r0b.height_ft }
  let r2 := if c.dimensions ∧ r1.width_ft.isna then
      { r1 with width_ft := extract_dim_str r1.dimensions 'W' }
    else r1
  if c.dimensions ∧ r2.height_ft.isna then
    { r2 with height_ft := extract_dim_str r2.dimensions 'H' }
  else r2

/-- The width/height fill of `fill_dimensions`, per row: Bus_Shelter
defaults, then the per-format-type means of the extracted batch `snap`,
then the global 20.0/10.0 fallbacks — each only where the value is still
null, and only when a `format_type` column exists. -/
def dimWHRow (c : ColFlags) (snap : List Row) (r : Row) : Row :=
  if c.format_type then
    let mW := groupMean (fun s => s.width_ft) snap r.format_type
    let mH := groupMean (fun s => s.height_ft) snap r.format_type
    let a := if r.format_type = Value.str "Bus_Shelter" ∧ r.width_ft.isna then
        { r with width_ft := .num 25 } else r
    let b := if a.format_type = Value.str "Bus_Shelter" ∧ a.height_ft.isna then
        { a with height_ft := .num 5 } else a
    let d := if b.width_ft.isna then
        { b with width_ft := if mW.isna then .num 20 else mW } else b
    if d.height_ft.isna then
      { d with height_ft := if mH.isna then .num 10 else mH } else d
  else r

/-- The digital test of `fill_dimensions` (format_type `Digital_OOH` or
lighting_type `Digital`, each only when its column exists). -/
def isDigitalRow (c : ColFlags) (r : Row) : Bool :=
  (c.format_type ∧ r.format_type = Value.str "Digital_OOH")
    ∨ (c.lighting_type ∧ r.lighting_type = Value.str "Digital")

/-- The `frequency_per_minute` default of `fill_dimensions`, per row:
10 for digital rows and 0 otherwise, applied only where the field is
null (a missing column counts as all-null). -/
def dimFreqRow (c : ColFlags) (r : Row) : Row :=
  let r5 := if !c.frequency_per_minute then { r with frequency_per_minute := .null }
    else r
  if r5.frequency_per_minute.isna then
    { r5 with frequency_per_minute := .num (if isDigitalRow c r then 10 else 0) }
  else r5

/-- The `quantity` default/repair of `fill_dimensions`, per row:
`fillna(1)` then coercing an exact 0 to 1. -/
def dimQtyRow (c : ColFlags) (r : Row) : Row :=
  let r7 := if !c.quantity then { r with quantity := .null } else r
  let q1 := if r7.quantity.isna then Value.num 1 else r7.quantity
  { r7 with quantity := if q1 = Value.num 0 then Value.num 1 else q1 }

/-- The fill phase of `fill_dimensions`, per row. -/
def dimFillRow (c : ColFlags) (snap : List Row) (r : Row) : Row :=
  dimQtyRow c (dimFreqRow c (dimWHRow c snap r))

/-- `fill_dimensions` (src/processing.py, Step 3): coerce width/height to
numeric, extract missing values from a combined `dimensions` string,
fill Bus_Shelter defaults, per-format-type batch means and the global
20.0/10.0 fallbacks, default `frequency_per_minute` by the digital test,
and default/repair `quantity`. -/
def fill_dimensions (df : DF) : DF :=
  let snap := df.rows.map (dimExtractRow df.cols)
  { cols := { df.cols with
                width_ft := true
                height_ft := true
                frequency_per_minute := true
                quantity := true },
    rows := snap.map (dimFillRow df.cols snap) }

/-- Insert into a sorted list (ascending). -/
def insertSorted (q : ℚ) : List ℚ → List ℚ
  | [] => [q]
  | x :: xs => if q ≤ x then q :: x :: xs else x :: insertSorted q xs

/-- Insertion sort, ascending. -/
def sortQ (l : List ℚ) : List ℚ := l.foldr insertSorted []

/-- `Series.median()` over the non-null values: the middle element for an
odd count, the mean of the two middle elements for an even count, NaN
(none) for an empty series. -/
def medianQ (l : List ℚ) : Option ℚ :=
  let s := sortQ l
  if s.length = 0 then none
  else if s.length % 2 = 1 then some (s.getD (s.length / 2) 0)
  else some (qDiv (qAdd (s.getD (s.length / 2 - 1) 0) (s.getD (s.length / 2) 0)) 2)

/-- Multiply a numeric cell by a constant, propagating null (NaN
arithmetic). -/
def vmul (v : Value) (c : ℚ) : Value :=
  match v with
  | .num q => .num (qMul q c)
  | _ => .null

/-- The non-null cleaned `minimal_price` values of a batch. -/
def mpValues (rows : List Row) : List ℚ :=
  rows.filterMap fun r =>
    match r.minimal_price with
    | .num q => some q
    | _ => none

/-- The `clean_numeric` pass of `calculate_financials`, per row (each of
the three price columns that exists is cleaned; `base_rate_per_month` is
also initialized to null when absent). -/
def finCleanRow (c : ColFlags) (r : Row) : Row :=
  let r1 :=
    { r with
      minimal_price := if c.minimal_price then clean_numeric r.minimal_price
        else r.minimal_price,
      base_rate_per_month := if c.base_rate_per_month then
          clean_numeric r.base_rate_per_month
        else r.base_rate_per_month,
      card_rate_per_month := if c.card_rate_per_month then
          clean_numeric r.card_rate_per_month
        else r.card_rate_per_month }
  let r2 := if !c.base_rate_per_month then { r1 with base_rate_per_month := .null }
    else r1
  if !c.card_rate_per_month then { r2 with card_rate_per_month := .null } else r2

/-- The `median_price` actually used by `calculate_financials`: the
batch median of the cleaned `minimal_price` column, replaced by 15000.0
when it is null or zero. -/
def medPrice (cleaned : List Row) : ℚ :=
  match medianQ (mpValues cleaned) with
  | none => 15000
  | some m => if m = 0 then 15000 else m

/-- The imputation phase of `calculate_financials`, per row: base rate
from `minimal_price` (or the batch `medP`) times 4.285 where null, card
rate as base times 1.10 where null, and the per-unit mirrors. -/
def finFillRow (c : ColFlags) (medP : ℚ) (r : Row) : Row :=
  let r3 := if c.minimal_price ∧ r.base_rate_per_month.isna then
      { r with base_rate_per_month :=
          Value.num (qMul (match r.minimal_price with
                           | .num q => q
                           | _ => medP) (mkRat 4285 1000)) }
    else r
  let r5 := if r3.card_rate_per_month.isna then
      { r3 with card_rate_per_month := vmul r3.base_rate_per_month (mkRat 11 10) }
    else r3
  { r5 with base_rate_per_unit := r5.base_rate_per_month,
            card_rate_per_unit := r5.card_rate_per_month }

/-- `calculate_financials` (src/processing.py, Step 4): clean the three
price columns, impute `base_rate_per_month` from `minimal_price` times
4.285 (batch median of `minimal_price`, or 15000.0 when that median is
null or zero, standing in for a missing price), impute
`card_rate_per_month` as base times 1.10, and mirror both into the
per-unit fields. -/
def calculate_financials (df : DF) : DF :=
  let cleaned := df.rows.map (finCleanRow df.cols)
  { cols := { df.cols with
                base_rate_per_month := true
                card_rate_per_month := true
                base_rate_per_unit := true
                card_rate_per_unit := true },
    rows := cleaned.map (finFillRow df.cols (medPrice cleaned)) }

/-- The fixed invalid-placeholder test of the row-level validator
(spec 4.7 step 2): a null image cell, or a value matching `""`, `"nan"`,
`"null"`, `"none"`, `"[]"` case-insensitively. -/
def invalidImage (v : Value) : Bool :=
  v.isna ∨ pyLower v.toPyStr ∈ (["", "nan", "null", "none", "[]"] : List String)

/-- The coordinate test of the row-level validator (spec 4.7 step 3):
null coordinates, or both coordinates exactly 0. -/
def coordBad (r : Row) : Bool :=
  r.latitude.isna ∨ r.longitude.isna
    ∨ (r.latitude = Value.num 0 ∧ r.longitude = Value.num 0)

/-- The validator's column projection (spec 4.7 step 4): user
`keep_columns` unioned with the fixed core output-column list,
intersected with the existing columns; the unsplit `dimensions` and
`coordinates` source columns are excluded once their split equivalents
exist.  The preferred display ordering is immaterial here because
columns are modelled as an unordered flag record. -/
def projFlags (keep : List String) (c : ColFlags) : ColFlags where
  id := c.id ∧ "id" ∈ keep
  billboard_id := c.billboard_id
  format_type := c.format_type
  media_type := c.media_type ∧ "media_type" ∈ keep
  lighting_type := c.lighting_type
  coordinates := c.coordinates ∧ "coordinates" ∈ keep
    ∧ !(c.latitude ∧ c.longitude)
  latitude := c.latitude
  longitude := c.longitude
  city := c.city
  district := c.district
  area := c.area
  locality := c.locality ∧ "locality" ∈ keep
  location := c.location
  address := c.address ∧ "address" ∈ keep
  landmark := c.landmark ∧ "landmark" ∈ keep
  dimensions := c.dimensions ∧ "dimensions" ∈ keep
    ∧ !(c.width_ft ∧ c.height_ft)
  width_ft := c.width_ft
  height_ft := c.height_ft
  frequency_per_minute := c.frequency_per_minute
  quantity := c.quantity
  minimal_price := c.minimal_price ∧ "minimal_price" ∈ keep
  base_rate_per_month := c.base_rate_per_month
  card_rate_per_month := c.card_rate_per_month
  base_rate_per_unit := c.base_rate_per_unit
  card_rate_per_unit := c.card_rate_per_unit
  image_urls := c.image_urls
  image_url := c.image_url ∧ "image_url" ∈ keep

/-- Modelled from the spec: the row-level validator (spec section 4.7,
"Step 5" of the pipeline) is not present under src/ — only the spec and
the UI's step-progress parser refer to it.  Following the spec: resolve
the image column (`image_urls` preferred over `image_url`; the alias
convention follows `apply_business_logic` lines 163-165 of
orchestration/flow.py, which copies `image_url` into `image_urls`); if
neither exists reject the whole batch with an empty result; drop rows
with a null or placeholder image value; reject the batch if the
coordinate columns are missing; drop rows with null or (0, 0)
coordinates; project the output columns.  The two early-exit rejections
short-circuit before the remaining checks, so they leave the column set
untouched.  Returns the batch plus the image-dropped and
coordinate-dropped audit counts.  `resolvedRows` is the image-column
resolution: the rows with `image_urls` aliased from `image_url` when
only the latter exists. -/
def resolvedRows (df : DF) : List Row :=
  if df.cols.image_urls then df.rows
  else df.rows.map fun r => { r with image_urls := r.image_url }

/-- Modelled from the spec: the row-level validator proper (see
`resolvedRows` above for context — the two definitions together model
the missing Step 5). -/
def final_validation (keep : List String) (df : DF) : DF × ℕ × ℕ :=
  if !df.cols.image_urls ∧ !df.cols.image_url then
    ({ cols := df.cols, rows := [] }, 0, 0)
  else
    let cols1 := if df.cols.image_urls then df.cols
      else { df.cols with image_urls := true }
    let kept := (resolvedRows df).filter fun r => !invalidImage r.image_urls
    let dImg := (resolvedRows df).length - kept.length
    if !df.cols.latitude ∨ !df.cols.longitude then
      ({ cols := cols1, rows := [] }, dImg, 0)
    else
      let kept2 := kept.filter fun r => !coordBad r
      ({ cols := projFlags keep cols1, rows := kept2 },
       dImg, kept.length - kept2.length)

/-- The full standardization-through-validation chain over one batch, in
the fixed stage order 3→4→5→6→7 of the spec, with the reverse-geocoding
collaborator `geo` and the configured `keep_columns` as parameters. -/
def pipeline (geo : ℚ → ℚ → Option String) (keep : List String) (df : DF) : DF :=
  (final_validation keep
    (calculate_financials
      (fill_dimensions
        (extract_geography geo
          (standard_cleanup df))))).1

/-!  The orchestration/flow.py variant (`apply_business_logic`).  -/

/-- `parse_coords` (orchestration/flow.py): treats `''` and `'0,0'` as
missing, parses every comma-separated token with `float` (any failure in
the comprehension raises, caught as `(None, None)`), and for exactly two
tokens returns `(second, first)` — latitude then longitude. -/
def parse_coords (v : Value) : Value × Value :=
  match v with
  | .null => (.null, .null)
  | _ =>
    let s := v.toPyStr
    if pyStrip s ∈ (["", "0,0"] : List String) then (.null, .null)
    else
      let parts := (pySplit ',' s).map fun p => pyFloat (pyStrip p)
      if parts.any fun p => p.isNone then (.null, .null)
      else match parts with
        | [some a, some b] => (b, a)
        | _ => (.null, .null)

/-- Leftmost match of `(\d+)\s*M` for a marker letter `M`
(case-insensitive): the integer-only scanner of flow.py's
`extract_dimensions`. -/
def findIntNum (marker : Char) : List Char → Option ℕ
  | [] => none
  | c :: cs =>
    (if c.isDigit then
      let d := (c :: cs).takeWhile Char.isDigit
      let rest := (c :: cs).dropWhile Char.isDigit
      match rest.dropWhile Char.isWhitespace with
      | m :: _ => if upChar m = upChar marker then some (digitsToNat d) else none
      | [] => none
    else none).orElse fun _ => findIntNum marker cs

/-- `extract_dimensions` (orchestration/flow.py): integer width before
`W` and integer height before `H`, independently; `(None, None)` for a
missing or blank cell. -/
def extract_dimensions (v : Value) : Value × Value :=
  match v with
  | .null => (.null, .null)
  | _ =>
    let s := v.toPyStr
    if pyStrip s = "" then (.null, .null)
    else
      ((findIntNum 'W' s.data).elim Value.null (fun n => .num n),
       (findIntNum 'H' s.data).elim Value.null (fun n => .num n))

/-- The character classes removed by `remove_illegal_chars`
(`[\000-\010]|[\013-\014]|[\016-\037]`). -/
def illegalChar (c : Char) : Bool :=
  c.toNat ≤ 8 ∨ (11 ≤ c.toNat ∧ c.toNat ≤ 12) ∨ (14 ≤ c.toNat ∧ c.toNat ≤ 31)

/-- `remove_illegal_chars` (orchestration/flow.py): strips control
characters from string cells, leaves other cells alone. -/
def remove_illegal_chars (v : Value) : Value :=
  match v with
  | .str s => .str ⟨s.data.filter fun c => !illegalChar c⟩
  | _ => v

/-- Apply `remove_illegal_chars` to every cell of a row (the code runs
it over the object-dtype columns; on numeric columns it is the
identity, so applying it to every cell is behaviorally equal). -/
def Row.cleanIllegal (r : Row) : Row where
  id := remove_illegal_chars r.id
  billboard_id := remove_illegal_chars r.billboard_id
  format_type := remove_illegal_chars r.format_type
  media_type := remove_illegal_chars r.media_type
  lighting_type := remove_illegal_chars r.lighting_type
  coordinates := remove_illegal_chars r.coordinates
  latitude := remove_illegal_chars r.latitude
  longitude := remove_illegal_chars r.longitude
  city := remove_illegal_chars r.city
  district := remove_illegal_chars r.district
  area := remove_illegal_chars r.area
  locality := remove_illegal_chars r.locality
  location := remove_illegal_chars r.location
  address := remove_illegal_chars r.address
  landmark := remove_illegal_chars r.landmark
  dimensions := remove_illegal_chars r.dimensions
  width_ft := remove_illegal_chars r.width_ft
  height_ft := remove_illegal_chars r.height_ft
  frequency_per_minute := remove_illegal_chars r.frequency_per_minute
  quantity := remove_illegal_chars r.quantity
  minimal_price := remove_illegal_chars r.minimal_price
  base_rate_per_month := remove_illegal_chars r.base_rate_per_month
  card_rate_per_month := remove_illegal_chars r.card_rate_per_month
  base_rate_per_unit := remove_illegal_chars r.base_rate_per_unit
  card_rate_per_unit := remove_illegal_chars r.card_rate_per_unit
  image_urls := remove_illegal_chars r.image_urls
  image_url := remove_illegal_chars r.image_url

/-- Python `int(x)` on a float: truncation toward zero. -/
def qTrunc (q : ℚ) : ℚ := mkRat (Int.tdiv q.num q.den) 1

/-- Step 6 of `apply_business_logic`:
`1 if float(x) == 0 else int(float(x))` after `fillna(1)`.  `float` on an
unparseable string raises (the task fails), modelled as `none`; so does
`int(float('nan'))`. -/
def quantRepair (v : Value) : Option Value :=
  let v1 := if v.isna then Value.num 1 else v
  match v1 with
  | .num q => some (if q = 0 then Value.num 1 else Value.num (qTrunc q))
  | .str s =>
    match pyFloat s with
    | some (.num q) => some (if q = 0 then Value.num 1 else Value.num (qTrunc q))
    | _ => none
  | .null => none

/-- Flow's lighting normalization: `astype(str).str.strip().str.upper()`
mapped with no default, then `fillna` with the original (untransformed)
column — an unmapped value stays exactly as it came in. -/
def lightingApplyFlow (v : Value) : Value :=
  let u := pyUpper (pyStrip v.toPyStr)
  match lightingMap u with
  | some t => .str t
  | none => v

/-- `media_type` mapped through `format_map` with no default: unmapped
values become null. -/
def formatFromMedia (v : Value) : Value :=
  match v with
  | .str s =>
    match formatMap s with
    | some t => .str t
    | none => .null
  | _ => .null

/-- Flow's `city` derivation from `locality`:
`x.split(',')[-1].strip() if ',' in x else 'Mumbai'` over `astype(str)`. -/
def localityCity (v : Value) : Value :=
  let x := v.toPyStr
  if pyContains ',' x then .str (pyStrip ((pySplit ',' x).getLastD ""))
  else .str "Mumbai"

/-- Flow's `area` derivation from `locality`: `x.split(',')[0].strip()`
over `astype(str)` (unconditional — a comma-free string is stripped
whole). -/
def localityAreaFlow (v : Value) : Value :=
  .str (pyStrip ((pySplit ',' v.toPyStr).getD 0 ""))

/-- Traverse rows through a fallible per-row function, failing as a
whole on the first failure (a raising `Series.apply`). -/
def mapRowsOpt (f : Row → Option Row) : List Row → Option (List Row)
  | [] => some []
  | r :: rs =>
    match f r, mapRowsOpt f rs with
    | some x, some xs => some (x :: xs)
    | _, _ => none

/-- The flow variant's digital test: the `format_type` column may have
been created from `media_type`, so its flag at step 5 is the original
flag or the media-derived one. -/
def flowIsDig (c : ColFlags) (r : Row) : Bool :=
  ((if (c.media_type ∧ !c.format_type : Bool) then true else c.format_type)
      ∧ r.format_type = Value.str "Digital_OOH")
    ∨ (c.lighting_type ∧ r.lighting_type = Value.str "Digital")

/-- Steps 1-5 of `apply_business_logic` (orchestration/flow.py): id
dedup, lighting/format normalization, coordinate split with dropna,
dimension split with defaults, and the unconditional
`frequency_per_minute = np.where(digital, 10, 0)` write. -/
def flowHeadRows (c : ColFlags) (rows : List Row) : List Row :=
  -- 1. ID processing
  let r1 : List Row := if c.billboard_id then
      dedupBy (fun r => r.billboard_id)
        ((rows.filter fun r => !r.billboard_id.isna).map fun r =>
          { r with billboard_id := .str (pyStrip r.billboard_id.toPyStr) }) []
    else rows
  -- 2. Categories and lighting
  let r2 : List Row := if c.lighting_type then
      r1.map fun r => { r with lighting_type := lightingApplyFlow r.lighting_type }
    else r1
  let r3 : List Row := if (c.media_type ∧ !c.format_type : Bool) then
      r2.map fun r => { r with format_type := formatFromMedia r.media_type }
    else r2
  -- 3. Coordinates
  let r4 : List Row := if c.coordinates then
      (r3.map fun r =>
        let p := parse_coords r.coordinates
        { r with latitude := p.1, longitude := p.2 }).filter
        fun r => !r.latitude.isna ∧ !r.longitude.isna
    else r3
  -- 4. Dimensions
  let hasFmt : Bool := if (c.media_type ∧ !c.format_type : Bool) then true
    else c.format_type
  let r5 : List Row := if c.dimensions then
      (r4.map fun r =>
        let p := extract_dimensions r.dimensions
        { r with width_ft := p.1, height_ft := p.2 }).map fun r =>
        if hasFmt then
          let a := if r.format_type = Value.str "Bus_Shelter" ∧ r.width_ft.isna then
              { r with width_ft := .num 25 } else r
          let b := if a.format_type = Value.str "Bus_Shelter" ∧ a.height_ft.isna then
              { a with height_ft := .num 5 } else a
          let d := if b.width_ft.isna then { b with width_ft := .num 20 } else b
          if d.height_ft.isna then { d with height_ft := .num 10 } else d
        else r
    else r4
  -- 5. Frequency (unconditional np.where over the whole column)
  r5.map fun r =>
    { r with frequency_per_minute := Value.num (if flowIsDig c r then 10 else 0) }

/-- Steps 7-10 of `apply_business_logic` on one row: locality-derived
city/area, location fallback, the constant-median rates, the image
alias and the illegal-character cleanup.  Every column condition in
these steps depends on the column set only, so the whole tail of the
task is a single map with this function. -/
def flowTailRow (c : ColFlags) (r : Row) : Row :=
  -- 7. Location (city, area)
  let r8 : Row := if c.locality then
      let cty := localityCity r.locality
      { r with city := cty, district := cty, area := localityAreaFlow r.locality }
    else r
  let r9 : Row := if !c.location then
      (if c.address then
        { r8 with location := if r8.address.isna then
            (if c.landmark then r8.landmark else .str "")
          else r8.address }
      else if c.landmark then
        { r8 with location := r8.landmark }
      else r8)
    else r8
  -- 8. Rates (median_price is the constant 15000.0 here)
  let r10 : Row := if c.minimal_price then
      let mp := to_numeric r9.minimal_price
      let cp : ℚ := match mp with
        | .num q => q
        | _ => 15000
      let base := qMul (qDiv cp 7) 30
      { r9 with
        minimal_price := mp
        base_rate_per_month := .num base
        base_rate_per_unit := .num base
        card_rate_per_month := .num (qMul base (mkRat 11 10))
        card_rate_per_unit := .num (qMul base (mkRat 11 10)) }
    else r9
  -- 9. Images
  let r11 : Row := if (c.image_url ∧ !c.image_urls : Bool) then
      { r10 with image_urls := r10.image_url }
    else r10
  -- 10. Final cleanup
  Row.cleanIllegal r11

/-- Steps 7-10 of `apply_business_logic` over the batch. -/
def flowTailRows (c : ColFlags) (r7 : List Row) : List Row :=
  r7.map (flowTailRow c)

set_option maxHeartbeats 1000000 in
/-- The column set produced by `apply_business_logic`. -/
def flowCols (c : ColFlags) : ColFlags :=
  let c3 : ColFlags := if (c.media_type ∧ !c.format_type : Bool) then
      { c with format_type := true } else c
  let c4 : ColFlags := if c.coordinates then
      { c3 with latitude := true, longitude := true } else c3
  let c5 : ColFlags := if c.dimensions then
      { c4 with width_ft := true, height_ft := true } else c4
  let c6 : ColFlags := { c5 with frequency_per_minute := true }
  let c8 : ColFlags := if c.locality then
      { c6 with city := true, district := true, area := true } else c6
  let c9 : ColFlags := if (!c.location ∧ (c.address ∨ c.landmark) : Bool) then
      { c8 with location := true } else c8
  let c10 : ColFlags := if c.minimal_price then
      { c9 with
          base_rate_per_month := true
          base_rate_per_unit := true
          card_rate_per_month := true
          card_rate_per_unit := true }
    else c9
  if (c.image_url ∧ !c.image_urls : Bool) then { c10 with image_urls := true } else c10

/-- `apply_business_logic` (orchestration/flow.py): the simplified
one-task variant of the whole transformation.  `none` models the
uncaught exception from the quantity step (`float` of an unparseable
string). -/
def apply_business_logic (df : DF) : Option DF :=
  let r6 := flowHeadRows df.cols df.rows
  -- 6. Quantity (can raise)
  let r7opt : Option (List Row) := if df.cols.quantity then
      mapRowsOpt (fun r => (quantRepair r.quantity).map fun q => { r with quantity := q }) r6
    else some r6
  r7opt.map fun r7 => { cols := flowCols df.cols, rows := flowTailRows df.cols r7 }

/-!  The post-processing enrichment (src/post_processing.py).  -/

/-- Collapse whitespace runs to single spaces (`re.sub(r"\s+", " ", ·)`);
the flag records whether the previous character was whitespace. -/
def collapseAux : Bool → List Char → List Char
  | _, [] => []
  | prevWS, c :: cs =>
    if c.isWhitespace then
      if prevWS then collapseAux true cs else ' ' :: collapseAux true cs
    else c :: collapseAux false cs

/-- `clean_text` (src/post_processing.py): empty for non-strings,
stripped and whitespace-collapsed otherwise. -/
def clean_text (v : Value) : String :=
  match v with
  | .str s => ⟨collapseAux false (trimChars s.data)⟩
  | _ => ""

/-- `normalize_key` (src/post_processing.py): lowercase and remove all
whitespace and underscores (the string case; non-string callers are
guarded upstream). -/
def normalize_key (s : String) : String :=
  ⟨(s.data.map lowChar).filter fun c => !(c.isWhitespace ∨ c = '_')⟩

/-- Substring test (Python `pat in s`). -/
def containsSub (pat : List Char) : List Char → Bool
  | [] => decide (pat = [])
  | c :: cs => pat.isPrefixOf (c :: cs) ∨ containsSub pat cs

/-- `map_lighting_type` (src/post_processing.py): ordered substring
checks over the stripped lowercase value; non-strings map to `NL`. -/
def map_lighting_type (v : Value) : String :=
  match v with
  | .str s =>
    let l := pyLower (pyStrip s)
    if containsSub "digital".data l.data then "Digital"
    else if containsSub "back".data l.data ∨ l = "bl" then "BL"
    else if containsSub "front".data l.data ∨ l = "fl" then "FL"
    else "NL"
  | _ => "NL"

/-- `get_category_id` (src/post_processing.py): normalized lookup in the
persisted category map (later entries of the underlying JSON object win,
as in the dict comprehension); null for non-strings and unknown keys. -/
def get_category_id (catMap : List (String × String)) (v : Value) : Option String :=
  match v with
  | .str s =>
    catMap.foldl
      (fun acc p => if normalize_key p.1 = normalize_key s then some p.2 else acc)
      none
  | _ => none

/-- A raw dataframe with arbitrary column labels, as handed to
`transform_dataframe`: named columns in order, each holding one cell per
row (columns are assumed aligned, as pandas guarantees on
construction). -/
structure RawDF where
  cols : List (String × List Value)
deriving DecidableEq, Repr

/-- Number of rows (length of the first column). -/
def RawDF.nrows (d : RawDF) : ℕ :=
  match d.cols with
  | [] => 0
  | p :: _ => p.2.length

/-- `name in df.columns`. -/
def RawDF.hasCol (d : RawDF) (n : String) : Bool :=
  d.cols.any fun p => p.1 = n

/-- The cells of a named column (first match). -/
def RawDF.getCol (d : RawDF) (n : String) : List Value :=
  match d.cols.find? fun p => p.1 = n with
  | some p => p.2
  | none => []

/-- `df[name] = cells` for a new column (appended on the right). -/
def RawDF.addCol (d : RawDF) (n : String) (cells : List Value) : RawDF :=
  ⟨d.cols ++ [(n, cells)]⟩

/-- `df[name] = cells` for an existing column (replaced in place). -/
def RawDF.setCol (d : RawDF) (n : String) (cells : List Value) : RawDF :=
  ⟨d.cols.map fun p => if p.1 = n then (p.1, cells) else p⟩

/-- `row.get(name, default)` for row index `i`. -/
def RawDF.cell (d : RawDF) (i : ℕ) (n : String) (dflt : Value) : Value :=
  match d.cols.find? fun p => p.1 = n with
  | some p => p.2.getD i .null
  | none => dflt

/-- The `col_map` renaming of `transform_dataframe`. -/
def ppRename (n : String) : String :=
  if n = "latitude" then "lat"
  else if n = "longitude" then "lon"
  else if n = "lng" then "lon"
  else if n = "base_rate_per_month" then "base_rate_per_unit"
  else if n = "card_rate_per_month" then "card_rate_per_unit"
  else n

/-- `parse_dims` (inside `transform_dataframe`): leftmost
`(\d+(?:\.\d+)?)\s*[xX\*]\s*(\d+(?:\.\d+)?)` over the lowered, stripped
string.  The scanner takes the greedy number token at each start;
backtracking inside the token cannot help because a shorter token leaves
a digit where `\s*[x*]` must match. -/
def findDimPair : List Char → Option (ℚ × ℚ)
  | [] => none
  | c :: cs =>
    (if c.isDigit then
      let d := (c :: cs).takeWhile Char.isDigit
      let restInt := (c :: cs).dropWhile Char.isDigit
      let cand :=
        match restInt with
        | '.' :: r =>
          if (r.takeWhile Char.isDigit) = [] then (qOfDigits d [], restInt)
          else (qOfDigits d (r.takeWhile Char.isDigit), r.dropWhile Char.isDigit)
        | _ => (qOfDigits d [], restInt)
      match cand.2.dropWhile Char.isWhitespace with
      | sepc :: afterSep =>
        if sepc = 'x' ∨ sepc = 'X' ∨ sepc = '*' then
          match afterSep.dropWhile Char.isWhitespace with
          | c2 :: cs2 =>
            if c2.isDigit then
              let d2 := (c2 :: cs2).takeWhile Char.isDigit
              let restInt2 := (c2 :: cs2).dropWhile Char.isDigit
              match restInt2 with
              | '.' :: r2 =>
                if (r2.takeWhile Char.isDigit) = [] then some (cand.1, qOfDigits d2 [])
                else some (cand.1, qOfDigits d2 (r2.takeWhile Char.isDigit))
              | _ => some (cand.1, qOfDigits d2 [])
            else none
          | [] => none
        else none
      | [] => none
    else none).orElse fun _ => findDimPair cs

/-- The dimensions cell parser of `transform_dataframe`. -/
def parse_dims (v : Value) : Value × Value :=
  match v with
  | .null => (.null, .null)
  | _ =>
    match findDimPair (trimChars (pyLower v.toPyStr).data) with
    | some p => (.num p.1, .num p.2)
    | none => (.null, .null)

/-- One signed number token `-?\d+(?:\.\d+)?` starting exactly here;
returns the value and the remaining characters. -/
def signedNumHere : List Char → Option (ℚ × List Char)
  | [] => none
  | c :: cs =>
    if c = '-' then
      match cs with
      | c2 :: cs2 =>
        if c2.isDigit then
          let d := (c2 :: cs2).takeWhile Char.isDigit
          let restInt := (c2 :: cs2).dropWhile Char.isDigit
          match restInt with
          | '.' :: r =>
            if (r.takeWhile Char.isDigit) = [] then some (-(qOfDigits d []), restInt)
            else some (-(qOfDigits d (r.takeWhile Char.isDigit)), r.dropWhile Char.isDigit)
          | _ => some (-(qOfDigits d []), restInt)
        else none
      | [] => none
    else if c.isDigit then
      let d := (c :: cs).takeWhile Char.isDigit
      let restInt := (c :: cs).dropWhile Char.isDigit
      match restInt with
      | '.' :: r =>
        if (r.takeWhile Char.isDigit) = [] then some (qOfDigits d [], restInt)
        else some (qOfDigits d (r.takeWhile Char.isDigit), r.dropWhile Char.isDigit)
      | _ => some (qOfDigits d [], restInt)
    else none

/-- Leftmost match of
`(-?\d+(?:\.\d+)?)[,\s]+(-?\d+(?:\.\d+)?)`: two signed numbers separated
by at least one comma/whitespace character (the coordinate scanner of
`transform_dataframe`). -/
def findCoordPair : List Char → Option (ℚ × ℚ)
  | [] => none
  | c :: cs =>
    ((signedNumHere (c :: cs)).bind fun p =>
      let sep := p.2.takeWhile fun ch => ch = ',' ∨ ch.isWhitespace
      let rest := p.2.dropWhile fun ch => ch = ',' ∨ ch.isWhitespace
      if sep = ([] : List Char) then none
      else (signedNumHere rest).map fun p2 => (p.1, p2.1)).orElse
      fun _ => findCoordPair cs

/-- The coordinates cell parser of `transform_dataframe`: `(lat, lon)`
in written order (no swap, unlike the two core-pipeline parsers). -/
def parseCoordsPP (v : Value) : Value × Value :=
  match v with
  | .null => (.null, .null)
  | _ =>
    match findCoordPair (trimChars v.toPyStr.data) with
    | some p => (.num p.1, .num p.2)
    | none => (.null, .null)

/-- The `format_type` cleanup of `transform_dataframe`:
`astype(str).replace('nan', '')` then whitespace collapse and strip. -/
def ppCleanFormat (v : Value) : Value :=
  let x := v.toPyStr
  if x = "nan" then .str ""
  else .str (pyStrip ⟨collapseAux false x.data⟩)

/-- Python truthiness of a cell (`if rate`, `if format_type`): NaN is
truthy, zero and the empty string are falsy. -/
def Value.truthy : Value → Bool
  | .null => true
  | .num q => q ≠ 0
  | .str s => s ≠ ""

/-- Insert a comma after every third digit of a reversed digit list
(Python `f-string` `:,` formatting); `k` counts digits emitted since the
last separator. -/
def commaRev : List Char → ℕ → List Char
  | [], _ => []
  | c :: cs, k =>
    if k = 3 then ',' :: c :: commaRev cs 1 else c :: commaRev cs (k + 1)

/-- Python `f-string` thousands formatting of an integer. -/
def intComma (n : ℤ) : String :=
  (if n < 0 then "-" else "") ++ ⟨(commaRev (toString n.natAbs).data.reverse 0).reverse⟩

/-- Python `str.capitalize`: first character uppercased, rest
lowercased. -/
def pyCapitalize (s : String) : String :=
  match s.data with
  | [] => ""
  | c :: cs => ⟨upChar c :: cs.map lowChar⟩

/-- Python `str.replace('_', ' ')`. -/
def underscoreToSpace (s : String) : String :=
  ⟨s.data.map fun c => if c = '_' then ' ' else c⟩

/-- The `rate_str` computation of `enhance_title_and_description`:
`int(float(rate))` under truthiness, thousands-formatted; any exception
(unparseable string, or `int` of NaN) degrades to the fallback text. -/
def rateText (rate : Value) : String :=
  if rate.truthy then
    match rate with
    | .num q => "₹" ++ intComma (Int.tdiv q.num q.den)
    | .str s =>
      match pyFloat s with
      | some (.num q) => "₹" ++ intComma (Int.tdiv q.num q.den)
      | _ => "Price on Request"
    | .null => "Price on Request"
  else "₹" ++ intComma 0

/-- `enhance_title_and_description` (src/post_processing.py): the title
and description strings built from the row, the geocoded city and the
mapped lighting type. -/
def enhance_title_and_description (fmt loc area cityRow wid hei rate : Value)
    (city : Option String) (lighting : String) : String × String :=
  let format_type := clean_text fmt
  let location := clean_text loc
  let _area := clean_text area
  let cityS := clean_text (match city with
    | some c => .str c
    | none => cityRow)
  let size_info := wid.toPyStr ++ "x" ++ hei.toPyStr ++ " ft"
  let rate_str := rateText rate
  let lighting_label := pyCapitalize lighting
  let ft := underscoreToSpace format_type
  (ft ++ " in " ++ location ++ ", " ++ cityS ++ " (" ++ size_info ++ ")",
   lighting_label ++ " " ++ ft ++ " located at " ++ location ++ ", " ++ cityS ++ ". " ++
     "This unit measures " ++ size_info ++ " and is available at " ++ rate_str ++
     " per month.")

/-- One output record of `transform_dataframe` (the literal dict built in
the row loop; the constant identifiers and flags are carried as
written). -/
structure ApiRecord where
  organization_id : String
  owner_id : String
  source_iid : Value
  category_id : Option String
  lighting_type : String
  quantity : Value
  title : String
  description : String
  latitude : Value
  longitude : Value
  google_location : Option String
  address : Value
  city : Value
  street : Value
  area : Value
  landmark : Value
  height : Value
  width : Value
  unit : String
  card_rate_per_unit : Value
  base_rate_per_unit : Value
  listing_status : String
  verification_status : String
  thumbnail_url : Value
  is_archived : Bool
deriving DecidableEq, Repr

/-- `city or row.get(...)`-style fallback: the geocoded component when
it is a truthy string, the row value otherwise. -/
def orRow (c : Option String) (v : Value) : Value :=
  match c with
  | some s => if s = "" then v else .str s
  | none => v

/-- The record built for row `i` of the cleaned batch.  `addr` is the
geocode result for the row's coordinates (formatted address, city, area,
street). -/
def ppRecord (catMap : List (String × String)) (d : RawDF) (i : ℕ)
    (addr : Option String × Option String × Option String × Option String) :
    ApiRecord :=
  let lat := d.cell i "lat" .null
  let lng := d.cell i "lon" .null
  let lighting := map_lighting_type (d.cell i "lighting_type" (.str ""))
  let fmt := d.cell i "format_type" .null
  let td := enhance_title_and_description fmt (d.cell i "location" (.str ""))
    (d.cell i "area" (.str "")) (d.cell i "city" (.str ""))
    (d.cell i "width_ft" (.num 0)) (d.cell i "height_ft" (.num 0))
    (d.cell i "base_rate_per_unit" (.num 0)) addr.2.1 lighting
  { organization_id := "57c3a02b-47bd-4184-a7c7-f6119eb8af59"
    owner_id := "58ef0e87-ffe4-478e-8d92-c3d922fd015b"
    source_iid := d.cell i "billboard_id" (.str "")
    category_id := get_category_id catMap fmt
    lighting_type := lighting
    quantity := d.cell i "quantity" (.num 1)
    title := td.1
    description := td.2
    latitude := lat
    longitude := lng
    google_location := addr.1
    address := d.cell i "location" (.str "")
    city := orRow addr.2.1 (d.cell i "city" (.str ""))
    street := orRow addr.2.2.2 (d.cell i "area" (.str ""))
    area := orRow addr.2.2.1 (d.cell i "area" (.str ""))
    landmark := d.cell i "district" (.str "")
    height := d.cell i "height_ft" (.str "")
    width := d.cell i "width_ft" (.str "")
    unit := "ft"
    card_rate_per_unit := d.cell i "card_rate_per_unit" (.num 0)
    base_rate_per_unit := d.cell i "base_rate_per_unit" (.num 0)
    listing_status := "active"
    verification_status := "approved"
    thumbnail_url := d.cell i "image_urls" (.str "")
    is_archived := false }

/-- Append to the missing-categories set when the lookup failed and the
format value is truthy (insertion order stands in for Python's
nondeterministic `list(set(...))` order). -/
def addMissing (catMap : List (String × String)) (d : RawDF) (i : ℕ)
    (acc : List String) : List String :=
  let fmt := d.cell i "format_type" .null
  if (get_category_id catMap fmt).isNone ∧ fmt.truthy then
    match fmt with
    | .str s => if acc.contains s then acc else acc ++ [s]
    | _ => acc
  else acc

/-- The column normalization of `transform_dataframe`:
`[c.lower().strip() for c in df.columns]` followed by the `col_map`
rename. -/
def ppNormCols (d : RawDF) : RawDF :=
  ⟨d.cols.map fun p => (ppRename (pyStrip (pyLower p.1)), p.2)⟩

/-- Does an `Except` hold a success? -/
def exceptOk {ε α : Type} : Except ε α → Bool
  | .ok _ => true
  | .error _ => false

/-- The success path of `transform_dataframe` after the coordinate
check: coerce `lat`/`lon` to numeric, geocode each coordinate pair
through `geo2`, and build one output record and the missing-category
contributions per row. -/
def transform_ok
    (catMap : List (String × String))
    (geo2 : ℚ → ℚ → Option String × Option String × Option String × Option String)
    (d4 : RawDF) : List ApiRecord × List String :=
  let d5 : RawDF := d4.setCol "lat" ((d4.getCol "lat").map to_numeric)
  let d6 : RawDF := d5.setCol "lon" ((d5.getCol "lon").map to_numeric)
  let idx := List.range d6.nrows
  let addrAt := fun (i : ℕ) =>
    match d6.cell i "lat" .null, d6.cell i "lon" .null with
    | .num a, .num b => geo2 a b
    | _, _ => (none, none, none, none)
  (idx.map (fun i => ppRecord catMap d6 i (addrAt i)),
   idx.foldl (fun acc i => addMissing catMap d6 i acc) [])

/-- The dimensions/coordinates column-derivation steps of
`transform_dataframe` (each target column added only when absent). -/
def ppDerive (d1 : RawDF) : RawDF :=
  let d2 : RawDF := if d1.hasCol "dimensions" then
      let parsed := (d1.getCol "dimensions").map parse_dims
      let dA := if !d1.hasCol "width_ft" then
          d1.addCol "width_ft" (parsed.map fun p => p.1)
        else d1
      if !dA.hasCol "height_ft" then
        dA.addCol "height_ft" (parsed.map fun p => p.2)
      else dA
    else d1
  let d3 : RawDF := if d2.hasCol "coordinates" then
      let parsed := (d2.getCol "coordinates").map parseCoordsPP
      let dA := if !d2.hasCol "lat" then
          d2.addCol "lat" (parsed.map fun p => p.1)
        else d2
      if !dA.hasCol "lon" then
        dA.addCol "lon" (parsed.map fun p => p.2)
      else dA
    else d2
  if d3.hasCol "format_type" then
    d3.setCol "format_type" ((d3.getCol "format_type").map ppCleanFormat)
  else d3

/-- `transform_dataframe` (src/post_processing.py): normalize and rename
columns, derive `width_ft`/`height_ft` from a `dimensions` column and
`lat`/`lon` from a `coordinates` column when the targets are absent,
clean `format_type`, raise (`Except.error`, the `ValueError`) when the
coordinate columns are still missing, coerce coordinates to numeric,
geocode each coordinate pair through the collaborator `geo2`, and build
one output record per row plus the missing-categories set. -/
def transform_dataframe
    (catMap : List (String × String))
    (geo2 : ℚ → ℚ → Option String × Option String × Option String × Option String)
    (d0 : RawDF) : Except String (List ApiRecord × List String) :=
  let d4 : RawDF := ppDerive (ppNormCols d0)
  if !d4.hasCol "lat" ∨ !d4.hasCol "lon" then
    .error "Missing coordinate columns"
  else
    .ok (transform_ok catMap geo2 d4)

/-!  Concrete batches used by the witnesses and counterexamples.  -/

/-- A reverse geocoder that always fails (every lookup degrades to
null, as the spec allows). -/
def geoNone : ℚ → ℚ → Option String := fun _ _ => none

/-- A forward geocoder that always fails. -/
def geoNone4 : ℚ → ℚ → Option String × Option String × Option String × Option String :=
  fun _ _ => (none, none, none, none)

/-- A batch with no `billboard_id` column and two data rows. -/
def dfNoId : DF :=
  { cols := { latitude := true, longitude := true }
    rows := [{ latitude := .num 1, longitude := .num 2 },
             { latitude := .num 3, longitude := .num 4 }] }

/-- A batch whose single row has latitude 5.0, a missing longitude and a
raw coordinates string. -/
def dfHalfPair : DF :=
  { cols := { latitude := true, longitude := true, coordinates := true }
    rows := [{ latitude := .num 5, coordinates := .str "10,20" }] }

/-- A batch whose single row has both coordinates present alongside a
raw coordinates string. -/
def dfFullPair : DF :=
  { cols := { latitude := true, longitude := true, coordinates := true }
    rows := [{ latitude := .num 7, longitude := .num 8, coordinates := .str "10,20" }] }

/-- A complete, valid row carrying an explicit quantity of -1. -/
def dfNegQty : DF :=
  { cols := { billboard_id := true, latitude := true, longitude := true,
              image_urls := true, quantity := true }
    rows := [{ billboard_id := .str "B1", latitude := .num 1, longitude := .num 2,
               image_urls := .str "http://img", quantity := .num (-1) }] }

/-- A valid batch for exercising the quantity rules: a null quantity, an
explicit zero and an explicit 4. -/
def dfQtyMix : DF :=
  { cols := { billboard_id := true, latitude := true, longitude := true,
              image_urls := true, quantity := true }
    rows := [{ billboard_id := .str "A", latitude := .num 1, longitude := .num 2,
               image_urls := .str "u", quantity := .null },
             { billboard_id := .str "B", latitude := .num 1, longitude := .num 2,
               image_urls := .str "u", quantity := .num 0 },
             { billboard_id := .str "C", latitude := .num 1, longitude := .num 2,
               image_urls := .str "u", quantity := .num 4 }] }

/-- A flow-variant batch whose single row carries an explicit
frequency_per_minute of 5 (and is not digital). -/
def dfFreq5 : DF :=
  { cols := { billboard_id := true, frequency_per_minute := true }
    rows := [{ billboard_id := .str "B1", frequency_per_minute := .num 5 }] }

/-- A financial-stage batch whose single row has an explicit base rate
of 200 and an explicit card rate of 100. -/
def dfCardLow : DF :=
  { cols := { base_rate_per_month := true, card_rate_per_month := true }
    rows := [{ base_rate_per_month := .str "200", card_rate_per_month := .str "100" }] }

/-- A financial-stage batch with a null card rate and an explicit
minimal price. -/
def dfCardNull : DF :=
  { cols := { minimal_price := true, card_rate_per_month := true }
    rows := [{ minimal_price := .num 1000 }] }

/-- Scenario 5 of the spec: minimal_price values 10000, 20000 and null,
no base rate column. -/
def dfMedian : DF :=
  { cols := { minimal_price := true }
    rows := [{ minimal_price := .num 10000 },
             { minimal_price := .num 20000 },
             { minimal_price := .null }] }

/-- A validator batch with one valid row, one placeholder image and one
null image. -/
def dfImgMix : DF :=
  { cols := { latitude := true, longitude := true, image_urls := true }
    rows := [{ latitude := .num 1, longitude := .num 2, image_urls := .str "ok" },
             { latitude := .num 1, longitude := .num 2, image_urls := .str "NaN" },
             { latitude := .num 1, longitude := .num 2, image_urls := .null }] }

/-- A validator batch with rows but no image column at all. -/
def dfNoImg : DF :=
  { cols := { latitude := true, longitude := true, billboard_id := true }
    rows := [{ latitude := .num 1, longitude := .num 2, billboard_id := .str "B" }] }

/-- A complete valid single-row batch that survives the whole
pipeline. -/
def dfFull : DF :=
  { cols := { billboard_id := true, format_type := true, lighting_type := true,
              latitude := true, longitude := true, image_urls := true,
              minimal_price := true }
    rows := [{ billboard_id := .str "BB1", format_type := .str "Bus Shelter",
               lighting_type := .str "LED", latitude := .num 12, longitude := .num 77,
               image_urls := .str "http://x/y.jpg", minimal_price := .str "Rs. 7,000" }] }

/-- A raw post-processing batch whose only column is an unparseable
coordinates string. -/
def rawGarbageCoords : RawDF := ⟨[("coordinates", [.str "hello"])]⟩

/-- A raw post-processing batch with no coordinate data at all. -/
def rawNoCoords : RawDF := ⟨[("billboard_id", [.str "B1"])]⟩


/-!  The cleanliness invariant of the standardization-validation chain
(the batch shape its first run establishes and its later runs preserve).  -/

def RowClean (geo : ℚ → ℚ → Option String) (c : ColFlags) (r : Row) : Prop :=
  Value.str (pyStrip r.billboard_id.toPyStr) = r.billboard_id
  ∧ (c.format_type = true → formatApply r.format_type = r.format_type)
  ∧ (c.lighting_type = true → lightingApply r.lighting_type = r.lighting_type)
  ∧ to_numeric r.latitude = r.latitude
  ∧ to_numeric r.longitude = r.longitude
  ∧ (c.city = true → Value.str (pyTitle r.city.toPyStr) = r.city)
  ∧ (c.city = true → r.district.isna = false)
  ∧ geoCodeRow geo r = r
  ∧ to_numeric r.width_ft = r.width_ft
  ∧ to_numeric r.height_ft = r.height_ft
  ∧ (c.format_type = true → r.width_ft.isna = false ∧ r.height_ft.isna = false)
  ∧ r.frequency_per_minute.isna = false
  ∧ r.quantity.isna = false
  ∧ r.quantity ≠ Value.num 0
  ∧ (c.minimal_price = true → clean_numeric r.minimal_price = r.minimal_price)
  ∧ clean_numeric r.base_rate_per_month = r.base_rate_per_month
  ∧ clean_numeric r.card_rate_per_month = r.card_rate_per_month
  ∧ (c.minimal_price = true → r.base_rate_per_month.isna = false)
  ∧ (r.card_rate_per_month.isna = true → r.base_rate_per_month = Value.null)
  ∧ r.base_rate_per_unit = r.base_rate_per_month
  ∧ r.card_rate_per_unit = r.card_rate_per_month
  ∧ invalidImage r.image_urls = false
  ∧ coordBad r = false

def ColClean (keep : List String) (c : ColFlags) : Prop :=
  c.id = false
  ∧ c.latitude = true ∧ c.longitude = true ∧ c.location = true
  ∧ c.width_ft = true ∧ c.height_ft = true
  ∧ c.frequency_per_minute = true ∧ c.quantity = true
  ∧ c.base_rate_per_month = true ∧ c.card_rate_per_month = true
  ∧ c.base_rate_per_unit = true ∧ c.card_rate_per_unit = true
  ∧ (c.city = true → c.district = true)
  ∧ (c.locality = true → c.area = true)
  ∧ c.coordinates = false
  ∧ c.dimensions = false
  ∧ c.image_urls = true
  ∧ projFlags keep c = c

def DFClean (geo : ℚ → ℚ → Option String) (keep : List String) (d : DF) : Prop :=
  ColClean keep d.cols
  ∧ (d.cols.billboard_id = true ∨ d.rows = [])
  ∧ d.rows.Pairwise (fun a b => a.billboard_id ≠ b.billboard_id)
  ∧ ∀ r ∈ d.rows, RowClean geo d.cols r

def stage4 (geo : ℚ → ℚ → Option String) (df : DF) : DF :=
  calculate_financials (fill_dimensions (extract_geography geo (standard_cleanup df)))

/-!  Claims.  -/

theorem qAdd_eq (a b : ℚ) : qAdd a b = a + b := by
  have ha : (a.den : ℚ) ≠ 0 := Nat.cast_ne_zero.mpr a.den_nz
  have hb : (b.den : ℚ) ≠ 0 := Nat.cast_ne_zero.mpr b.den_nz
  rw [qAdd, Rat.mkRat_eq_div]
  push_cast
  conv_rhs => rw [← Rat.num_div_den a, ← Rat.num_div_den b]
  rw [div_add_div _ _ ha hb]
  ring_nf

theorem qMul_eq (a b : ℚ) : qMul a b = a * b := by
  have ha : (a.den : ℚ) ≠ 0 := Nat.cast_ne_zero.mpr a.den_nz
  have hb : (b.den : ℚ) ≠ 0 := Nat.cast_ne_zero.mpr b.den_nz
  rw [qMul, Rat.mkRat_eq_div]
  push_cast
  conv_rhs => rw [← Rat.num_div_den a, ← Rat.num_div_den b]
  rw [div_mul_div_comm]

theorem qDiv_eq (a b : ℚ) : qDiv a b = a / b := by
  rw [qDiv, Rat.divInt_eq_div, div_eq_mul_inv a b, Rat.inv_def', Rat.divInt_eq_div]
  conv_rhs => rw [← Rat.num_div_den a]
  rw [div_mul_div_comm]
  push_cast
  ring


/-- Reverse geocoding touches only the `location` field. -/
theorem geoCodeRow_latitude (geo : ℚ → ℚ → Option String) (r : Row) :
    (geoCodeRow geo r).latitude = r.latitude := by
  unfold geoCodeRow
  split <;> rfl

/-- Reverse geocoding touches only the `location` field. -/
theorem geoCodeRow_longitude (geo : ℚ → ℚ → Option String) (r : Row) :
    (geoCodeRow geo r).longitude = r.longitude := by
  unfold geoCodeRow
  split <;> rfl

/-- C8: If the input batch has no `billboard_id` column after the
rename/static mapping, the schema standardization stage returns an empty
result set (zero rows), regardless of how many input rows there are; the
stage is a total function, so no exception is raised. -/
theorem standard_cleanup_missing_id_empty (df : DF)
    (h : df.cols.billboard_id = false) :
    (standard_cleanup df).rows = [] := by
  simp [standard_cleanup, h]

/-- Witness for C8 on a concrete two-row batch without an id column. -/
theorem standard_cleanup_missing_id_empty_witness :
    dfNoId.cols.billboard_id = false ∧ (standard_cleanup dfNoId).rows = [] :=
  ⟨rfl, standard_cleanup_missing_id_empty dfNoId rfl⟩

/-- C3 counterexample: a row with latitude 5.0 and a missing longitude
enters the geography stage with coordinates `"10,20"`; the stage
overwrites the already-present latitude with the parsed 20.0 instead of
filling only the missing longitude. -/
theorem geography_overwrites_present_latitude :
    dfHalfPair.rows.map (fun r => r.latitude) = [Value.num 5]
      ∧ (extract_geography geoNone dfHalfPair).rows.map (fun r => r.latitude)
          = [Value.num 20]
      ∧ (extract_geography geoNone dfHalfPair).rows.map (fun r => r.longitude)
          = [Value.num 10] := by
  decide

/-- C3 (amended): parsing the raw coordinates column never touches a row
whose latitude and longitude are both already present — both values
survive the stage unchanged; for a row with either coordinate missing,
however, the parse overwrites both fields from the coordinates cell
(not only the missing one). -/
theorem extract_geography_keeps_full_pairs (geo : ℚ → ℚ → Option String) (df : DF)
    (hLat : df.cols.latitude = true) (hLon : df.cols.longitude = true) :
    (extract_geography geo df).rows = df.rows.map (geoRowFull geo df.cols)
      ∧ ∀ r a b, r.latitude = Value.num a → r.longitude = Value.num b →
          (geoRowFull geo df.cols r).latitude = Value.num a
            ∧ (geoRowFull geo df.cols r).longitude = Value.num b := by
  refine ⟨rfl, fun r a b ha hb => ?_⟩
  have hgp : geoParseRow r = r := by
    simp [geoParseRow, ha, hb, Value.isna]
  simp only [geoRowFull, hLat, hLon, hgp, if_true, ite_self,
    geoCodeRow_latitude, geoCodeRow_longitude]
  split_ifs <;> simp [to_numeric, ha, hb]

/-- Witness for C3 (amended) on a concrete row with both coordinates
present: they survive the stage. -/
theorem extract_geography_keeps_full_pairs_witness :
    (extract_geography geoNone dfFullPair).rows
        = dfFullPair.rows.map (geoRowFull geoNone dfFullPair.cols)
      ∧ (geoRowFull geoNone dfFullPair.cols (dfFullPair.rows.getD 0 {})).latitude
          = Value.num 7
      ∧ (geoRowFull geoNone dfFullPair.cols (dfFullPair.rows.getD 0 {})).longitude
          = Value.num 8 :=
  have h := extract_geography_keeps_full_pairs geoNone dfFullPair rfl rfl
  ⟨h.1, (h.2 (dfFullPair.rows.getD 0 {}) 7 8 rfl rfl).1,
        (h.2 (dfFullPair.rows.getD 0 {}) 7 8 rfl rfl).2⟩

/-- C5 counterexample: an explicit quantity of -1 passes through the
whole pipeline unchanged, so the output invariant `quantity >= 1`
fails. -/
theorem pipeline_quantity_can_be_negative :
    (pipeline geoNone [] dfNegQty).rows.map (fun r => r.quantity) = [Value.num (-1)]
      ∧ ¬ ((1 : ℚ) ≤ -1) := by
  decide

/-- C5 (amended): a null quantity is filled with 1 and an explicit
quantity of exactly 0 is coerced to 1, while any other explicit value —
including negative or fractional ones below 1 — passes through
unchanged; `quantity >= 1` therefore holds exactly for output rows whose
explicit quantity was at least 1, null, or zero. -/
theorem fill_dimensions_quantity_rule (df : DF) :
    (fill_dimensions df).rows
        = (df.rows.map (dimExtractRow df.cols)).map
            (dimFillRow df.cols (df.rows.map (dimExtractRow df.cols)))
      ∧ ∀ snap r, df.cols.quantity = true →
          ((r.quantity.isna = true ∨ r.quantity = Value.num 0 →
              (dimFillRow df.cols snap r).quantity = Value.num 1)
            ∧ (∀ q, r.quantity = Value.num q → q ≠ 0 →
                (dimFillRow df.cols snap r).quantity = Value.num q)) := by
  refine ⟨rfl, fun snap r hq => ?_⟩
  have hWH : ∀ s : Row, (dimWHRow df.cols snap s).quantity = s.quantity := by
    intro s
    simp only [dimWHRow]
    split_ifs <;> rfl
  have hFr : ∀ s : Row, (dimFreqRow df.cols s).quantity = s.quantity := by
    intro s
    simp only [dimFreqRow]
    split_ifs <;> rfl
  have hx : (dimFreqRow df.cols (dimWHRow df.cols snap r)).quantity = r.quantity := by
    rw [hFr, hWH]
  constructor
  · intro h
    show (dimQtyRow df.cols (dimFreqRow df.cols (dimWHRow df.cols snap r))).quantity
        = Value.num 1
    rcases h with h | h
    · have hn : r.quantity = Value.null := by
        cases hv : r.quantity <;> simp_all [Value.isna]
      simp [dimQtyRow, hq, hx, hn, Value.isna]
    · simp [dimQtyRow, hq, hx, h, Value.isna]
  · intro q hval hq0
    show (dimQtyRow df.cols (dimFreqRow df.cols (dimWHRow df.cols snap r))).quantity
        = Value.num q
    simp [dimQtyRow, hq, hx, hval, Value.isna, hq0]

/-- Witness for C5 (amended) on the mixed concrete batch: null and zero
become 1, the explicit 4 survives. -/
theorem fill_dimensions_quantity_rule_witness :
    (fill_dimensions dfQtyMix).rows
        = (dfQtyMix.rows.map (dimExtractRow dfQtyMix.cols)).map
            (dimFillRow dfQtyMix.cols (dfQtyMix.rows.map (dimExtractRow dfQtyMix.cols)))
      ∧ (dimFillRow dfQtyMix.cols [] (dfQtyMix.rows.getD 0 {})).quantity = Value.num 1
      ∧ (dimFillRow dfQtyMix.cols [] (dfQtyMix.rows.getD 1 {})).quantity = Value.num 1
      ∧ (dimFillRow dfQtyMix.cols [] (dfQtyMix.rows.getD 2 {})).quantity = Value.num 4 :=
  have h := fill_dimensions_quantity_rule dfQtyMix
  ⟨h.1,
   (h.2 [] (dfQtyMix.rows.getD 0 {}) rfl).1 (Or.inl rfl),
   (h.2 [] (dfQtyMix.rows.getD 1 {}) rfl).1 (Or.inr rfl),
   (h.2 [] (dfQtyMix.rows.getD 2 {}) rfl).2 4 rfl (by norm_num)⟩

/-- C4 counterexample: a row carrying an explicit non-null
frequency_per_minute of 5 is overwritten to 0 by the flow variant
(`np.where` writes the whole column unconditionally), so the two
pipeline variants do not both preserve explicit values. -/
theorem flow_overwrites_explicit_frequency :
    dfFreq5.rows.map (fun r => r.frequency_per_minute) = [Value.num 5]
      ∧ (apply_business_logic dfFreq5).map (fun d => d.rows.map fun r => r.frequency_per_minute)
          = some [Value.num 0] := by
  decide

/-- C7 counterexample: a row with an explicit base rate of 200 and an
explicit card rate of 100 leaves the financial stage with
`card_rate_per_month < base_rate_per_month` — the invariant only holds
for imputed card rates. -/
theorem card_rate_below_base_rate :
    (calculate_financials dfCardLow).rows.map
        (fun r => (r.base_rate_per_month, r.card_rate_per_month))
      = [(Value.num 200, Value.num 100)]
      ∧ ¬ ((200 : ℚ) ≤ 100) := by
  decide

/-- A decimal digit pair is non-negative. -/
theorem qOfDigits_nonneg (d f : List Char) : 0 ≤ qOfDigits d f := by
  rw [qOfDigits, Rat.mkRat_eq_div]
  positivity

/-- The number token extracted by the `clean_numeric` regex is
non-negative (the pattern carries no sign). -/
theorem firstNumToken_nonneg :
    ∀ l q, firstNumToken l = some q → 0 ≤ q := by
  intro l
  induction l with
  | nil => intro q h; simp [firstNumToken] at h
  | cons c cs ih =>
    intro q h
    by_cases hc : c.isDigit
    · rw [firstNumToken, if_pos hc] at h
      dsimp only at h
      split at h
      · split at h <;>
          (injection h with h; subst h; exact qOfDigits_nonneg _ _)
      · injection h with h
        subst h
        exact qOfDigits_nonneg _ _
    · rw [firstNumToken, if_neg hc] at h
      exact ih q h

/-- `clean_numeric` never produces a negative number. -/
theorem clean_numeric_nonneg (v : Value) (q : ℚ)
    (h : clean_numeric v = Value.num q) : 0 ≤ q := by
  cases v with
  | null => simp [clean_numeric] at h
  | num p =>
    simp only [clean_numeric, Value.num.injEq] at h
    subst h
    exact abs_nonneg p
  | str s =>
    simp only [clean_numeric] at h
    split at h
    · injection h with h
      subst h
      exact firstNumToken_nonneg _ _ (by assumption)
    · exact absurd h (by simp)

/-- Members of an insertion-sorted list come from the original list. -/
theorem insertSorted_mem (q x : ℚ) :
    ∀ l, x ∈ insertSorted q l → x = q ∨ x ∈ l := by
  intro l
  induction l with
  | nil => intro h; simpa [insertSorted] using h
  | cons a as ih =>
    intro h
    rw [insertSorted] at h
    split at h
    · rcases List.mem_cons.mp h with h | h
      · exact Or.inl h
      · exact Or.inr h
    · rcases List.mem_cons.mp h with h | h
      · exact Or.inr (by simp [h])
      · rcases ih h with h2 | h2
        · exact Or.inl h2
        · exact Or.inr (by simp [h2])

/-- Members of the sorted list come from the original list. -/
theorem sortQ_mem (x : ℚ) : ∀ l, x ∈ sortQ l → x ∈ l := by
  intro l
  induction l with
  | nil => intro h; simpa [sortQ] using h
  | cons a as ih =>
    intro h
    rcases insertSorted_mem a x (sortQ as) h with h | h
    · simp [h]
    · simp [ih h]

/-- `getD` with default 0 over a list of non-negative rationals is
non-negative. -/
theorem getD_nonneg (l : List ℚ) (h : ∀ x ∈ l, 0 ≤ x) (k : ℕ) :
    0 ≤ l.getD k 0 := by
  induction l generalizing k with
  | nil => simp
  | cons a as ih =>
    cases k with
    | zero => simpa using h a (by simp)
    | succ n =>
      simpa using ih (fun x hx => h x (by simp [hx])) n

/-- The pandas median of a list of non-negative values is
non-negative. -/
theorem medianQ_nonneg (l : List ℚ) (h : ∀ x ∈ l, 0 ≤ x) (m : ℚ)
    (hm : medianQ l = some m) : 0 ≤ m := by
  have hs : ∀ x ∈ sortQ l, 0 ≤ x := fun x hx => h x (sortQ_mem x l hx)
  simp only [medianQ] at hm
  split at hm
  · exact absurd hm (by simp)
  · split at hm
    · injection hm with hm
      subst hm
      exact getD_nonneg _ hs _
    · injection hm with hm
      subst hm
      rw [qDiv_eq, qAdd_eq]
      have h1 := getD_nonneg _ hs ((sortQ l).length / 2 - 1)
      have h2 := getD_nonneg _ hs ((sortQ l).length / 2)
      positivity

/-- The cleaned-row `minimal_price` projection of `finCleanRow`. -/
theorem finCleanRow_minimal_price (c : ColFlags) (r : Row) :
    (finCleanRow c r).minimal_price
      = (if c.minimal_price then clean_numeric r.minimal_price
         else r.minimal_price) := by
  simp only [finCleanRow]
  split_ifs <;> rfl

/-- The cleaned-row `base_rate_per_month` projection of `finCleanRow`:
cleaned when the column exists, initialized null otherwise. -/
theorem finCleanRow_base (c : ColFlags) (r : Row) :
    (finCleanRow c r).base_rate_per_month
      = (if c.base_rate_per_month then clean_numeric r.base_rate_per_month
         else Value.null) := by
  simp only [finCleanRow]
  split_ifs with h1 h2 <;> simp_all

/-- The cleaned-row `card_rate_per_month` projection of `finCleanRow`. -/
theorem finCleanRow_card (c : ColFlags) (r : Row) :
    (finCleanRow c r).card_rate_per_month
      = (if c.card_rate_per_month then clean_numeric r.card_rate_per_month
         else Value.null) := by
  simp only [finCleanRow]
  split_ifs with h1 h2 <;> simp_all

/-- Every cleaned `minimal_price` value of a batch whose minimal_price
column exists is non-negative. -/
theorem mpValues_cleaned_nonneg (df : DF) (hmp : df.cols.minimal_price = true) :
    ∀ q ∈ mpValues (df.rows.map (finCleanRow df.cols)), 0 ≤ q := by
  intro q hq
  simp only [mpValues, List.mem_filterMap, List.mem_map] at hq
  rcases hq with ⟨r, ⟨r₀, _, rfl⟩, hr⟩
  rw [finCleanRow_minimal_price, if_pos hmp] at hr
  cases hp : clean_numeric r₀.minimal_price with
  | null => rw [hp] at hr; exact absurd hr (by simp)
  | num p =>
    rw [hp] at hr
    injection hr with hr
    subst hr
    exact clean_numeric_nonneg _ _ hp
  | str s => rw [hp] at hr; exact absurd hr (by simp)

/-- The effective median price of a batch whose minimal_price column
exists is non-negative. -/
theorem medPrice_nonneg (df : DF) (hmp : df.cols.minimal_price = true) :
    0 ≤ medPrice (df.rows.map (finCleanRow df.cols)) := by
  unfold medPrice
  split
  · norm_num
  · split
    · norm_num
    · exact medianQ_nonneg _ (mpValues_cleaned_nonneg df hmp) _ (by assumption)

/-- A card rate imputed by `finFillRow` equals base × 1.10. -/
theorem finFillRow_card_imputed (c : ColFlags) (medP : ℚ) (r : Row)
    (hc : r.card_rate_per_month = Value.null) :
    (finFillRow c medP r).card_rate_per_month
      = vmul (finFillRow c medP r).base_rate_per_month (mkRat 11 10) := by
  simp only [finFillRow]
  split_ifs with h1 h2 <;> simp_all [Value.isna]

/-- The base rate produced by `finFillRow` on a cleaned row is never
negative. -/
theorem finFillRow_base_nonneg (df : DF) (r₀ : Row) (b : ℚ)
    (hb : (finFillRow df.cols (medPrice (df.rows.map (finCleanRow df.cols)))
        (finCleanRow df.cols r₀)).base_rate_per_month = Value.num b) :
    0 ≤ b := by
  have hbase : (finFillRow df.cols (medPrice (df.rows.map (finCleanRow df.cols)))
      (finCleanRow df.cols r₀)).base_rate_per_month
        = (if df.cols.minimal_price ∧ (finCleanRow df.cols r₀).base_rate_per_month.isna then
            Value.num (qMul (match (finCleanRow df.cols r₀).minimal_price with
                             | .num q => q
                             | _ => medPrice (df.rows.map (finCleanRow df.cols)))
              (mkRat 4285 1000))
          else (finCleanRow df.cols r₀).base_rate_per_month) := by
    simp only [finFillRow]
    split_ifs <;> simp_all [Value.isna]
  rw [hbase] at hb
  split at hb
  · rename_i hcond
    injection hb with hb
    subst hb
    rw [qMul_eq]
    have h1000 : (mkRat 4285 1000 : ℚ) = 4285 / 1000 := by
      rw [Rat.mkRat_eq_div]
      norm_num
    rw [h1000]
    have hX : 0 ≤ (match (finCleanRow df.cols r₀).minimal_price with
        | Value.num q => q
        | _ => medPrice (df.rows.map (finCleanRow df.cols))) := by
      have hmpc := finCleanRow_minimal_price df.cols r₀
      rw [if_pos hcond.1] at hmpc
      cases hcl : clean_numeric r₀.minimal_price with
      | null => rw [hmpc, hcl]; exact medPrice_nonneg df hcond.1
      | num p => rw [hmpc, hcl]; exact clean_numeric_nonneg _ _ hcl
      | str s => rw [hmpc, hcl]; exact medPrice_nonneg df hcond.1
    positivity
  · rw [finCleanRow_base] at hb
    split at hb
    · exact clean_numeric_nonneg _ _ hb
    · exact absurd hb (by simp)

/-- C7 (amended): wherever the (cleaned) card rate is null it is set to
base_rate_per_month × 1.10, and every such imputed row with a numeric
base rate satisfies card_rate_per_month ≥ base_rate_per_month (cleaned
rates are never negative); a row with an explicit card rate below its
base rate, however, passes through unchanged, so `card ≥ base` does not
hold for every output row with a rate. -/
theorem card_rate_imputation_rule (df : DF) (r₀ : Row)
    (hcard : (finCleanRow df.cols r₀).card_rate_per_month = Value.null) :
    (calculate_financials df).rows
        = (df.rows.map (finCleanRow df.cols)).map
            (finFillRow df.cols (medPrice (df.rows.map (finCleanRow df.cols))))
      ∧ (finFillRow df.cols (medPrice (df.rows.map (finCleanRow df.cols)))
            (finCleanRow df.cols r₀)).card_rate_per_month
          = vmul ((finFillRow df.cols (medPrice (df.rows.map (finCleanRow df.cols)))
              (finCleanRow df.cols r₀)).base_rate_per_month) (mkRat 11 10)
      ∧ ∀ b, (finFillRow df.cols (medPrice (df.rows.map (finCleanRow df.cols)))
            (finCleanRow df.cols r₀)).base_rate_per_month = Value.num b →
          ∃ cq, (finFillRow df.cols (medPrice (df.rows.map (finCleanRow df.cols)))
              (finCleanRow df.cols r₀)).card_rate_per_month = Value.num cq ∧ b ≤ cq := by
  refine ⟨rfl, finFillRow_card_imputed _ _ _ hcard, fun b hb => ?_⟩
  have hbn := finFillRow_base_nonneg df r₀ b hb
  refine ⟨qMul b (mkRat 11 10), ?_, ?_⟩
  · rw [finFillRow_card_imputed _ _ _ hcard, hb]
    rfl
  · rw [qMul_eq]
    have h1110 : (mkRat 11 10 : ℚ) = 11 / 10 := by
      rw [Rat.mkRat_eq_div]
      norm_num
    rw [h1110]
    nlinarith

/-- Witness for C7 (amended): a concrete row with a null card rate and
minimal price 1000 gets card = base × 1.10 and card ≥ base. -/
theorem card_rate_imputation_rule_witness :
    (calculate_financials dfCardNull).rows
        = (dfCardNull.rows.map (finCleanRow dfCardNull.cols)).map
            (finFillRow dfCardNull.cols
              (medPrice (dfCardNull.rows.map (finCleanRow dfCardNull.cols))))
      ∧ (finFillRow dfCardNull.cols
            (medPrice (dfCardNull.rows.map (finCleanRow dfCardNull.cols)))
            (finCleanRow dfCardNull.cols (dfCardNull.rows.getD 0 {}))).card_rate_per_month
          = vmul ((finFillRow dfCardNull.cols
              (medPrice (dfCardNull.rows.map (finCleanRow dfCardNull.cols)))
              (finCleanRow dfCardNull.cols (dfCardNull.rows.getD 0 {}))).base_rate_per_month)
            (mkRat 11 10) :=
  have h := card_rate_imputation_rule dfCardNull (dfCardNull.rows.getD 0 {}) (by decide)
  ⟨h.1, h.2.1⟩

/-- C6: in the financial stage, for every row whose (cleaned) base rate
is null: a present numeric minimal_price yields
base = minimal_price × 4.285; a null minimal_price with a non-null,
non-zero batch median of minimal_price yields base = median × 4.285;
and the constant 15000.0 stands in for the median (again scaled by
4.285) when that median is null or zero. -/
theorem base_rate_imputation_rule (df : DF) (hmp : df.cols.minimal_price = true)
    (r₀ : Row) (hbase : (finCleanRow df.cols r₀).base_rate_per_month = Value.null) :
    (calculate_financials df).rows
        = (df.rows.map (finCleanRow df.cols)).map
            (finFillRow df.cols (medPrice (df.rows.map (finCleanRow df.cols))))
      ∧ (∀ p, (finCleanRow df.cols r₀).minimal_price = Value.num p →
          (finFillRow df.cols (medPrice (df.rows.map (finCleanRow df.cols)))
              (finCleanRow df.cols r₀)).base_rate_per_month
            = Value.num (qMul p (mkRat 4285 1000)))
      ∧ ((finCleanRow df.cols r₀).minimal_price = Value.null →
          (∀ m, medianQ (mpValues (df.rows.map (finCleanRow df.cols))) = some m →
              m ≠ 0 →
              (finFillRow df.cols (medPrice (df.rows.map (finCleanRow df.cols)))
                  (finCleanRow df.cols r₀)).base_rate_per_month
                = Value.num (qMul m (mkRat 4285 1000)))
            ∧ ((medianQ (mpValues (df.rows.map (finCleanRow df.cols))) = none
                  ∨ medianQ (mpValues (df.rows.map (finCleanRow df.cols))) = some 0) →
              (finFillRow df.cols (medPrice (df.rows.map (finCleanRow df.cols)))
                  (finCleanRow df.cols r₀)).base_rate_per_month
                = Value.num (qMul 15000 (mkRat 4285 1000)))) := by
  have hbase2 : ∀ medP, (finFillRow df.cols medP (finCleanRow df.cols r₀)).base_rate_per_month
      = Value.num (qMul (match (finCleanRow df.cols r₀).minimal_price with
                         | .num q => q
                         | _ => medP) (mkRat 4285 1000)) := by
    intro medP
    simp only [finFillRow]
    split_ifs <;> simp_all [Value.isna, hmp]
  refine ⟨rfl, fun p hp => ?_, fun hnull => ⟨fun m hm hm0 => ?_, fun hdeg => ?_⟩⟩
  · rw [hbase2, hp]
  · rw [hbase2, hnull]
    have : medPrice (df.rows.map (finCleanRow df.cols)) = m := by
      unfold medPrice
      rw [hm]
      simp [hm0]
    rw [this]
  · rw [hbase2, hnull]
    have : medPrice (df.rows.map (finCleanRow df.cols)) = 15000 := by
      unfold medPrice
      rcases hdeg with h | h <;> rw [h] <;> simp
    rw [this]

/-- Witness for C6 on Scenario 5 of the spec: prices 10000, 20000 and
null; the null-price row is imputed from the batch median 15000, scaled
by 4.285. -/
theorem base_rate_imputation_rule_witness :
    (calculate_financials dfMedian).rows
        = (dfMedian.rows.map (finCleanRow dfMedian.cols)).map
            (finFillRow dfMedian.cols
              (medPrice (dfMedian.rows.map (finCleanRow dfMedian.cols))))
      ∧ (finFillRow dfMedian.cols
            (medPrice (dfMedian.rows.map (finCleanRow dfMedian.cols)))
            (finCleanRow dfMedian.cols (dfMedian.rows.getD 2 {}))).base_rate_per_month
          = Value.num (qMul 15000 (mkRat 4285 1000)) :=
  have h := base_rate_imputation_rule dfMedian rfl (dfMedian.rows.getD 2 {})
    (by decide)
  ⟨h.1, ((h.2.2 (by decide)).1 15000 (by decide) (by norm_num))⟩

/-- Dropping by a predicate splits a list's length. -/
theorem length_sub_filter_not (p : Row → Bool) (l : List Row) :
    l.length - (l.filter fun x => !p x).length = (l.filter p).length := by
  induction l with
  | nil => rfl
  | cons a as ih =>
    have hle := List.length_filter_le (fun x => !p x) as
    by_cases h : p a <;> simp [h] <;> omega

/-- C2: in the row-level validator, a batch without either image column
is rejected whole (empty result); otherwise every row whose resolved
image value is null or a case-insensitive placeholder is dropped — no
such row survives — and the image audit count is exactly the number of
rows so dropped. -/
theorem validator_image_gate (keep : List String) (df : DF) :
    ((df.cols.image_urls = false ∧ df.cols.image_url = false) →
        (final_validation keep df).1.rows = [])
      ∧ ((df.cols.image_urls = true ∨ df.cols.image_url = true) →
          ((final_validation keep df).2.1
              = ((resolvedRows df).filter fun r => invalidImage r.image_urls).length)
            ∧ ∀ r ∈ (final_validation keep df).1.rows,
                invalidImage r.image_urls = false) := by
  constructor
  · rintro ⟨hu, hv⟩
    simp [final_validation, hu, hv]
  · intro hor
    have hcond : ¬((!df.cols.image_urls) = true ∧ (!df.cols.image_url) = true) := by
      rcases hor with h | h <;> simp [h]
    rw [final_validation, if_neg hcond]
    constructor
    · rw [apply_ite (fun p : DF × ℕ × ℕ => p.2.1)]
      dsimp only
      rw [ite_self]
      exact length_sub_filter_not _ _
    · intro r hr
      rw [apply_ite (fun p : DF × ℕ × ℕ => p.1.rows)] at hr
      dsimp only at hr
      split at hr
      · simp at hr
      · have h1 := List.mem_of_mem_filter hr
        have h2 := List.of_mem_filter h1
        simpa using h2

/-- Witness for C2: one concrete batch where the placeholder and null
images are counted as dropped, and one concrete batch rejected whole
for having no image column. -/
theorem validator_image_gate_witness :
    ((final_validation [] dfImgMix).2.1
        = ((resolvedRows dfImgMix).filter fun r => invalidImage r.image_urls).length)
      ∧ (final_validation [] dfNoImg).1.rows = [] :=
  ⟨((validator_image_gate [] dfImgMix).2 (Or.inl rfl)).1,
   (validator_image_gate [] dfNoImg).1 ⟨rfl, rfl⟩⟩

/-- Every output row of the validator passes the coordinate gate. -/
theorem final_validation_coordBad (keep : List String) (d : DF) :
    ∀ r ∈ (final_validation keep d).1.rows, coordBad r = false := by
  intro r hr
  rw [final_validation] at hr
  split at hr
  · simp at hr
  · rw [apply_ite (fun p : DF × ℕ × ℕ => p.1.rows)] at hr
    dsimp only at hr
    split at hr
    · simp at hr
    · have h2 := List.of_mem_filter hr
      simpa using h2

/-- C1: after the full standardization-through-validation pipeline,
every output row has latitude and longitude either both non-null or
both null (in fact both non-null), never exactly one of the two. -/
theorem pipeline_coordinate_pairing (geo : ℚ → ℚ → Option String)
    (keep : List String) (df : DF) :
    ∀ r ∈ (pipeline geo keep df).rows,
      (r.latitude = Value.null ↔ r.longitude = Value.null) := by
  intro r hr
  have h := final_validation_coordBad keep _ r hr
  have hlat : r.latitude ≠ Value.null := by
    intro hn
    simp [coordBad, hn, Value.isna] at h
  have hlon : r.longitude ≠ Value.null := by
    intro hn
    simp [coordBad, hn, Value.isna] at h
  exact ⟨fun hh => absurd hh hlat, fun hh => absurd hh hlon⟩

/-- Witness for C1: the surviving row of a concrete full pipeline run
satisfies the pairing invariant. -/
theorem pipeline_coordinate_pairing_witness :
    ((pipeline geoNone [] dfFull).rows.getD 0 {}).latitude = Value.null
      ↔ ((pipeline geoNone [] dfFull).rows.getD 0 {}).longitude = Value.null :=
  pipeline_coordinate_pairing geoNone [] dfFull _ (by decide)

/-- The width/height fill touches neither frequency, format nor
lighting. -/
theorem dimWHRow_freq (c : ColFlags) (snap : List Row) (s : Row) :
    (dimWHRow c snap s).frequency_per_minute = s.frequency_per_minute := by
  simp only [dimWHRow]
  split_ifs <;> rfl

/-- The width/height fill preserves `format_type`. -/
theorem dimWHRow_format (c : ColFlags) (snap : List Row) (s : Row) :
    (dimWHRow c snap s).format_type = s.format_type := by
  simp only [dimWHRow]
  split_ifs <;> rfl

/-- The width/height fill preserves `lighting_type`. -/
theorem dimWHRow_lighting (c : ColFlags) (snap : List Row) (s : Row) :
    (dimWHRow c snap s).lighting_type = s.lighting_type := by
  simp only [dimWHRow]
  split_ifs <;> rfl

/-- The quantity repair preserves `frequency_per_minute`. -/
theorem dimQtyRow_freq (c : ColFlags) (s : Row) :
    (dimQtyRow c s).frequency_per_minute = s.frequency_per_minute := by
  simp only [dimQtyRow]
  split_ifs <;> rfl

/-- Elements of a traversed list come from successful applications. -/
theorem mapRowsOpt_mem (f : Row → Option Row) :
    ∀ l out, mapRowsOpt f l = some out → ∀ x ∈ out, ∃ r ∈ l, f r = some x := by
  intro l
  induction l with
  | nil =>
    intro out h x hx
    simp only [mapRowsOpt] at h
    injection h with h
    subst h
    simp at hx
  | cons a as ih =>
    intro out h x hx
    simp only [mapRowsOpt] at h
    cases hfa : f a with
    | none => rw [hfa] at h; exact absurd h (by simp)
    | some y =>
      rw [hfa] at h
      cases hrest : mapRowsOpt f as with
      | none => rw [hrest] at h; exact absurd h (by simp)
      | some ys =>
        rw [hrest] at h
        injection h with h
        subst h
        rcases List.mem_cons.mp hx with hx | hx
        · exact ⟨a, List.mem_cons_self a as, by rw [hx]; exact hfa⟩
        · rcases ih ys hrest x hx with ⟨r, hrm, hfr⟩
          exact ⟨r, List.mem_cons_of_mem a hrm, hfr⟩

/-- Every row leaving the flow variant's frequency step carries the
written 10-or-0 default. -/
theorem flowHeadRows_freq (c : ColFlags) (rows : List Row) :
    ∀ x ∈ flowHeadRows c rows, x.frequency_per_minute = Value.num 10
      ∨ x.frequency_per_minute = Value.num 0 := by
  intro x hx
  simp only [flowHeadRows] at hx
  rcases List.mem_map.mp hx with ⟨s, _, rfl⟩
  by_cases hd : flowIsDig c s = true <;> simp [hd]

/-- The flow variant's tail (location, rates, images, cleanup) keeps a
numeric `frequency_per_minute` exactly as it was. -/
theorem flowTailRow_freq_num (c : ColFlags) (s : Row) (q : ℚ)
    (h : s.frequency_per_minute = Value.num q) :
    (flowTailRow c s).frequency_per_minute = Value.num q := by
  have hmid : ∀ t : Row, t.frequency_per_minute = Value.num q →
      (Row.cleanIllegal t).frequency_per_minute = Value.num q := by
    intro t ht
    show remove_illegal_chars t.frequency_per_minute = Value.num q
    rw [ht]
    rfl
  simp only [flowTailRow]
  split_ifs <;> exact hmid _ h

/-- C4's flow half: every output row of `apply_business_logic` carries
a frequency of exactly 10 or 0, whatever the input said. -/
theorem apply_business_logic_freq (dfF : DF) (out : DF)
    (h : apply_business_logic dfF = some out) :
    ∀ r ∈ out.rows, r.frequency_per_minute = Value.num 10
      ∨ r.frequency_per_minute = Value.num 0 := by
  intro r hr
  simp only [apply_business_logic] at h
  rcases Option.map_eq_some'.mp h with ⟨r7, h7, rfl⟩
  have hP7 : ∀ s ∈ r7, s.frequency_per_minute = Value.num 10
      ∨ s.frequency_per_minute = Value.num 0 := by
    split at h7
    · intro s hs
      rcases mapRowsOpt_mem _ _ _ h7 s hs with ⟨s6, hs6, hfs⟩
      rcases Option.map_eq_some'.mp hfs with ⟨qv, _, rfl⟩
      have := flowHeadRows_freq dfF.cols dfF.rows s6 hs6
      exact this
    · injection h7 with h7
      subst h7
      exact flowHeadRows_freq dfF.cols dfF.rows
  dsimp only at hr
  rcases List.mem_map.mp hr with ⟨s, hs, rfl⟩
  rcases hP7 s hs with h | h
  · exact Or.inl (flowTailRow_freq_num dfF.cols s 10 h)
  · exact Or.inr (flowTailRow_freq_num dfF.cols s 0 h)

/-- C4 (amended): the dimension-defaults stage writes
frequency_per_minute = 10 for digital rows (format_type `Digital_OOH`
or lighting_type `Digital`) and 0 otherwise, but only where the field
is null, and preserves every explicit non-null value; the flow variant,
however, rewrites the whole column unconditionally, so each of its
output rows carries exactly 10 or 0 regardless of any explicit input
value. -/
theorem frequency_default_rules (df : DF)
    (hq : df.cols.frequency_per_minute = true) :
    (fill_dimensions df).rows
        = (df.rows.map (dimExtractRow df.cols)).map
            (dimFillRow df.cols (df.rows.map (dimExtractRow df.cols)))
      ∧ (∀ snap r, r.frequency_per_minute.isna = true →
          (dimFillRow df.cols snap r).frequency_per_minute
            = Value.num (if isDigitalRow df.cols r then 10 else 0))
      ∧ (∀ snap r, r.frequency_per_minute.isna = false →
          (dimFillRow df.cols snap r).frequency_per_minute
            = r.frequency_per_minute)
      ∧ (∀ dfF out, apply_business_logic dfF = some out →
          ∀ r ∈ out.rows, r.frequency_per_minute = Value.num 10
            ∨ r.frequency_per_minute = Value.num 0) := by
  refine ⟨rfl, ?_, ?_, fun dfF out h => apply_business_logic_freq dfF out h⟩
  · intro snap r hnull
    show (dimQtyRow df.cols (dimFreqRow df.cols (dimWHRow df.cols snap r))).frequency_per_minute
        = Value.num (if isDigitalRow df.cols r then 10 else 0)
    rw [dimQtyRow_freq]
    have hdig : isDigitalRow df.cols (dimWHRow df.cols snap r) = isDigitalRow df.cols r := by
      simp [isDigitalRow, dimWHRow_format, dimWHRow_lighting]
    simp [dimFreqRow, hq, dimWHRow_freq, hnull, hdig]
  · intro snap r hval
    show (dimQtyRow df.cols (dimFreqRow df.cols (dimWHRow df.cols snap r))).frequency_per_minute
        = r.frequency_per_minute
    rw [dimQtyRow_freq]
    simp [dimFreqRow, hq, dimWHRow_freq, hval]

/-- Witness for C4 (amended): the dimension stage keeps the concrete
explicit frequency 5. -/
theorem frequency_default_rules_witness :
    (dimFillRow dfFreq5.cols [] (dfFreq5.rows.getD 0 {})).frequency_per_minute
      = (dfFreq5.rows.getD 0 {}).frequency_per_minute :=
  (frequency_default_rules dfFreq5 rfl).2.2.1 [] (dfFreq5.rows.getD 0 {}) (by decide)

/-- Appending a column only adds its own name. -/
theorem hasCol_addCol (d : RawDF) (n : String) (cells : List Value) (m : String) :
    (d.addCol n cells).hasCol m = (d.hasCol m || n = m) := by
  simp [RawDF.addCol, RawDF.hasCol, List.any_append]

/-- Replacing a column's cells keeps the column names. -/
theorem hasCol_setCol (d : RawDF) (n : String) (cells : List Value) (m : String) :
    (d.setCol n cells).hasCol m = d.hasCol m := by
  simp only [RawDF.setCol, RawDF.hasCol, List.any_map]
  congr 1
  funext p
  dsimp only [Function.comp]
  split <;> rfl

/-- Column presence distributes over a conditional batch. -/
theorem hasCol_ite (b : Prop) [Decidable b] (x y : RawDF) (m : String) :
    (if b then x else y).hasCol m = if b then x.hasCol m else y.hasCol m :=
  apply_ite (fun d => RawDF.hasCol d m) b x y

/-- After the derivation steps, `lat` is present iff it was present or a
`coordinates` column supplied it. -/
theorem ppDerive_hasCol_lat (d1 : RawDF) :
    (ppDerive d1).hasCol "lat" = (d1.hasCol "lat" || d1.hasCol "coordinates") := by
  have h1 : ¬ (("width_ft" : String) = "lat") := by decide
  have h2 : ¬ (("height_ft" : String) = "lat") := by decide
  have h3 : ¬ (("lon" : String) = "lat") := by decide
  cases hdim : d1.hasCol "dimensions" <;>
    cases hw : d1.hasCol "width_ft" <;>
      cases hh : d1.hasCol "height_ft" <;>
        cases hco : d1.hasCol "coordinates" <;>
          cases hla : d1.hasCol "lat" <;>
            simp [ppDerive, hasCol_ite, hasCol_setCol, hasCol_addCol,
              hdim, hw, hh, hco, hla, h1, h2, h3]

/-- After the derivation steps, `lon` is present iff it was present or a
`coordinates` column supplied it. -/
theorem ppDerive_hasCol_lon (d1 : RawDF) :
    (ppDerive d1).hasCol "lon" = (d1.hasCol "lon" || d1.hasCol "coordinates") := by
  have h1 : ¬ (("width_ft" : String) = "lon") := by decide
  have h2 : ¬ (("height_ft" : String) = "lon") := by decide
  have h3 : ¬ (("lat" : String) = "lon") := by decide
  cases hdim : d1.hasCol "dimensions" <;>
    cases hw : d1.hasCol "width_ft" <;>
      cases hh : d1.hasCol "height_ft" <;>
        cases hco : d1.hasCol "coordinates" <;>
          cases hla : d1.hasCol "lat" <;>
            cases hlo : d1.hasCol "lon" <;>
              simp [ppDerive, hasCol_ite, hasCol_setCol, hasCol_addCol,
                hdim, hw, hh, hco, hla, hlo, h1, h2, h3]

/-- C10 counterexample: a batch whose only column is an unparseable
`coordinates` string has no lat/lon columns after renaming and no
derivable coordinate values, yet `transform_dataframe` does not raise —
it returns one record whose latitude and longitude have degraded to
null. -/
theorem transform_garbage_coords_no_raise :
    (ppNormCols rawGarbageCoords).hasCol "lat" = false
      ∧ (ppNormCols rawGarbageCoords).hasCol "lon" = false
      ∧ parseCoordsPP (Value.str "hello") = (Value.null, Value.null)
      ∧ exceptOk (transform_dataframe [] geoNone4 rawGarbageCoords) = true
      ∧ (match transform_dataframe [] geoNone4 rawGarbageCoords with
         | .ok p => p.1.map fun rec => (rec.latitude, rec.longitude)
         | .error _ => []) = [(Value.null, Value.null)] := by
  decide

/-- C10 (amended): the post-processing enrichment raises exactly when,
after column normalization and renaming, the `lat` or `lon` column is
missing and there is no `coordinates` column to derive them from; a
present `coordinates` column — whether or not any value parses —
creates both columns (nulls included) and avoids the exception, and
when the function does raise it produces no records at all
(`Except.error` carries no output). -/
theorem transform_raises_iff (catMap : List (String × String))
    (geo2 : ℚ → ℚ → Option String × Option String × Option String × Option String)
    (d0 : RawDF) :
    exceptOk (transform_dataframe catMap geo2 d0) = false
      ↔ (((ppNormCols d0).hasCol "lat" = false ∨ (ppNormCols d0).hasCol "lon" = false)
          ∧ (ppNormCols d0).hasCol "coordinates" = false) := by
  have hla2 := ppDerive_hasCol_lat (ppNormCols d0)
  have hlo2 := ppDerive_hasCol_lon (ppNormCols d0)
  rw [transform_dataframe]
  split
  · rename_i h
    rw [hla2, hlo2] at h
    simp only [exceptOk, eq_self_iff_true, true_iff]
    rcases h with h | h <;> simp at h
    · exact ⟨Or.inl h.1, h.2⟩
    · exact ⟨Or.inr h.1, h.2⟩
  · rename_i h
    rw [hla2, hlo2] at h
    simp only [exceptOk, Bool.true_eq_false, false_iff]
    rintro ⟨hab, hc⟩
    apply h
    rcases hab with h' | h' <;> simp [h', hc]

/-- Witness for C10 (amended): the batch with no coordinate data at all
does raise. -/
theorem transform_raises_iff_witness :
    exceptOk (transform_dataframe [] geoNone4 rawNoCoords) = false :=
  (transform_raises_iff [] geoNone4 rawNoCoords).mpr (by decide)


/-!
The idempotence development (claim C9): the standardization-through-
validation chain is a fixed point on its own output.  The lemmas below
build up, layer by layer, (a) the character/string-level idempotence
facts behind the fixed maps, (b) projection lemmas showing which row
fields each per-row stage function leaves untouched, (c) the facts the
first run establishes about every surviving row, and (d) the proof that
each stage is the identity on a batch satisfying those facts.
-/

theorem geoParseRow_billboard (r : Row) :
    (geoParseRow r).billboard_id = r.billboard_id := by
  unfold geoParseRow
  split <;> rfl

theorem geoCodeRow_billboard (geo : ℚ → ℚ → Option String) (r : Row) :
    (geoCodeRow geo r).billboard_id = r.billboard_id := by
  unfold geoCodeRow
  split <;> rfl

theorem geoCodeRow_city (geo : ℚ → ℚ → Option String) (r : Row) :
    (geoCodeRow geo r).city = r.city := by
  unfold geoCodeRow
  split <;> rfl

theorem geoRowFull_billboard (geo : ℚ → ℚ → Option String) (c : ColFlags) (r : Row) :
    (geoRowFull geo c r).billboard_id = r.billboard_id := by
  simp only [geoRowFull, geoCodeRow_billboard, geoParseRow_billboard,
    apply_ite (fun s : Row => s.billboard_id), ite_self]

theorem pyFloat_shape (s : String) (w : Value) (h : pyFloat s = some w) :
    w = Value.null ∨ ∃ q, w = Value.num q := by
  simp only [pyFloat] at h
  split at h
  · rename_i v hv
    injection h with h2
    subst h2
    split at hv <;>
      · rcases Option.map_eq_some'.mp hv with ⟨q, hq, rfl⟩
        exact Or.inr ⟨_, rfl⟩
  · split at h
    · injection h with h2
      exact Or.inl h2.symm
    · simp at h

theorem to_numeric_to_numeric (v : Value) :
    to_numeric (to_numeric v) = to_numeric v := by
  cases v with
  | null => rfl
  | num q => rfl
  | str s =>
    have h : to_numeric (Value.str s) = Value.null
        ∨ ∃ q, to_numeric (Value.str s) = Value.num q := by
      cases hp : pyFloat s with
      | none =>
        left
        show (match pyFloat s with | some w => w | none => Value.null) = Value.null
        rw [hp]
      | some w =>
        have h2 : to_numeric (Value.str s) = w := by
          show (match pyFloat s with | some w => w | none => Value.null) = w
          rw [hp]
        rw [h2]
        exact pyFloat_shape s w hp
    rcases h with h | ⟨q, h⟩ <;> rw [h] <;> rfl

theorem geoRowFull_lat_fixed (geo : ℚ → ℚ → Option String) (c : ColFlags) (r : Row) :
    to_numeric (geoRowFull geo c r).latitude = (geoRowFull geo c r).latitude := by
  simp only [geoRowFull, geoCodeRow_latitude, apply_ite (fun s : Row => s.latitude),
    ite_self]
  exact to_numeric_to_numeric _

/-!  Character-level lemmas for the idempotence development.  -/

theorem toNat_ofNat_valid (n : ℕ) (h : n.isValidChar) : (Char.ofNat n).toNat = n := by
  rw [Char.ofNat, dif_pos h]
  rfl

theorem toNat_ofNat_small (n : ℕ) (h : n < 255) : (Char.ofNat n).toNat = n :=
  toNat_ofNat_valid n (Or.inl (by omega))

theorem upChar_upChar (c : Char) : upChar (upChar c) = upChar c := by
  unfold upChar
  split_ifs with h1 h2
  · rw [toNat_ofNat_small _ (by omega)] at h2
    omega
  · rfl
  · rfl

theorem lowChar_lowChar (c : Char) : lowChar (lowChar c) = lowChar c := by
  unfold lowChar
  split_ifs with h1 h2
  · rw [toNat_ofNat_small _ (by omega)] at h2
    omega
  · rfl
  · rfl

theorem upChar_lowChar (c : Char) : upChar (lowChar c) = upChar c := by
  by_cases h : 65 ≤ c.toNat ∧ c.toNat ≤ 90
  · have h1 : lowChar c = Char.ofNat (c.toNat + 32) := by rw [lowChar, if_pos h]
    have h2 : (lowChar c).toNat = c.toNat + 32 := by
      rw [h1, toNat_ofNat_small _ (by omega)]
    have h3 : upChar (lowChar c) = Char.ofNat ((lowChar c).toNat - 32) := by
      rw [upChar, if_pos (by omega)]
    rw [h3, h2]
    have h4 : upChar c = c := by rw [upChar, if_neg (by omega)]
    rw [h4]
    simp only [Nat.add_sub_cancel]
    exact Char.ofNat_toNat c
  · have h1 : lowChar c = c := by rw [lowChar, if_neg h]
    rw [h1]

theorem isLetter_upChar (c : Char) : isLetter (upChar c) = isLetter c := by
  unfold isLetter upChar
  split_ifs with h
  · rw [toNat_ofNat_small _ (by omega)]
    simp only [decide_eq_decide]
    omega
  · rfl

theorem isLetter_lowChar (c : Char) : isLetter (lowChar c) = isLetter c := by
  unfold isLetter lowChar
  split_ifs with h
  · rw [toNat_ofNat_small _ (by omega)]
    simp only [decide_eq_decide]
    omega
  · rfl

theorem char_eq_iff_toNat (c d : Char) : c = d ↔ c.toNat = d.toNat :=
  ⟨fun h => h ▸ rfl, fun h => by
    have h2 := congrArg Char.ofNat h
    rwa [Char.ofNat_toNat, Char.ofNat_toNat] at h2⟩

theorem isWhitespace_iff (c : Char) :
    c.isWhitespace = true
      ↔ (c.toNat = 32 ∨ c.toNat = 9 ∨ c.toNat = 13 ∨ c.toNat = 10) := by
  have h1 : (' ' : Char).toNat = 32 := rfl
  have h2 : ('\t' : Char).toNat = 9 := rfl
  have h3 : ('\x0d' : Char).toNat = 13 := rfl
  have h4 : ('\n' : Char).toNat = 10 := rfl
  simp only [Char.isWhitespace, Bool.or_eq_true, decide_eq_true_eq,
    char_eq_iff_toNat, h1, h2, h3, h4, or_assoc]

theorem isWhitespace_upChar (c : Char) : (upChar c).isWhitespace = c.isWhitespace := by
  unfold upChar
  split_ifs with h
  · have h1 : (Char.ofNat (c.toNat - 32)).toNat = c.toNat - 32 :=
      toNat_ofNat_small _ (by omega)
    have h2 : (Char.ofNat (c.toNat - 32)).isWhitespace = false := by
      rw [← Bool.not_eq_true, isWhitespace_iff, h1]
      omega
    have h3 : c.isWhitespace = false := by
      rw [← Bool.not_eq_true, isWhitespace_iff]
      omega
    rw [h2, h3]
  · rfl

theorem titleChars_map_upChar (l : List Char) (b : Bool) :
    (titleChars b l).map upChar = l.map upChar := by
  induction l generalizing b with
  | nil => rfl
  | cons c cs ih =>
    simp only [titleChars, List.map_cons, ih]
    congr 1
    split_ifs with h1 h2
    · exact upChar_lowChar c
    · exact upChar_upChar c
    · rfl

theorem titleChars_titleChars (l : List Char) (b : Bool) :
    titleChars b (titleChars b l) = titleChars b l := by
  induction l generalizing b with
  | nil => rfl
  | cons c cs ih =>
    by_cases h1 : isLetter c = true
    · cases b with
      | true => simp [titleChars, h1, isLetter_lowChar, lowChar_lowChar, ih]
      | false => simp [titleChars, h1, isLetter_upChar, upChar_upChar, ih]
    · have h1a : isLetter c = false := by simpa using h1
      simp [titleChars, h1a, ih]

theorem dropWhile_dropWhile (p : Char → Bool) (l : List Char) :
    List.dropWhile p (List.dropWhile p l) = List.dropWhile p l := by
  induction l with
  | nil => rfl
  | cons c cs ih =>
    by_cases h : p c
    · simp [List.dropWhile_cons, h, ih]
    · simp [List.dropWhile_cons, h]

theorem dropWhile_eq_self_of_prefix (p : Char → Bool) (l m : List Char)
    (hp : l <+: m) (hm : List.dropWhile p m = m) : List.dropWhile p l = l := by
  cases l with
  | nil => rfl
  | cons c cs =>
    cases m with
    | nil => exact absurd (List.IsPrefix.length_le hp) (by simp)
    | cons d ds =>
      have hcd : c = d := by
        obtain ⟨t, ht⟩ := hp
        simpa using congrArg (fun x => x.head?) ht
      subst hcd
      by_cases h : p c
      · rw [List.dropWhile_cons_of_pos h] at hm
        have hlen := congrArg List.length hm
        have hle := List.Sublist.length_le
          (List.IsSuffix.sublist (List.dropWhile_suffix (l := ds) p))
        simp only [List.length_cons] at hlen
        omega
      · rw [List.dropWhile_cons_of_neg h]

theorem trimChars_dropWhile (l : List Char) :
    List.dropWhile Char.isWhitespace (trimChars l) = trimChars l := by
  unfold trimChars
  apply dropWhile_eq_self_of_prefix _ _ (List.dropWhile Char.isWhitespace l)
  · conv_rhs => rw [← List.reverse_reverse (List.dropWhile Char.isWhitespace l)]
    exact List.reverse_prefix.mpr (List.dropWhile_suffix _)
  · exact dropWhile_dropWhile _ _

theorem trimChars_trimChars (l : List Char) : trimChars (trimChars l) = trimChars l := by
  conv_lhs => simp only [trimChars]
  rw [show List.dropWhile Char.isWhitespace
        (((l.dropWhile Char.isWhitespace).reverse.dropWhile Char.isWhitespace).reverse)
      = ((l.dropWhile Char.isWhitespace).reverse.dropWhile Char.isWhitespace).reverse
    from trimChars_dropWhile l]
  rw [List.reverse_reverse, dropWhile_dropWhile]
  rfl

theorem trimChars_map_upChar (l : List Char) :
    trimChars (l.map upChar) = (trimChars l).map upChar := by
  have hcomp : (Char.isWhitespace ∘ upChar) = Char.isWhitespace :=
    funext isWhitespace_upChar
  unfold trimChars
  rw [List.dropWhile_map, hcomp, ← List.map_reverse, List.dropWhile_map, hcomp,
    ← List.map_reverse]

/-!  String-level consequences.  -/

theorem pyUpper_pyTitle (s : String) : pyUpper (pyTitle s) = pyUpper s := by
  simp only [pyUpper, pyTitle]
  rw [titleChars_map_upChar]

theorem pyUpper_pyUpper (s : String) : pyUpper (pyUpper s) = pyUpper s := by
  have hcomp : (upChar ∘ upChar) = upChar := funext upChar_upChar
  simp only [pyUpper]
  rw [List.map_map, hcomp]

theorem pyStrip_pyUpper_comm (s : String) : pyStrip (pyUpper s) = pyUpper (pyStrip s) := by
  simp only [pyStrip, pyUpper]
  rw [trimChars_map_upChar]

theorem pyStrip_pyStrip (s : String) : pyStrip (pyStrip s) = pyStrip s := by
  simp only [pyStrip]
  rw [trimChars_trimChars]

theorem pyTitle_pyTitle (s : String) : pyTitle (pyTitle s) = pyTitle s := by
  simp only [pyTitle]
  rw [titleChars_titleChars]

theorem usFixed (s : String) :
    pyStrip (pyUpper (pyStrip (pyUpper s))) = pyStrip (pyUpper s) := by
  rw [pyStrip_pyUpper_comm (pyStrip (pyUpper s)), pyStrip_pyStrip,
    ← pyStrip_pyUpper_comm, pyUpper_pyUpper]

/-!  Idempotence of the per-cell maps.  -/

theorem formatApply_idem (v : Value) : formatApply (formatApply v) = formatApply v := by
  cases v with
  | null => rfl
  | num q => rfl
  | str s =>
    cases h : formatMap s with
    | none =>
      have h1 : formatApply (Value.str s) = Value.str s := by
        show (match formatMap s with
              | some t => Value.str t
              | none => Value.str s) = _
        rw [h]
      rw [h1]
      exact h1
    | some t =>
      have h1 : formatApply (Value.str s) = Value.str t := by
        show (match formatMap s with
              | some t => Value.str t
              | none => Value.str s) = _
        rw [h]
      rw [h1]
      have h2 : t = "Bus_Shelter" ∨ t = "Gantry" ∨ t = "Digital_OOH"
          ∨ t = "Road_Median" ∨ t = "Pole_Kiosk" ∨ t = "Hoarding" := by
        unfold formatMap at h
        split_ifs at h <;> (injection h with h3; subst h3; simp)
      rcases h2 with rfl | rfl | rfl | rfl | rfl | rfl <;> decide

theorem lightingApply_idem (v : Value) :
    lightingApply (lightingApply v) = lightingApply v := by
  set u := pyStrip (pyUpper v.toPyStr) with hu
  have h1 : lightingApply v = (match lightingMap u with
      | some t => Value.str t
      | none => Value.str (pyTitle u)) := rfl
  cases h : lightingMap u with
  | some t =>
    rw [h1, h]
    have h2 : t = "Unlit" ∨ t = "Backlit" ∨ t = "Frontlit" ∨ t = "Digital" := by
      unfold lightingMap at h
      split_ifs at h <;> first
        | (injection h with h3; subst h3; simp)
        | cases h
    show lightingApply (Value.str t) = Value.str t
    rcases h2 with rfl | rfl | rfl | rfl <;> decide
  | none =>
    rw [h1, h]
    have h3 : pyStrip (pyUpper (Value.toPyStr (Value.str (pyTitle u)))) = u := by
      show pyStrip (pyUpper (pyTitle u)) = u
      rw [pyUpper_pyTitle, hu, usFixed]
    have h4 : lightingApply (Value.str (pyTitle u))
        = (match lightingMap (pyStrip (pyUpper (Value.toPyStr (Value.str (pyTitle u))))) with
           | some t => Value.str t
           | none => Value.str (pyTitle (pyStrip (pyUpper
               (Value.toPyStr (Value.str (pyTitle u))))))) := rfl
    rw [h4, h3, h]

theorem clean_numeric_idem (v : Value) :
    clean_numeric (clean_numeric v) = clean_numeric v := by
  cases v with
  | null => rfl
  | num q =>
    show clean_numeric (Value.num |q|) = Value.num |q|
    show Value.num |(|q|)| = Value.num |q|
    rw [abs_abs]
  | str s =>
    cases h : firstNumToken (trimChars (pyRemoveChar ',' s).data) with
    | none =>
      have h1 : clean_numeric (Value.str s) = Value.null := by
        show (match firstNumToken (trimChars (pyRemoveChar ',' s).data) with
              | some q => Value.num q
              | none => Value.null) = _
        rw [h]
      rw [h1]
      rfl
    | some q =>
      have h1 : clean_numeric (Value.str s) = Value.num q := by
        show (match firstNumToken (trimChars (pyRemoveChar ',' s).data) with
              | some q => Value.num q
              | none => Value.null) = _
        rw [h]
      rw [h1]
      have hq : 0 ≤ q := firstNumToken_nonneg _ _ h
      show Value.num |q| = Value.num q
      rw [abs_of_nonneg hq]

theorem extract_dim_str_fixed (v : Value) (m : Char) :
    to_numeric (extract_dim_str v m) = extract_dim_str v m := by
  unfold extract_dim_str
  cases v with
  | null => rfl
  | num q => cases h : findDimNum m (Value.toPyStr (Value.num q)).data <;> rfl
  | str s => cases h : findDimNum m (Value.toPyStr (Value.str s)).data <;> rfl

theorem groupMean_shape (f : Row → Value) (rows : List Row) (k : Value) :
    to_numeric (groupMean f rows k) = groupMean f rows k := by
  simp only [groupMean]
  split_ifs <;> rfl

/-!  Deduplication algebra.  -/

theorem dedupBy_subset (f : Row → Value) :
    ∀ (l : List Row) (seen : List Value) (x : Row), x ∈ dedupBy f l seen → x ∈ l := by
  intro l
  induction l with
  | nil => intro seen x h; simpa [dedupBy] using h
  | cons r rs ih =>
    intro seen x h
    rw [dedupBy] at h
    split_ifs at h with hs
    · exact List.mem_cons_of_mem _ (ih seen x h)
    · rcases List.mem_cons.mp h with h | h
      · exact h ▸ List.mem_cons_self _ _
      · exact List.mem_cons_of_mem _ (ih _ x h)

theorem dedupBy_not_seen (f : Row → Value) :
    ∀ (l : List Row) (seen : List Value) (x : Row),
      x ∈ dedupBy f l seen → f x ∉ seen := by
  intro l
  induction l with
  | nil => intro seen x h; simp [dedupBy] at h
  | cons r rs ih =>
    intro seen x h
    rw [dedupBy] at h
    split_ifs at h with hs
    · exact ih seen x h
    · rcases List.mem_cons.mp h with h | h
      · exact h ▸ hs
      · intro hmem
        exact ih _ x h (List.mem_cons_of_mem _ hmem)

theorem dedupBy_pairwise (f : Row → Value) :
    ∀ (l : List Row) (seen : List Value),
      (dedupBy f l seen).Pairwise (fun a b => f a ≠ f b) := by
  intro l
  induction l with
  | nil => intro seen; simp [dedupBy]
  | cons r rs ih =>
    intro seen
    rw [dedupBy]
    split_ifs with hs
    · exact ih seen
    · refine List.Pairwise.cons ?_ (ih _)
      intro b hb hfb
      exact dedupBy_not_seen f rs _ b hb (hfb ▸ List.mem_cons_self _ _)

theorem dedupBy_eq_self (f : Row → Value) :
    ∀ (l : List Row) (seen : List Value),
      l.Pairwise (fun a b => f a ≠ f b) → (∀ x ∈ l, f x ∉ seen) →
      dedupBy f l seen = l := by
  intro l
  induction l with
  | nil => intro seen _ _; rfl
  | cons r rs ih =>
    intro seen hp hseen
    rw [dedupBy, if_neg (hseen r (List.mem_cons_self _ _))]
    congr 1
    apply ih _ (List.Pairwise.of_cons hp)
    intro x hx
    intro hmem
    rcases List.mem_cons.mp hmem with h | h
    · exact (List.pairwise_cons.mp hp).1 x hx h.symm
    · exact hseen x (List.mem_cons_of_mem _ hx) h

/-!  Small list helpers.  -/

theorem map_id_of_mem {α : Type} (f : α → α) (l : List α)
    (h : ∀ a ∈ l, f a = a) : l.map f = l := by
  induction l with
  | nil => rfl
  | cons a as ih =>
    rw [List.map_cons, h a (List.mem_cons_self _ _), ih (fun x hx => h x (List.mem_cons_of_mem _ hx))]

theorem pairwise_key_map (f : Row → Value) (g : Row → Row)
    (h : ∀ r, f (g r) = f r) (l : List Row)
    (hp : l.Pairwise fun a b => f a ≠ f b) :
    (l.map g).Pairwise (fun a b => f a ≠ f b) := by
  rw [List.pairwise_map]
  exact hp.imp (by intro a b hab; rw [h, h]; exact hab)

/-!  Field projections of the per-row stage functions (untouched fields).  -/

theorem geoParseRow_format_type (r : Row) :
    (geoParseRow r).format_type = r.format_type := by
  simp only [geoParseRow, apply_ite (fun s : Row => s.format_type), ite_self]

theorem geoParseRow_lighting_type (r : Row) :
    (geoParseRow r).lighting_type = r.lighting_type := by
  simp only [geoParseRow, apply_ite (fun s : Row => s.lighting_type), ite_self]

theorem geoParseRow_city (r : Row) :
    (geoParseRow r).city = r.city := by
  simp only [geoParseRow, apply_ite (fun s : Row => s.city), ite_self]

theorem geoParseRow_district (r : Row) :
    (geoParseRow r).district = r.district := by
  simp only [geoParseRow, apply_ite (fun s : Row => s.district), ite_self]

theorem geoParseRow_location (r : Row) :
    (geoParseRow r).location = r.location := by
  simp only [geoParseRow, apply_ite (fun s : Row => s.location), ite_self]

theorem geoCodeRow_format_type (geo : ℚ → ℚ → Option String) (r : Row) :
    (geoCodeRow geo r).format_type = r.format_type := by
  simp only [geoCodeRow, apply_ite (fun s : Row => s.format_type), ite_self]

theorem geoCodeRow_lighting_type (geo : ℚ → ℚ → Option String) (r : Row) :
    (geoCodeRow geo r).lighting_type = r.lighting_type := by
  simp only [geoCodeRow, apply_ite (fun s : Row => s.lighting_type), ite_self]

theorem geoCodeRow_district (geo : ℚ → ℚ → Option String) (r : Row) :
    (geoCodeRow geo r).district = r.district := by
  simp only [geoCodeRow, apply_ite (fun s : Row => s.district), ite_self]

theorem geoRowFull_format_type (geo : ℚ → ℚ → Option String) (c : ColFlags) (r : Row) :
    (geoRowFull geo c r).format_type = r.format_type := by
  simp only [geoRowFull, geoCodeRow_format_type, geoParseRow_format_type, apply_ite (fun s : Row => s.format_type), ite_self]

theorem geoRowFull_lighting_type (geo : ℚ → ℚ → Option String) (c : ColFlags) (r : Row) :
    (geoRowFull geo c r).lighting_type = r.lighting_type := by
  simp only [geoRowFull, geoCodeRow_lighting_type, geoParseRow_lighting_type, apply_ite (fun s : Row => s.lighting_type), ite_self]

theorem dimExtractRow_billboard_id (c : ColFlags) (r : Row) :
    (dimExtractRow c r).billboard_id = r.billboard_id := by
  simp only [dimExtractRow, apply_ite (fun s : Row => s.billboard_id), ite_self]

theorem dimExtractRow_format_type (c : ColFlags) (r : Row) :
    (dimExtractRow c r).format_type = r.format_type := by
  simp only [dimExtractRow, apply_ite (fun s : Row => s.format_type), ite_self]

theorem dimExtractRow_lighting_type (c : ColFlags) (r : Row) :
    (dimExtractRow c r).lighting_type = r.lighting_type := by
  simp only [dimExtractRow, apply_ite (fun s : Row => s.lighting_type), ite_self]

theorem dimExtractRow_latitude (c : ColFlags) (r : Row) :
    (dimExtractRow c r).latitude = r.latitude := by
  simp only [dimExtractRow, apply_ite (fun s : Row => s.latitude), ite_self]

theorem dimExtractRow_longitude (c : ColFlags) (r : Row) :
    (dimExtractRow c r).longitude = r.longitude := by
  simp only [dimExtractRow, apply_ite (fun s : Row => s.longitude), ite_self]

theorem dimExtractRow_city (c : ColFlags) (r : Row) :
    (dimExtractRow c r).city = r.city := by
  simp only [dimExtractRow, apply_ite (fun s : Row => s.city), ite_self]

theorem dimExtractRow_district (c : ColFlags) (r : Row) :
    (dimExtractRow c r).district = r.district := by
  simp only [dimExtractRow, apply_ite (fun s : Row => s.district), ite_self]

theorem dimExtractRow_location (c : ColFlags) (r : Row) :
    (dimExtractRow c r).location = r.location := by
  simp only [dimExtractRow, apply_ite (fun s : Row => s.location), ite_self]

theorem dimWHRow_billboard_id (c : ColFlags) (snap : List Row) (r : Row) :
    (dimWHRow c snap r).billboard_id = r.billboard_id := by
  simp only [dimWHRow, apply_ite (fun s : Row => s.billboard_id), ite_self]

theorem dimWHRow_latitude (c : ColFlags) (snap : List Row) (r : Row) :
    (dimWHRow c snap r).latitude = r.latitude := by
  simp only [dimWHRow, apply_ite (fun s : Row => s.latitude), ite_self]

theorem dimWHRow_longitude (c : ColFlags) (snap : List Row) (r : Row) :
    (dimWHRow c snap r).longitude = r.longitude := by
  simp only [dimWHRow, apply_ite (fun s : Row => s.longitude), ite_self]

theorem dimWHRow_city (c : ColFlags) (snap : List Row) (r : Row) :
    (dimWHRow c snap r).city = r.city := by
  simp only [dimWHRow, apply_ite (fun s : Row => s.city), ite_self]

theorem dimWHRow_district (c : ColFlags) (snap : List Row) (r : Row) :
    (dimWHRow c snap r).district = r.district := by
  simp only [dimWHRow, apply_ite (fun s : Row => s.district), ite_self]

theorem dimWHRow_location (c : ColFlags) (snap : List Row) (r : Row) :
    (dimWHRow c snap r).location = r.location := by
  simp only [dimWHRow, apply_ite (fun s : Row => s.location), ite_self]

theorem dimFreqRow_billboard_id (c : ColFlags) (r : Row) :
    (dimFreqRow c r).billboard_id = r.billboard_id := by
  simp only [dimFreqRow, apply_ite (fun s : Row => s.billboard_id), ite_self]

theorem dimFreqRow_format_type (c : ColFlags) (r : Row) :
    (dimFreqRow c r).format_type = r.format_type := by
  simp only [dimFreqRow, apply_ite (fun s : Row => s.format_type), ite_self]

theorem dimFreqRow_lighting_type (c : ColFlags) (r : Row) :
    (dimFreqRow c r).lighting_type = r.lighting_type := by
  simp only [dimFreqRow, apply_ite (fun s : Row => s.lighting_type), ite_self]

theorem dimFreqRow_latitude (c : ColFlags) (r : Row) :
    (dimFreqRow c r).latitude = r.latitude := by
  simp only [dimFreqRow, apply_ite (fun s : Row => s.latitude), ite_self]

theorem dimFreqRow_longitude (c : ColFlags) (r : Row) :
    (dimFreqRow c r).longitude = r.longitude := by
  simp only [dimFreqRow, apply_ite (fun s : Row => s.longitude), ite_self]

theorem dimFreqRow_city (c : ColFlags) (r : Row) :
    (dimFreqRow c r).city = r.city := by
  simp only [dimFreqRow, apply_ite (fun s : Row => s.city), ite_self]

theorem dimFreqRow_district (c : ColFlags) (r : Row) :
    (dimFreqRow c r).district = r.district := by
  simp only [dimFreqRow, apply_ite (fun s : Row => s.district), ite_self]

theorem dimFreqRow_location (c : ColFlags) (r : Row) :
    (dimFreqRow c r).location = r.location := by
  simp only [dimFreqRow, apply_ite (fun s : Row => s.location), ite_self]

theorem dimFreqRow_width_ft (c : ColFlags) (r : Row) :
    (dimFreqRow c r).width_ft = r.width_ft := by
  simp only [dimFreqRow, apply_ite (fun s : Row => s.width_ft), ite_self]

theorem dimFreqRow_height_ft (c : ColFlags) (r : Row) :
    (dimFreqRow c r).height_ft = r.height_ft := by
  simp only [dimFreqRow, apply_ite (fun s : Row => s.height_ft), ite_self]

theorem dimQtyRow_billboard_id (c : ColFlags) (r : Row) :
    (dimQtyRow c r).billboard_id = r.billboard_id := by
  simp only [dimQtyRow, apply_ite (fun s : Row => s.billboard_id), ite_self]

theorem dimQtyRow_format_type (c : ColFlags) (r : Row) :
    (dimQtyRow c r).format_type = r.format_type := by
  simp only [dimQtyRow, apply_ite (fun s : Row => s.format_type), ite_self]

theorem dimQtyRow_lighting_type (c : ColFlags) (r : Row) :
    (dimQtyRow c r).lighting_type = r.lighting_type := by
  simp only [dimQtyRow, apply_ite (fun s : Row => s.lighting_type), ite_self]

theorem dimQtyRow_latitude (c : ColFlags) (r : Row) :
    (dimQtyRow c r).latitude = r.latitude := by
  simp only [dimQtyRow, apply_ite (fun s : Row => s.latitude), ite_self]

theorem dimQtyRow_longitude (c : ColFlags) (r : Row) :
    (dimQtyRow c r).longitude = r.longitude := by
  simp only [dimQtyRow, apply_ite (fun s : Row => s.longitude), ite_self]

theorem dimQtyRow_city (c : ColFlags) (r : Row) :
    (dimQtyRow c r).city = r.city := by
  simp only [dimQtyRow, apply_ite (fun s : Row => s.city), ite_self]

theorem dimQtyRow_district (c : ColFlags) (r : Row) :
    (dimQtyRow c r).district = r.district := by
  simp only [dimQtyRow, apply_ite (fun s : Row => s.district), ite_self]

theorem dimQtyRow_location (c : ColFlags) (r : Row) :
    (dimQtyRow c r).location = r.location := by
  simp only [dimQtyRow, apply_ite (fun s : Row => s.location), ite_self]

theorem dimQtyRow_width_ft (c : ColFlags) (r : Row) :
    (dimQtyRow c r).width_ft = r.width_ft := by
  simp only [dimQtyRow, apply_ite (fun s : Row => s.width_ft), ite_self]

theorem dimQtyRow_height_ft (c : ColFlags) (r : Row) :
    (dimQtyRow c r).height_ft = r.height_ft := by
  simp only [dimQtyRow, apply_ite (fun s : Row => s.height_ft), ite_self]

theorem finCleanRow_billboard_id (c : ColFlags) (r : Row) :
    (finCleanRow c r).billboard_id = r.billboard_id := by
  simp only [finCleanRow, apply_ite (fun s : Row => s.billboard_id), ite_self]

theorem finCleanRow_format_type (c : ColFlags) (r : Row) :
    (finCleanRow c r).format_type = r.format_type := by
  simp only [finCleanRow, apply_ite (fun s : Row => s.format_type), ite_self]

theorem finCleanRow_lighting_type (c : ColFlags) (r : Row) :
    (finCleanRow c r).lighting_type = r.lighting_type := by
  simp only [finCleanRow, apply_ite (fun s : Row => s.lighting_type), ite_self]

theorem finCleanRow_latitude (c : ColFlags) (r : Row) :
    (finCleanRow c r).latitude = r.latitude := by
  simp only [finCleanRow, apply_ite (fun s : Row => s.latitude), ite_self]

theorem finCleanRow_longitude (c : ColFlags) (r : Row) :
    (finCleanRow c r).longitude = r.longitude := by
  simp only [finCleanRow, apply_ite (fun s : Row => s.longitude), ite_self]

theorem finCleanRow_city (c : ColFlags) (r : Row) :
    (finCleanRow c r).city = r.city := by
  simp only [finCleanRow, apply_ite (fun s : Row => s.city), ite_self]

theorem finCleanRow_district (c : ColFlags) (r : Row) :
    (finCleanRow c r).district = r.district := by
  simp only [finCleanRow, apply_ite (fun s : Row => s.district), ite_self]

theorem finCleanRow_location (c : ColFlags) (r : Row) :
    (finCleanRow c r).location = r.location := by
  simp only [finCleanRow, apply_ite (fun s : Row => s.location), ite_self]

theorem finCleanRow_width_ft (c : ColFlags) (r : Row) :
    (finCleanRow c r).width_ft = r.width_ft := by
  simp only [finCleanRow, apply_ite (fun s : Row => s.width_ft), ite_self]

theorem finCleanRow_height_ft (c : ColFlags) (r : Row) :
    (finCleanRow c r).height_ft = r.height_ft := by
  simp only [finCleanRow, apply_ite (fun s : Row => s.height_ft), ite_self]

theorem finCleanRow_frequency_per_minute (c : ColFlags) (r : Row) :
    (finCleanRow c r).frequency_per_minute = r.frequency_per_minute := by
  simp only [finCleanRow, apply_ite (fun s : Row => s.frequency_per_minute), ite_self]

theorem finCleanRow_quantity (c : ColFlags) (r : Row) :
    (finCleanRow c r).quantity = r.quantity := by
  simp only [finCleanRow, apply_ite (fun s : Row => s.quantity), ite_self]

theorem finFillRow_billboard_id (c : ColFlags) (medP : ℚ) (r : Row) :
    (finFillRow c medP r).billboard_id = r.billboard_id := by
  simp only [finFillRow, apply_ite (fun s : Row => s.billboard_id), ite_self]

theorem finFillRow_format_type (c : ColFlags) (medP : ℚ) (r : Row) :
    (finFillRow c medP r).format_type = r.format_type := by
  simp only [finFillRow, apply_ite (fun s : Row => s.format_type), ite_self]

theorem finFillRow_lighting_type (c : ColFlags) (medP : ℚ) (r : Row) :
    (finFillRow c medP r).lighting_type = r.lighting_type := by
  simp only [finFillRow, apply_ite (fun s : Row => s.lighting_type), ite_self]

theorem finFillRow_latitude (c : ColFlags) (medP : ℚ) (r : Row) :
    (finFillRow c medP r).latitude = r.latitude := by
  simp only [finFillRow, apply_ite (fun s : Row => s.latitude), ite_self]

theorem finFillRow_longitude (c : ColFlags) (medP : ℚ) (r : Row) :
    (finFillRow c medP r).longitude = r.longitude := by
  simp only [finFillRow, apply_ite (fun s : Row => s.longitude), ite_self]

theorem finFillRow_city (c : ColFlags) (medP : ℚ) (r : Row) :
    (finFillRow c medP r).city = r.city := by
  simp only [finFillRow, apply_ite (fun s : Row => s.city), ite_self]

theorem finFillRow_district (c : ColFlags) (medP : ℚ) (r : Row) :
    (finFillRow c medP r).district = r.district := by
  simp only [finFillRow, apply_ite (fun s : Row => s.district), ite_self]

theorem finFillRow_location (c : ColFlags) (medP : ℚ) (r : Row) :
    (finFillRow c medP r).location = r.location := by
  simp only [finFillRow, apply_ite (fun s : Row => s.location), ite_self]

theorem finFillRow_width_ft (c : ColFlags) (medP : ℚ) (r : Row) :
    (finFillRow c medP r).width_ft = r.width_ft := by
  simp only [finFillRow, apply_ite (fun s : Row => s.width_ft), ite_self]

theorem finFillRow_height_ft (c : ColFlags) (medP : ℚ) (r : Row) :
    (finFillRow c medP r).height_ft = r.height_ft := by
  simp only [finFillRow, apply_ite (fun s : Row => s.height_ft), ite_self]

theorem finFillRow_frequency_per_minute (c : ColFlags) (medP : ℚ) (r : Row) :
    (finFillRow c medP r).frequency_per_minute = r.frequency_per_minute := by
  simp only [finFillRow, apply_ite (fun s : Row => s.frequency_per_minute), ite_self]

theorem finFillRow_quantity (c : ColFlags) (medP : ℚ) (r : Row) :
    (finFillRow c medP r).quantity = r.quantity := by
  simp only [finFillRow, apply_ite (fun s : Row => s.quantity), ite_self]

theorem finFillRow_minimal_price (c : ColFlags) (medP : ℚ) (r : Row) :
    (finFillRow c medP r).minimal_price = r.minimal_price := by
  simp only [finFillRow, apply_ite (fun s : Row => s.minimal_price), ite_self]

/-!  Geo-stage value facts.  -/

theorem geoRowFull_lon_fixed (geo : ℚ → ℚ → Option String) (c : ColFlags) (r : Row) :
    to_numeric (geoRowFull geo c r).longitude = (geoRowFull geo c r).longitude := by
  simp only [geoRowFull, geoCodeRow_longitude, apply_ite (fun s : Row => s.longitude),
    ite_self]
  exact to_numeric_to_numeric _

theorem geoCodeRow_geoCodeRow (geo : ℚ → ℚ → Option String) (s : Row) :
    geoCodeRow geo (geoCodeRow geo s) = geoCodeRow geo s := by
  unfold geoCodeRow
  split_ifs <;> rfl

theorem geoRowFull_geoCode_fixed (geo : ℚ → ℚ → Option String) (c : ColFlags) (r : Row) :
    geoCodeRow geo (geoRowFull geo c r) = geoRowFull geo c r :=
  geoCodeRow_geoCodeRow geo _

theorem geoRowFull_city_fixed (geo : ℚ → ℚ → Option String) (c : ColFlags) (r : Row)
    (h : c.city = true) :
    Value.str (pyTitle ((geoRowFull geo c r).city.toPyStr)) = (geoRowFull geo c r).city := by
  simp only [geoRowFull, geoCodeRow_city, geoParseRow_city,
    apply_ite (fun s : Row => s.city), ite_self, h, if_true, eq_self_iff_true,
    Value.toPyStr, pyTitle_pyTitle]

theorem geoRowFull_district_nonnull (geo : ℚ → ℚ → Option String) (c : ColFlags) (r : Row)
    (h : c.city = true) :
    ((geoRowFull geo c r).district).isna = false := by
  simp only [geoRowFull, geoCodeRow_district, geoParseRow_district,
    apply_ite (fun s : Row => s.district), ite_self, h, if_true, eq_self_iff_true]
  split_ifs <;> simp_all [Value.isna]

/-!  Dimension-stage value facts.  -/

theorem dimExtractRow_w_fixed (c : ColFlags) (r : Row) :
    to_numeric (dimExtractRow c r).width_ft = (dimExtractRow c r).width_ft := by
  simp only [dimExtractRow, apply_ite (fun s : Row => s.width_ft), ite_self]
  split_ifs <;> first
    | exact extract_dim_str_fixed _ _
    | exact to_numeric_to_numeric _

theorem dimExtractRow_h_fixed (c : ColFlags) (r : Row) :
    to_numeric (dimExtractRow c r).height_ft = (dimExtractRow c r).height_ft := by
  simp only [dimExtractRow, apply_ite (fun s : Row => s.height_ft), ite_self]
  split_ifs <;> first
    | exact extract_dim_str_fixed _ _
    | exact to_numeric_to_numeric _

theorem dimWHRow_wh_nonnull (c : ColFlags) (snap : List Row) (r : Row)
    (hfm : c.format_type = true) :
    (dimWHRow c snap r).width_ft.isna = false
      ∧ (dimWHRow c snap r).height_ft.isna = false := by
  simp only [dimWHRow, hfm, if_true, eq_self_iff_true]
  constructor <;> (split_ifs <;> simp_all [Value.isna]) <;>
    (rename_i hmw
     cases hg : groupMean (fun s => s.width_ft) snap r.format_type <;> simp_all [Value.isna]) 

theorem dimWHRow_w_fixed (c : ColFlags) (snap : List Row) (r : Row)
    (hw : to_numeric r.width_ft = r.width_ft) :
    to_numeric (dimWHRow c snap r).width_ft = (dimWHRow c snap r).width_ft := by
  simp only [dimWHRow, apply_ite (fun s : Row => s.width_ft), apply_ite to_numeric,
    groupMean_shape, ite_self]
  split_ifs <;> first
    | exact hw
    | rfl

theorem dimWHRow_h_fixed (c : ColFlags) (snap : List Row) (r : Row)
    (hh : to_numeric r.height_ft = r.height_ft) :
    to_numeric (dimWHRow c snap r).height_ft = (dimWHRow c snap r).height_ft := by
  simp only [dimWHRow, apply_ite (fun s : Row => s.height_ft), apply_ite to_numeric,
    groupMean_shape, ite_self]
  split_ifs <;> first
    | exact hh
    | rfl

theorem dimFreqRow_nonnull (c : ColFlags) (r : Row) :
    (dimFreqRow c r).frequency_per_minute.isna = false := by
  simp only [dimFreqRow]
  split_ifs <;> simp_all [Value.isna]

theorem dimQtyRow_facts (c : ColFlags) (r : Row) :
    (dimQtyRow c r).quantity.isna = false
      ∧ (dimQtyRow c r).quantity ≠ Value.num 0 := by
  simp only [dimQtyRow]
  split_ifs <;> simp_all [Value.isna]

theorem clean_numeric_shape (v : Value) :
    clean_numeric v = Value.null ∨ ∃ q, clean_numeric v = Value.num q := by
  cases v with
  | null => exact Or.inl rfl
  | num q => exact Or.inr ⟨_, rfl⟩
  | str s =>
    cases h : firstNumToken (trimChars (pyRemoveChar ',' s).data) with
    | none =>
      left
      show (match firstNumToken (trimChars (pyRemoveChar ',' s).data) with
            | some q => Value.num q
            | none => Value.null) = _
      rw [h]
    | some q =>
      right
      refine ⟨q, ?_⟩
      show (match firstNumToken (trimChars (pyRemoveChar ',' s).data) with
            | some q => Value.num q
            | none => Value.null) = _
      rw [h]

/-!  Identity of each per-row function on already-clean rows.  -/

theorem Value.isna_eq (v : Value) : v.isna = true ↔ v = Value.null := by
  cases v <;> simp [Value.isna]

theorem geoRowFull_id (geo : ℚ → ℚ → Option String) (c : ColFlags) (r : Row)
    (hlat : c.latitude = true) (hlon : c.longitude = true) (hloc : c.location = true)
    (hco : c.coordinates = false)
    (hcd : c.city = true → c.district = true)
    (hla : c.locality = true → c.area = true)
    (hnla : to_numeric r.latitude = r.latitude)
    (hnlo : to_numeric r.longitude = r.longitude)
    (hcity : c.city = true → Value.str (pyTitle (r.city.toPyStr)) = r.city)
    (hdist : c.city = true → r.district.isna = false)
    (hgc : geoCodeRow geo r = r) :
    geoRowFull geo c r = r := by
  by_cases hc : c.city = true
  · by_cases hl : c.locality = true
    · simp only [geoRowFull, hlat, hlon, hco, hloc, hnla, hnlo, hc, hl, hla hl,
        hcd hc, hcity hc, hdist hc, if_true, eq_self_iff_true, Bool.false_eq_true,
        Bool.not_true, if_false, and_false, false_and, and_true, true_and]
      exact hgc
    · have hl2 : c.locality = false := by simpa using hl
      simp only [geoRowFull, hlat, hlon, hco, hloc, hnla, hnlo, hc, hl2,
        hcd hc, hcity hc, hdist hc, if_true, eq_self_iff_true, Bool.false_eq_true,
        Bool.not_true, if_false, and_false, false_and, and_true, true_and]
      exact hgc
  · have hc2 : c.city = false := by simpa using hc
    by_cases hl : c.locality = true
    · simp only [geoRowFull, hlat, hlon, hco, hloc, hnla, hnlo, hc2, hl, hla hl,
        if_true, eq_self_iff_true, Bool.false_eq_true,
        Bool.not_true, if_false, and_false, false_and, and_true, true_and]
      exact hgc
    · have hl2 : c.locality = false := by simpa using hl
      simp only [geoRowFull, hlat, hlon, hco, hloc, hnla, hnlo, hc2, hl2,
        if_true, eq_self_iff_true, Bool.false_eq_true,
        Bool.not_true, if_false, and_false, false_and, and_true, true_and]
      exact hgc

theorem dimExtractRow_id (c : ColFlags) (r : Row)
    (hw : c.width_ft = true) (hh : c.height_ft = true) (hd : c.dimensions = false)
    (hnw : to_numeric r.width_ft = r.width_ft)
    (hnh : to_numeric r.height_ft = r.height_ft) :
    dimExtractRow c r = r := by
  simp only [dimExtractRow, hw, hh, hd, hnw, hnh, if_true, eq_self_iff_true,
    Bool.false_eq_true, false_and, if_false]

theorem dimWHRow_id (c : ColFlags) (snap : List Row) (r : Row)
    (hfacts : c.format_type = true → r.width_ft.isna = false ∧ r.height_ft.isna = false) :
    dimWHRow c snap r = r := by
  by_cases hf : c.format_type = true
  · obtain ⟨hw, hh⟩ := hfacts hf
    simp only [dimWHRow, hf, if_true, eq_self_iff_true, hw, hh, Bool.false_eq_true,
      and_false, if_false]
  · have hf2 : c.format_type = false := by simpa using hf
    simp only [dimWHRow, hf2, Bool.false_eq_true, if_false]

theorem dimFreqRow_id (c : ColFlags) (r : Row)
    (hcf : c.frequency_per_minute = true)
    (hnn : r.frequency_per_minute.isna = false) :
    dimFreqRow c r = r := by
  simp only [dimFreqRow, hcf, hnn, Bool.not_true, Bool.false_eq_true, if_false]

theorem dimQtyRow_id (c : ColFlags) (r : Row)
    (hcq : c.quantity = true)
    (hnn : r.quantity.isna = false)
    (hz : r.quantity ≠ Value.num 0) :
    dimQtyRow c r = r := by
  simp only [dimQtyRow, hcq, hnn, hz, Bool.not_true, Bool.false_eq_true, if_false,
    ite_self]

theorem finCleanRow_id (c : ColFlags) (r : Row)
    (hmp : c.minimal_price = true → clean_numeric r.minimal_price = r.minimal_price)
    (hbflag : c.base_rate_per_month = true) (hcflag : c.card_rate_per_month = true)
    (hbase : clean_numeric r.base_rate_per_month = r.base_rate_per_month)
    (hcard : clean_numeric r.card_rate_per_month = r.card_rate_per_month) :
    finCleanRow c r = r := by
  by_cases hm : c.minimal_price = true
  · simp only [finCleanRow, hm, hmp hm, hbflag, hcflag, hbase, hcard, if_true,
      eq_self_iff_true, Bool.not_true, Bool.false_eq_true, if_false]
  · have hm2 : c.minimal_price = false := by simpa using hm
    simp only [finCleanRow, hm2, hbflag, hcflag, hbase, hcard, if_true,
      eq_self_iff_true, Bool.not_true, Bool.false_eq_true, if_false]

theorem finFillRow_id (c : ColFlags) (medP : ℚ) (r : Row)
    (hmpbase : c.minimal_price = true → r.base_rate_per_month.isna = false)
    (hcardbase : r.card_rate_per_month.isna = true → r.base_rate_per_month = Value.null)
    (hbu : r.base_rate_per_unit = r.base_rate_per_month)
    (hcu : r.card_rate_per_unit = r.card_rate_per_month) :
    finFillRow c medP r = r := by
  obtain ⟨rid, rbb, rft, rmt, rlt, rco, rlaa, rloo, rci, rdi, rar, rlly, rl, rad,
    rlm, rdm, rwd, rht, rfr, rq, rmp, rbm, rcm, rbu, rcu, riu, riu2⟩ := r
  simp only at hmpbase hcardbase hbu hcu
  subst hbu
  subst hcu
  by_cases hcn : rcu.isna = true
  · have hb0 : rbu = Value.null := hcardbase hcn
    subst hb0
    have hc0 : rcu = Value.null := (Value.isna_eq _).mp hcn
    subst hc0
    by_cases hm : c.minimal_price = true
    · simp only [Value.isna] at hmpbase
      exact absurd (hmpbase hm) (by simp)
    · have hm2 : c.minimal_price = false := by simpa using hm
      simp [finFillRow, hm2, vmul, Value.isna]
  · have hcn2 : rcu.isna = false := by simpa using hcn
    by_cases hm : c.minimal_price = true
    · have hbb : rbu.isna = false := hmpbase hm
      simp [finFillRow, hm, hbb, hcn2]
    · have hm2 : c.minimal_price = false := by simpa using hm
      simp [finFillRow, hm2, hcn2]


theorem projFlags_idem (keep : List String) (c : ColFlags) :
    projFlags keep (projFlags keep c) = projFlags keep c := by
  obtain ⟨c1, c2, c3, c4, c5, c6, c7, c8, c9, c10, c11, c12, c13, c14, c15, c16,
    c17, c18, c19, c20, c21, c22, c23, c24, c25, c26, c27⟩ := c
  simp only [projFlags]
  congr 1 <;> (by_cases h : true = true) <;>
    simp_all [Bool.decide_and, decide_eq_true_eq]

theorem geoCols_id (c : ColFlags) : (geoCols c).id = c.id := by
  simp only [geoCols, apply_ite (fun x : ColFlags => x.id), ite_self]

theorem geoCols_billboard_id (c : ColFlags) : (geoCols c).billboard_id = c.billboard_id := by
  simp only [geoCols, apply_ite (fun x : ColFlags => x.billboard_id), ite_self]

theorem geoCols_format_type (c : ColFlags) : (geoCols c).format_type = c.format_type := by
  simp only [geoCols, apply_ite (fun x : ColFlags => x.format_type), ite_self]

theorem geoCols_media_type (c : ColFlags) : (geoCols c).media_type = c.media_type := by
  simp only [geoCols, apply_ite (fun x : ColFlags => x.media_type), ite_self]

theorem geoCols_lighting_type (c : ColFlags) : (geoCols c).lighting_type = c.lighting_type := by
  simp only [geoCols, apply_ite (fun x : ColFlags => x.lighting_type), ite_self]

theorem geoCols_coordinates (c : ColFlags) : (geoCols c).coordinates = c.coordinates := by
  simp only [geoCols, apply_ite (fun x : ColFlags => x.coordinates), ite_self]

theorem geoCols_city (c : ColFlags) : (geoCols c).city = c.city := by
  simp only [geoCols, apply_ite (fun x : ColFlags => x.city), ite_self]

theorem geoCols_locality (c : ColFlags) : (geoCols c).locality = c.locality := by
  simp only [geoCols, apply_ite (fun x : ColFlags => x.locality), ite_self]

theorem geoCols_address (c : ColFlags) : (geoCols c).address = c.address := by
  simp only [geoCols, apply_ite (fun x : ColFlags => x.address), ite_self]

theorem geoCols_landmark (c : ColFlags) : (geoCols c).landmark = c.landmark := by
  simp only [geoCols, apply_ite (fun x : ColFlags => x.landmark), ite_self]

theorem geoCols_dimensions (c : ColFlags) : (geoCols c).dimensions = c.dimensions := by
  simp only [geoCols, apply_ite (fun x : ColFlags => x.dimensions), ite_self]

theorem geoCols_width_ft (c : ColFlags) : (geoCols c).width_ft = c.width_ft := by
  simp only [geoCols, apply_ite (fun x : ColFlags => x.width_ft), ite_self]

theorem geoCols_height_ft (c : ColFlags) : (geoCols c).height_ft = c.height_ft := by
  simp only [geoCols, apply_ite (fun x : ColFlags => x.height_ft), ite_self]

theorem geoCols_frequency_per_minute (c : ColFlags) : (geoCols c).frequency_per_minute = c.frequency_per_minute := by
  simp only [geoCols, apply_ite (fun x : ColFlags => x.frequency_per_minute), ite_self]

theorem geoCols_quantity (c : ColFlags) : (geoCols c).quantity = c.quantity := by
  simp only [geoCols, apply_ite (fun x : ColFlags => x.quantity), ite_self]

theorem geoCols_minimal_price (c : ColFlags) : (geoCols c).minimal_price = c.minimal_price := by
  simp only [geoCols, apply_ite (fun x : ColFlags => x.minimal_price), ite_self]

theorem geoCols_base_rate_per_month (c : ColFlags) : (geoCols c).base_rate_per_month = c.base_rate_per_month := by
  simp only [geoCols, apply_ite (fun x : ColFlags => x.base_rate_per_month), ite_self]

theorem geoCols_card_rate_per_month (c : ColFlags) : (geoCols c).card_rate_per_month = c.card_rate_per_month := by
  simp only [geoCols, apply_ite (fun x : ColFlags => x.card_rate_per_month), ite_self]

theorem geoCols_base_rate_per_unit (c : ColFlags) : (geoCols c).base_rate_per_unit = c.base_rate_per_unit := by
  simp only [geoCols, apply_ite (fun x : ColFlags => x.base_rate_per_unit), ite_self]

theorem geoCols_card_rate_per_unit (c : ColFlags) : (geoCols c).card_rate_per_unit = c.card_rate_per_unit := by
  simp only [geoCols, apply_ite (fun x : ColFlags => x.card_rate_per_unit), ite_self]

theorem geoCols_image_urls (c : ColFlags) : (geoCols c).image_urls = c.image_urls := by
  simp only [geoCols, apply_ite (fun x : ColFlags => x.image_urls), ite_self]

theorem geoCols_image_url (c : ColFlags) : (geoCols c).image_url = c.image_url := by
  simp only [geoCols, apply_ite (fun x : ColFlags => x.image_url), ite_self]

theorem geoCols_latitude (c : ColFlags) : (geoCols c).latitude = true := by
  simp only [geoCols, apply_ite (fun x : ColFlags => x.latitude), ite_self]

theorem geoCols_longitude (c : ColFlags) : (geoCols c).longitude = true := by
  simp only [geoCols, apply_ite (fun x : ColFlags => x.longitude), ite_self]

theorem geoCols_location (c : ColFlags) : (geoCols c).location = true := by
  simp only [geoCols, apply_ite (fun x : ColFlags => x.location), ite_self]

theorem geoCols_district (c : ColFlags) (h : c.city = true) :
    (geoCols c).district = true := by
  simp only [geoCols, apply_ite (fun x : ColFlags => x.district), ite_self, h,
    if_true, eq_self_iff_true]

theorem geoCols_area (c : ColFlags) (h : c.locality = true) :
    (geoCols c).area = true := by
  by_cases ha : c.area = true
  · simp [geoCols, apply_ite (fun x : ColFlags => x.area), ite_self, ha]
  · have ha2 : c.area = false := by simpa using ha
    simp [geoCols, apply_ite (fun x : ColFlags => x.area), ite_self, h, ha2]

theorem geoCols_id_fix (c : ColFlags)
    (hlat : c.latitude = true) (hlon : c.longitude = true) (hloc : c.location = true)
    (hcd : c.city = true → c.district = true)
    (hla : c.locality = true → c.area = true) : geoCols c = c := by
  obtain ⟨c1, c2, c3, c4, c5, c6, c7, c8, c9, c10, c11, c12, c13, c14, c15, c16,
    c17, c18, c19, c20, c21, c22, c23, c24, c25, c26, c27⟩ := c
  simp only at hlat hlon hloc hcd hla
  subst hlat
  subst hlon
  subst hloc
  by_cases hc : c9 = true
  · rcases hc with rfl
    simp only [forall_true_left] at hcd
    subst hcd
    by_cases hl : c12 = true
    · rcases hl with rfl
      simp only [forall_true_left] at hla
      subst hla
      simp [geoCols]
    · have hl2 : c12 = false := by simpa using hl
      subst hl2
      simp [geoCols]
  · have hc2 : c9 = false := by simpa using hc
    subst hc2
    by_cases hl : c12 = true
    · rcases hl with rfl
      simp only [forall_true_left] at hla
      subst hla
      simp [geoCols]
    · have hl2 : c12 = false := by simpa using hl
      subst hl2
      simp [geoCols]

theorem dimCols_fix (c : ColFlags) (hw : c.width_ft = true) (hh : c.height_ft = true)
    (hf : c.frequency_per_minute = true) (hq : c.quantity = true) :
    ({ c with width_ft := true
              height_ft := true
              frequency_per_minute := true
              quantity := true } : ColFlags) = c := by
  obtain ⟨c1, c2, c3, c4, c5, c6, c7, c8, c9, c10, c11, c12, c13, c14, c15, c16,
    c17, c18, c19, c20, c21, c22, c23, c24, c25, c26, c27⟩ := c
  simp only at hw hh hf hq
  subst hw
  subst hh
  subst hf
  subst hq
  rfl

theorem finCols_fix (c : ColFlags) (hb : c.base_rate_per_month = true)
    (hc2 : c.card_rate_per_month = true) (hbu : c.base_rate_per_unit = true)
    (hcu : c.card_rate_per_unit = true) :
    ({ c with base_rate_per_month := true
              card_rate_per_month := true
              base_rate_per_unit := true
              card_rate_per_unit := true } : ColFlags) = c := by
  obtain ⟨c1, c2, c3, c4, c5, c6, c7, c8, c9, c10, c11, c12, c13, c14, c15, c16,
    c17, c18, c19, c20, c21, c22, c23, c24, c25, c26, c27⟩ := c
  simp only at hb hc2 hbu hcu
  subst hb
  subst hc2
  subst hbu
  subst hcu
  rfl

theorem cleanCols_fix (c : ColFlags) (hid : c.id = false) :
    ({ c with id := false } : ColFlags) = c := by
  obtain ⟨c1, c2, c3, c4, c5, c6, c7, c8, c9, c10, c11, c12, c13, c14, c15, c16,
    c17, c18, c19, c20, c21, c22, c23, c24, c25, c26, c27⟩ := c
  simp only at hid
  subst hid
  rfl

theorem standard_cleanup_cols (df : DF) :
    (standard_cleanup df).cols = { df.cols with id := false } := by
  unfold standard_cleanup
  split_ifs <;> rfl

/-!  Stage identity on clean batches.  -/

theorem standard_cleanup_id (d : DF)
    (hid : d.cols.id = false)
    (hbb : d.cols.billboard_id = true ∨ d.rows = [])
    (hrows : ∀ r ∈ d.rows, Value.str (pyStrip r.billboard_id.toPyStr) = r.billboard_id)
    (hfmt : d.cols.format_type = true → ∀ r ∈ d.rows, formatApply r.format_type = r.format_type)
    (hlit : d.cols.lighting_type = true → ∀ r ∈ d.rows, lightingApply r.lighting_type = r.lighting_type)
    (hpw : d.rows.Pairwise fun a b => a.billboard_id ≠ b.billboard_id) :
    standard_cleanup d = d := by
  obtain ⟨c, rows⟩ := d
  obtain ⟨c1, c2, c3, c4, c5, c6, c7, c8, c9, c10, c11, c12, c13, c14, c15, c16,
    c17, c18, c19, c20, c21, c22, c23, c24, c25, c26, c27⟩ := c
  simp only at hid hbb hrows hfmt hlit hpw
  subst hid
  rcases hbb with hbb | hbb
  · subst hbb
    unfold standard_cleanup
    dsimp only
    simp only [Bool.not_true, Bool.false_eq_true, if_false]
    have h1 : rows.filter (fun r => !r.billboard_id.isna) = rows :=
      List.filter_eq_self.mpr (fun r hr => by rw [← hrows r hr]; rfl)
    rw [h1]
    have h2 : rows.map (fun r =>
        { r with billboard_id := Value.str (pyStrip r.billboard_id.toPyStr) }) = rows :=
      map_id_of_mem _ _ (fun r hr => by rw [hrows r hr])
    rw [h2]
    rw [dedupBy_eq_self _ _ _ hpw (by simp)]
    have h4 : (if c3 = true then
        rows.map (fun r => { r with format_type := formatApply r.format_type })
      else rows) = rows := by
      split_ifs with hf
      · exact map_id_of_mem _ _ (fun r hr => by rw [hfmt hf r hr])
      · rfl
    rw [h4]
    have h5 : (if c5 = true then
        rows.map (fun r => { r with lighting_type := lightingApply r.lighting_type })
      else rows) = rows := by
      split_ifs with hf
      · exact map_id_of_mem _ _ (fun r hr => by rw [hlit hf r hr])
      · rfl
    rw [h5]
  · subst hbb
    unfold standard_cleanup
    dsimp only
    split_ifs <;> simp [dedupBy]

theorem extract_geography_id (geo : ℚ → ℚ → Option String) (d : DF)
    (hlat : d.cols.latitude = true) (hlon : d.cols.longitude = true)
    (hloc : d.cols.location = true) (hco : d.cols.coordinates = false)
    (hcd : d.cols.city = true → d.cols.district = true)
    (hla : d.cols.locality = true → d.cols.area = true)
    (hrows : ∀ r ∈ d.rows,
      to_numeric r.latitude = r.latitude
      ∧ to_numeric r.longitude = r.longitude
      ∧ (d.cols.city = true → Value.str (pyTitle r.city.toPyStr) = r.city)
      ∧ (d.cols.city = true → r.district.isna = false)
      ∧ geoCodeRow geo r = r) :
    extract_geography geo d = d := by
  unfold extract_geography
  rw [geoCols_id_fix d.cols hlat hlon hloc hcd hla]
  rw [map_id_of_mem _ _ (fun r hr => by
    obtain ⟨h1, h2, h3, h4, h5⟩ := hrows r hr
    exact geoRowFull_id geo d.cols r hlat hlon hloc hco hcd hla h1 h2 h3 h4 h5)]

theorem fill_dimensions_id (d : DF)
    (hw : d.cols.width_ft = true) (hh : d.cols.height_ft = true)
    (hfr : d.cols.frequency_per_minute = true) (hq : d.cols.quantity = true)
    (hdm : d.cols.dimensions = false)
    (hrows : ∀ r ∈ d.rows,
      to_numeric r.width_ft = r.width_ft
      ∧ to_numeric r.height_ft = r.height_ft
      ∧ (d.cols.format_type = true → r.width_ft.isna = false ∧ r.height_ft.isna = false)
      ∧ r.frequency_per_minute.isna = false
      ∧ r.quantity.isna = false
      ∧ r.quantity ≠ Value.num 0) :
    fill_dimensions d = d := by
  unfold fill_dimensions
  dsimp only
  rw [map_id_of_mem (dimExtractRow d.cols) d.rows (fun r hr => by
    obtain ⟨h1, h2, _, _, _, _⟩ := hrows r hr
    exact dimExtractRow_id d.cols r hw hh hdm h1 h2)]
  rw [map_id_of_mem (dimFillRow d.cols d.rows) d.rows (fun r hr => by
    obtain ⟨h1, h2, h3, h4, h5, h6⟩ := hrows r hr
    unfold dimFillRow
    rw [dimWHRow_id d.cols d.rows r h3, dimFreqRow_id d.cols r hfr h4,
      dimQtyRow_id d.cols r hq h5 h6])]
  rw [dimCols_fix d.cols hw hh hfr hq]

theorem calculate_financials_id (d : DF)
    (hb : d.cols.base_rate_per_month = true) (hc : d.cols.card_rate_per_month = true)
    (hbu : d.cols.base_rate_per_unit = true) (hcu : d.cols.card_rate_per_unit = true)
    (hrows : ∀ r ∈ d.rows,
      (d.cols.minimal_price = true → clean_numeric r.minimal_price = r.minimal_price)
      ∧ clean_numeric r.base_rate_per_month = r.base_rate_per_month
      ∧ clean_numeric r.card_rate_per_month = r.card_rate_per_month
      ∧ (d.cols.minimal_price = true → r.base_rate_per_month.isna = false)
      ∧ (r.card_rate_per_month.isna = true → r.base_rate_per_month = Value.null)
      ∧ r.base_rate_per_unit = r.base_rate_per_month
      ∧ r.card_rate_per_unit = r.card_rate_per_month) :
    calculate_financials d = d := by
  unfold calculate_financials
  dsimp only
  rw [map_id_of_mem (finCleanRow d.cols) d.rows (fun r hr => by
    obtain ⟨h1, h2, h3, _, _, _, _⟩ := hrows r hr
    exact finCleanRow_id d.cols r h1 hb hc h2 h3)]
  rw [map_id_of_mem (finFillRow d.cols (medPrice d.rows)) d.rows (fun r hr => by
    obtain ⟨_, _, _, h4, h5, h6, h7⟩ := hrows r hr
    exact finFillRow_id d.cols _ r h4 h5 h6 h7)]
  rw [finCols_fix d.cols hb hc hbu hcu]

theorem final_validation_id (keep : List String) (d : DF)
    (himg : d.cols.image_urls = true)
    (hlat : d.cols.latitude = true) (hlon : d.cols.longitude = true)
    (hproj : projFlags keep d.cols = d.cols)
    (hrows : ∀ r ∈ d.rows, invalidImage r.image_urls = false ∧ coordBad r = false) :
    (final_validation keep d).1 = d := by
  unfold final_validation resolvedRows
  rw [if_neg (by simp [himg]), if_pos himg, if_pos himg]
  rw [List.filter_eq_self.mpr (fun r hr => by rw [(hrows r hr).1]; rfl)]
  rw [if_neg (by simp [hlat, hlon])]
  rw [List.filter_eq_self.mpr (fun r hr => by rw [(hrows r hr).2]; rfl)]
  simp only [hproj]

/-!  The cleanliness invariant the first pipeline run establishes.  -/

theorem pipeline_fixed (geo : ℚ → ℚ → Option String) (keep : List String) (d : DF)
    (h : DFClean geo keep d) : pipeline geo keep d = d := by
  obtain ⟨⟨hid, hlat, hlon, hloc, hw, hh, hfr, hq, hb, hc, hbu, hcu, hcd, hla, hco,
    hdm, himg, hproj⟩, hbb, hpw, hrows⟩ := h
  unfold pipeline
  rw [standard_cleanup_id d hid hbb
      (fun r hr => ((hrows r hr).1))
      (fun hf r hr => ((hrows r hr).2.1 hf))
      (fun hf r hr => ((hrows r hr).2.2.1 hf)) hpw]
  rw [extract_geography_id geo d hlat hlon hloc hco hcd hla (fun r hr => by
    obtain ⟨h1, h2, h3, h4, h5, h6, h7, h8, hrest⟩ := hrows r hr
    exact ⟨h4, h5, h6, h7, h8⟩)]
  rw [fill_dimensions_id d hw hh hfr hq hdm (fun r hr => by
    obtain ⟨h1, h2, h3, h4, h5, h6, h7, h8, h9, h10, h11, h12, h13, h14, hrest⟩ := hrows r hr
    exact ⟨h9, h10, h11, h12, h13, h14⟩)]
  rw [calculate_financials_id d hb hc hbu hcu (fun r hr => by
    obtain ⟨h1, h2, h3, h4, h5, h6, h7, h8, h9, h10, h11, h12, h13, h14, h15, h16,
      h17, h18, h19, h20, h21, hrest⟩ := hrows r hr
    exact ⟨h15, h16, h17, h18, h19, h20, h21⟩)]
  exact final_validation_id keep d himg hlat hlon hproj (fun r hr => by
    obtain ⟨h1, h2, h3, h4, h5, h6, h7, h8, h9, h10, h11, h12, h13, h14, h15, h16,
      h17, h18, h19, h20, h21, h22, h23⟩ := hrows r hr
    exact ⟨h22, h23⟩)

/-!  Establishment: facts the first run guarantees about its output.  -/

theorem pipeline_eq_stage4 (geo : ℚ → ℚ → Option String) (keep : List String) (df : DF) :
    pipeline geo keep df = (final_validation keep (stage4 geo df)).1 := rfl

theorem geoCodeRow_location_eq (geo : ℚ → ℚ → Option String) (r : Row) :
    (geoCodeRow geo r).location
      = if (r.location.isna = true ∨ pyStrip r.location.toPyStr = "")
            ∧ (!r.latitude.isna) = true ∧ (!r.longitude.isna) = true
        then (match geo r.latitude.getQ r.longitude.getQ with
              | some a => Value.str a
              | none => Value.null)
        else r.location := by
  unfold geoCodeRow
  split_ifs <;> rfl

theorem geoCodeRow_congr (geo : ℚ → ℚ → Option String) (r s : Row)
    (h1 : s.location = r.location) (h2 : s.latitude = r.latitude)
    (h3 : s.longitude = r.longitude)
    (hfix : geoCodeRow geo r = r) : geoCodeRow geo s = s := by
  by_cases hcnd : (s.location.isna = true ∨ pyStrip s.location.toPyStr = "")
      ∧ (!s.latitude.isna) = true ∧ (!s.longitude.isna) = true
  · have hcndr : (r.location.isna = true ∨ pyStrip r.location.toPyStr = "")
        ∧ (!r.latitude.isna) = true ∧ (!r.longitude.isna) = true := by
      rw [← h1, ← h2, ← h3]
      exact hcnd
    have hfloc := congrArg Row.location hfix
    rw [geoCodeRow_location_eq, if_pos hcndr] at hfloc
    have hms : (match geo s.latitude.getQ s.longitude.getQ with
        | some a => Value.str a
        | none => Value.null) = s.location := by
      rw [h2, h3, hfloc, ← h1]
    unfold geoCodeRow
    rw [if_pos hcnd, hms]
  · unfold geoCodeRow
    rw [if_neg hcnd]

theorem standard_cleanup_rows_mem (df : DF) :
    ∀ r ∈ (standard_cleanup df).rows,
      Value.str (pyStrip r.billboard_id.toPyStr) = r.billboard_id
      ∧ (df.cols.format_type = true → formatApply r.format_type = r.format_type)
      ∧ (df.cols.lighting_type = true → lightingApply r.lighting_type = r.lighting_type) := by
  have key : ∀ r3 ∈ dedupBy (fun r => r.billboard_id)
      ((df.rows.filter fun r => !r.billboard_id.isna).map fun r =>
        { r with billboard_id := Value.str (pyStrip r.billboard_id.toPyStr) }) [],
      Value.str (pyStrip r3.billboard_id.toPyStr) = r3.billboard_id := by
    intro r3 hr3
    have hr2 := dedupBy_subset _ _ _ _ hr3
    obtain ⟨r1, _, rfl⟩ := List.mem_map.mp hr2
    show Value.str (pyStrip (pyStrip r1.billboard_id.toPyStr)) = _
    rw [pyStrip_pyStrip]
  intro r hr
  unfold standard_cleanup at hr
  split_ifs at hr with h h1 h2 h3 h4 h5
  · simp at hr
  all_goals dsimp only at hr
  · obtain ⟨r4, hr4, rfl⟩ := List.mem_map.mp hr
    obtain ⟨r3, hr3, rfl⟩ := List.mem_map.mp hr4
    exact ⟨key r3 hr3, fun _ => formatApply_idem _, fun _ => lightingApply_idem _⟩
  · obtain ⟨r3, hr3, rfl⟩ := List.mem_map.mp hr
    exact ⟨key r3 hr3, fun _ => formatApply_idem _,
      fun hcon => absurd hcon (by assumption)⟩
  · obtain ⟨r3, hr3, rfl⟩ := List.mem_map.mp hr
    exact ⟨key r3 hr3, fun hcon => absurd hcon (by assumption),
      fun _ => lightingApply_idem _⟩
  · exact ⟨key r hr, fun hcon => absurd hcon (by assumption),
      fun hcon => absurd hcon (by assumption)⟩

theorem standard_cleanup_pairwise (df : DF) :
    (standard_cleanup df).rows.Pairwise (fun a b => a.billboard_id ≠ b.billboard_id) := by
  have hded := dedupBy_pairwise (fun r => r.billboard_id)
    ((df.rows.filter fun r => !r.billboard_id.isna).map fun r =>
      { r with billboard_id := Value.str (pyStrip r.billboard_id.toPyStr) }) []
  unfold standard_cleanup
  split_ifs with h h1 h2 h3
  all_goals dsimp only
  all_goals first
    | exact List.Pairwise.nil
    | exact hded
    | exact pairwise_key_map (fun r => r.billboard_id)
        (fun r => { r with lighting_type := lightingApply r.lighting_type }) (fun r => rfl) _
        (pairwise_key_map (fun r => r.billboard_id)
          (fun r => { r with format_type := formatApply r.format_type }) (fun r => rfl) _ hded)
    | exact pairwise_key_map (fun r => r.billboard_id)
        (fun r => { r with lighting_type := lightingApply r.lighting_type }) (fun r => rfl) _ hded
    | exact pairwise_key_map (fun r => r.billboard_id)
        (fun r => { r with format_type := formatApply r.format_type }) (fun r => rfl) _ hded

theorem standard_cleanup_rows_nil (df : DF) (h : df.cols.billboard_id = false) :
    (standard_cleanup df).rows = [] := by
  unfold standard_cleanup
  rw [if_pos (by simp [h])]

/-!  Column facts of the stage-4 output.  -/

theorem stage4_cols_eq (geo : ℚ → ℚ → Option String) (df : DF) :
    (stage4 geo df).cols
      = { geoCols { df.cols with id := false } with
            width_ft := true
            height_ft := true
            frequency_per_minute := true
            quantity := true
            base_rate_per_month := true
            card_rate_per_month := true
            base_rate_per_unit := true
            card_rate_per_unit := true } := by
  simp only [stage4, calculate_financials, fill_dimensions, extract_geography,
    standard_cleanup_cols]

theorem stage4_cols_width_ft (geo : ℚ → ℚ → Option String) (df : DF) :
    (stage4 geo df).cols.width_ft = true := by
  rw [stage4_cols_eq]

theorem stage4_cols_height_ft (geo : ℚ → ℚ → Option String) (df : DF) :
    (stage4 geo df).cols.height_ft = true := by
  rw [stage4_cols_eq]

theorem stage4_cols_frequency_per_minute (geo : ℚ → ℚ → Option String) (df : DF) :
    (stage4 geo df).cols.frequency_per_minute = true := by
  rw [stage4_cols_eq]

theorem stage4_cols_quantity (geo : ℚ → ℚ → Option String) (df : DF) :
    (stage4 geo df).cols.quantity = true := by
  rw [stage4_cols_eq]

theorem stage4_cols_base_rate_per_month (geo : ℚ → ℚ → Option String) (df : DF) :
    (stage4 geo df).cols.base_rate_per_month = true := by
  rw [stage4_cols_eq]

theorem stage4_cols_card_rate_per_month (geo : ℚ → ℚ → Option String) (df : DF) :
    (stage4 geo df).cols.card_rate_per_month = true := by
  rw [stage4_cols_eq]

theorem stage4_cols_base_rate_per_unit (geo : ℚ → ℚ → Option String) (df : DF) :
    (stage4 geo df).cols.base_rate_per_unit = true := by
  rw [stage4_cols_eq]

theorem stage4_cols_card_rate_per_unit (geo : ℚ → ℚ → Option String) (df : DF) :
    (stage4 geo df).cols.card_rate_per_unit = true := by
  rw [stage4_cols_eq]

theorem stage4_cols_latitude (geo : ℚ → ℚ → Option String) (df : DF) :
    (stage4 geo df).cols.latitude = true := by
  rw [stage4_cols_eq]
  exact geoCols_latitude _

theorem stage4_cols_longitude (geo : ℚ → ℚ → Option String) (df : DF) :
    (stage4 geo df).cols.longitude = true := by
  rw [stage4_cols_eq]
  exact geoCols_longitude _

theorem stage4_cols_location (geo : ℚ → ℚ → Option String) (df : DF) :
    (stage4 geo df).cols.location = true := by
  rw [stage4_cols_eq]
  exact geoCols_location _

theorem stage4_cols_billboard_id (geo : ℚ → ℚ → Option String) (df : DF) :
    (stage4 geo df).cols.billboard_id = df.cols.billboard_id := by
  rw [stage4_cols_eq]
  exact geoCols_billboard_id _

theorem stage4_cols_format_type (geo : ℚ → ℚ → Option String) (df : DF) :
    (stage4 geo df).cols.format_type = df.cols.format_type := by
  rw [stage4_cols_eq]
  exact geoCols_format_type _

theorem stage4_cols_lighting_type (geo : ℚ → ℚ → Option String) (df : DF) :
    (stage4 geo df).cols.lighting_type = df.cols.lighting_type := by
  rw [stage4_cols_eq]
  exact geoCols_lighting_type _

theorem stage4_cols_city (geo : ℚ → ℚ → Option String) (df : DF) :
    (stage4 geo df).cols.city = df.cols.city := by
  rw [stage4_cols_eq]
  exact geoCols_city _

theorem stage4_cols_locality (geo : ℚ → ℚ → Option String) (df : DF) :
    (stage4 geo df).cols.locality = df.cols.locality := by
  rw [stage4_cols_eq]
  exact geoCols_locality _

theorem stage4_cols_minimal_price (geo : ℚ → ℚ → Option String) (df : DF) :
    (stage4 geo df).cols.minimal_price = df.cols.minimal_price := by
  rw [stage4_cols_eq]
  exact geoCols_minimal_price _

theorem stage4_cols_image_urls (geo : ℚ → ℚ → Option String) (df : DF) :
    (stage4 geo df).cols.image_urls = df.cols.image_urls := by
  rw [stage4_cols_eq]
  exact geoCols_image_urls _

theorem stage4_cols_image_url (geo : ℚ → ℚ → Option String) (df : DF) :
    (stage4 geo df).cols.image_url = df.cols.image_url := by
  rw [stage4_cols_eq]
  exact geoCols_image_url _

theorem stage4_cols_idflag (geo : ℚ → ℚ → Option String) (df : DF) :
    (stage4 geo df).cols.id = false := by
  rw [stage4_cols_eq]
  exact geoCols_id _

theorem stage4_cols_district (geo : ℚ → ℚ → Option String) (df : DF)
    (h : df.cols.city = true) :
    (stage4 geo df).cols.district = true := by
  rw [stage4_cols_eq]
  exact geoCols_district _ h

theorem stage4_cols_area (geo : ℚ → ℚ → Option String) (df : DF)
    (h : df.cols.locality = true) :
    (stage4 geo df).cols.area = true := by
  rw [stage4_cols_eq]
  exact geoCols_area _ h

/-!  Projections of the combined dimension fill.  -/

theorem dimFillRow_billboard_id (c : ColFlags) (snap : List Row) (r : Row) :
    (dimFillRow c snap r).billboard_id = r.billboard_id := by
  unfold dimFillRow
  rw [dimQtyRow_billboard_id, dimFreqRow_billboard_id, dimWHRow_billboard_id]

theorem dimFillRow_latitude (c : ColFlags) (snap : List Row) (r : Row) :
    (dimFillRow c snap r).latitude = r.latitude := by
  unfold dimFillRow
  rw [dimQtyRow_latitude, dimFreqRow_latitude, dimWHRow_latitude]

theorem dimFillRow_longitude (c : ColFlags) (snap : List Row) (r : Row) :
    (dimFillRow c snap r).longitude = r.longitude := by
  unfold dimFillRow
  rw [dimQtyRow_longitude, dimFreqRow_longitude, dimWHRow_longitude]

theorem dimFillRow_city (c : ColFlags) (snap : List Row) (r : Row) :
    (dimFillRow c snap r).city = r.city := by
  unfold dimFillRow
  rw [dimQtyRow_city, dimFreqRow_city, dimWHRow_city]

theorem dimFillRow_district (c : ColFlags) (snap : List Row) (r : Row) :
    (dimFillRow c snap r).district = r.district := by
  unfold dimFillRow
  rw [dimQtyRow_district, dimFreqRow_district, dimWHRow_district]

theorem dimFillRow_location (c : ColFlags) (snap : List Row) (r : Row) :
    (dimFillRow c snap r).location = r.location := by
  unfold dimFillRow
  rw [dimQtyRow_location, dimFreqRow_location, dimWHRow_location]

theorem dimFillRow_format_type (c : ColFlags) (snap : List Row) (r : Row) :
    (dimFillRow c snap r).format_type = r.format_type := by
  unfold dimFillRow
  rw [dimQtyRow_format_type, dimFreqRow_format_type, dimWHRow_format]

theorem dimFillRow_lighting_type (c : ColFlags) (snap : List Row) (r : Row) :
    (dimFillRow c snap r).lighting_type = r.lighting_type := by
  unfold dimFillRow
  rw [dimQtyRow_lighting_type, dimFreqRow_lighting_type, dimWHRow_lighting]

/-!  Row facts after the geography stage.  -/

theorem stage2_rows_mem (geo : ℚ → ℚ → Option String) (df : DF) :
    ∀ r ∈ (extract_geography geo (standard_cleanup df)).rows,
      Value.str (pyStrip r.billboard_id.toPyStr) = r.billboard_id
      ∧ (df.cols.format_type = true → formatApply r.format_type = r.format_type)
      ∧ (df.cols.lighting_type = true → lightingApply r.lighting_type = r.lighting_type)
      ∧ to_numeric r.latitude = r.latitude
      ∧ to_numeric r.longitude = r.longitude
      ∧ (df.cols.city = true → Value.str (pyTitle r.city.toPyStr) = r.city)
      ∧ (df.cols.city = true → r.district.isna = false)
      ∧ geoCodeRow geo r = r := by
  intro r hr
  obtain ⟨r0, hr0, rfl⟩ := List.mem_map.mp hr
  obtain ⟨hb, hf, hl⟩ := standard_cleanup_rows_mem df r0 hr0
  refine ⟨?_, ?_, ?_, geoRowFull_lat_fixed geo _ r0, geoRowFull_lon_fixed geo _ r0,
    ?_, ?_, geoRowFull_geoCode_fixed geo _ r0⟩
  · rw [geoRowFull_billboard]
    exact hb
  · intro hft
    rw [geoRowFull_format_type]
    exact hf hft
  · intro hlt
    rw [geoRowFull_lighting_type]
    exact hl hlt
  · intro hc
    exact geoRowFull_city_fixed geo _ r0 (by rw [standard_cleanup_cols]; exact hc)
  · intro hc
    exact geoRowFull_district_nonnull geo _ r0 (by rw [standard_cleanup_cols]; exact hc)

/-!  Row facts after the dimension stage.  -/

theorem stage3_rows_mem (geo : ℚ → ℚ → Option String) (df : DF) :
    ∀ r ∈ (fill_dimensions (extract_geography geo (standard_cleanup df))).rows,
      Value.str (pyStrip r.billboard_id.toPyStr) = r.billboard_id
      ∧ (df.cols.format_type = true → formatApply r.format_type = r.format_type)
      ∧ (df.cols.lighting_type = true → lightingApply r.lighting_type = r.lighting_type)
      ∧ to_numeric r.latitude = r.latitude
      ∧ to_numeric r.longitude = r.longitude
      ∧ (df.cols.city = true → Value.str (pyTitle r.city.toPyStr) = r.city)
      ∧ (df.cols.city = true → r.district.isna = false)
      ∧ geoCodeRow geo r = r
      ∧ to_numeric r.width_ft = r.width_ft
      ∧ to_numeric r.height_ft = r.height_ft
      ∧ (df.cols.format_type = true → r.width_ft.isna = false ∧ r.height_ft.isna = false)
      ∧ r.frequency_per_minute.isna = false
      ∧ r.quantity.isna = false
      ∧ r.quantity ≠ Value.num 0 := by
  intro r hr
  obtain ⟨s, hs, rfl⟩ := List.mem_map.mp hr
  obtain ⟨g, hg, rfl⟩ := List.mem_map.mp hs
  obtain ⟨hb, hf, hl, hlaf, hlof, hci, hdi, hgc⟩ := stage2_rows_mem geo df g hg
  have hc3f : (extract_geography geo (standard_cleanup df)).cols.format_type
      = df.cols.format_type := by
    show (geoCols (standard_cleanup df).cols).format_type = df.cols.format_type
    rw [geoCols_format_type, standard_cleanup_cols]
  refine ⟨?_, ?_, ?_, ?_, ?_, ?_, ?_, ?_, ?_, ?_, ?_, ?_,
    (dimQtyRow_facts _ _).1, (dimQtyRow_facts _ _).2⟩
  · rw [dimFillRow_billboard_id, dimExtractRow_billboard_id]
    exact hb
  · intro h
    rw [dimFillRow_format_type, dimExtractRow_format_type]
    exact hf h
  · intro h
    rw [dimFillRow_lighting_type, dimExtractRow_lighting_type]
    exact hl h
  · rw [dimFillRow_latitude, dimExtractRow_latitude]
    exact hlaf
  · rw [dimFillRow_longitude, dimExtractRow_longitude]
    exact hlof
  · intro h
    rw [dimFillRow_city, dimExtractRow_city]
    exact hci h
  · intro h
    rw [dimFillRow_district, dimExtractRow_district]
    exact hdi h
  · refine geoCodeRow_congr geo g _ ?_ ?_ ?_ hgc
    · rw [dimFillRow_location, dimExtractRow_location]
    · rw [dimFillRow_latitude, dimExtractRow_latitude]
    · rw [dimFillRow_longitude, dimExtractRow_longitude]
  · show to_numeric (dimFillRow _ _ _).width_ft = _
    unfold dimFillRow
    rw [dimQtyRow_width_ft, dimFreqRow_width_ft]
    exact dimWHRow_w_fixed _ _ _ (dimExtractRow_w_fixed _ g)
  · show to_numeric (dimFillRow _ _ _).height_ft = _
    unfold dimFillRow
    rw [dimQtyRow_height_ft, dimFreqRow_height_ft]
    exact dimWHRow_h_fixed _ _ _ (dimExtractRow_h_fixed _ g)
  · intro h
    show (dimFillRow _ _ _).width_ft.isna = false ∧ (dimFillRow _ _ _).height_ft.isna = false
    unfold dimFillRow
    rw [dimQtyRow_width_ft, dimFreqRow_width_ft, dimQtyRow_height_ft, dimFreqRow_height_ft]
    exact dimWHRow_wh_nonnull _ _ _ (by rw [hc3f]; exact h)
  · show (dimFillRow _ _ _).frequency_per_minute.isna = false
    unfold dimFillRow
    rw [dimQtyRow_freq]
    exact dimFreqRow_nonnull _ _

/-!  Financial-stage establishment facts.  -/

theorem mkRat_4285_nonneg : (0 : ℚ) ≤ mkRat 4285 1000 := by
  rw [Rat.mkRat_eq_div]
  norm_num

theorem mkRat_11_10_nonneg : (0 : ℚ) ≤ mkRat 11 10 := by
  rw [Rat.mkRat_eq_div]
  norm_num

theorem finFillRow_base_eq (c : ColFlags) (medP : ℚ) (m : Row) :
    (finFillRow c medP m).base_rate_per_month
      = if c.minimal_price = true ∧ m.base_rate_per_month.isna = true then
          Value.num (qMul (match m.minimal_price with
                           | Value.num q => q
                           | _ => medP) (mkRat 4285 1000))
        else m.base_rate_per_month := by
  simp only [finFillRow]
  split_ifs <;> simp_all [Value.isna]

theorem finFillRow_card_eq (c : ColFlags) (medP : ℚ) (m : Row) :
    (finFillRow c medP m).card_rate_per_month
      = if m.card_rate_per_month.isna = true then
          vmul ((finFillRow c medP m).base_rate_per_month) (mkRat 11 10)
        else m.card_rate_per_month := by
  simp only [finFillRow]
  split_ifs <;> simp_all [Value.isna]

theorem finFillRow_units (c : ColFlags) (medP : ℚ) (m : Row) :
    (finFillRow c medP m).base_rate_per_unit = (finFillRow c medP m).base_rate_per_month
    ∧ (finFillRow c medP m).card_rate_per_unit = (finFillRow c medP m).card_rate_per_month := by
  simp only [finFillRow]
  exact ⟨trivial, trivial⟩

theorem finFillRow_facts (c : ColFlags) (medP : ℚ) (m : Row)
    (hmedP : c.minimal_price = true → 0 ≤ medP)
    (hmp : c.minimal_price = true → clean_numeric m.minimal_price = m.minimal_price)
    (hmpn : c.minimal_price = true → ∀ p, m.minimal_price = Value.num p → 0 ≤ p)
    (hbase : clean_numeric m.base_rate_per_month = m.base_rate_per_month)
    (hbasen : ∀ b, m.base_rate_per_month = Value.num b → 0 ≤ b)
    (hbshape : m.base_rate_per_month = Value.null
      ∨ ∃ b, m.base_rate_per_month = Value.num b)
    (hcard : clean_numeric m.card_rate_per_month = m.card_rate_per_month)
    (hcardn : ∀ b, m.card_rate_per_month = Value.num b → 0 ≤ b) :
    (c.minimal_price = true →
      clean_numeric (finFillRow c medP m).minimal_price = (finFillRow c medP m).minimal_price)
    ∧ clean_numeric (finFillRow c medP m).base_rate_per_month
        = (finFillRow c medP m).base_rate_per_month
    ∧ clean_numeric (finFillRow c medP m).card_rate_per_month
        = (finFillRow c medP m).card_rate_per_month
    ∧ (c.minimal_price = true → (finFillRow c medP m).base_rate_per_month.isna = false)
    ∧ ((finFillRow c medP m).card_rate_per_month.isna = true →
        (finFillRow c medP m).base_rate_per_month = Value.null)
    ∧ (finFillRow c medP m).base_rate_per_unit = (finFillRow c medP m).base_rate_per_month
    ∧ (finFillRow c medP m).card_rate_per_unit = (finFillRow c medP m).card_rate_per_month := by
  have hXnn : c.minimal_price = true → 0 ≤ (match m.minimal_price with
      | Value.num q => q
      | _ => medP) := by
    intro hflag
    cases hm : m.minimal_price with
    | null => exact hmedP hflag
    | num p => exact hmpn hflag p hm
    | str s => exact hmedP hflag
  have hBshape : (finFillRow c medP m).base_rate_per_month = Value.null
      ∨ ∃ b, (finFillRow c medP m).base_rate_per_month = Value.num b := by
    rw [finFillRow_base_eq]
    split_ifs
    · exact Or.inr ⟨_, rfl⟩
    · exact hbshape
  have hBnn : ∀ b, (finFillRow c medP m).base_rate_per_month = Value.num b → 0 ≤ b := by
    intro b hb
    rw [finFillRow_base_eq] at hb
    split_ifs at hb with hcnd
    · injection hb with hb
      subst hb
      rw [qMul_eq]
      exact mul_nonneg (hXnn hcnd.1) mkRat_4285_nonneg
    · exact hbasen b hb
  refine ⟨?_, ?_, ?_, ?_, ?_, (finFillRow_units c medP m).1, (finFillRow_units c medP m).2⟩
  · intro hflag
    rw [finFillRow_minimal_price]
    exact hmp hflag
  · rcases hBshape with hB | ⟨b, hB⟩
    · rw [hB]
      rfl
    · rw [hB]
      show Value.num |b| = Value.num b
      rw [abs_of_nonneg (hBnn b hB)]
  · rw [finFillRow_card_eq]
    split_ifs with hcd
    · rcases hBshape with hB | ⟨b, hB⟩
      · rw [hB]
        rfl
      · rw [hB]
        show Value.num |qMul b (mkRat 11 10)| = Value.num (qMul b (mkRat 11 10))
        rw [abs_of_nonneg (by rw [qMul_eq]; exact mul_nonneg (hBnn b hB) mkRat_11_10_nonneg)]
    · exact hcard
  · intro hflag
    rw [finFillRow_base_eq]
    split_ifs with hcnd
    · rfl
    · cases hmb : m.base_rate_per_month.isna with
      | false => rfl
      | true => exact absurd ⟨hflag, hmb⟩ hcnd
  · intro hout
    rw [finFillRow_card_eq] at hout
    split_ifs at hout with hcd
    · rcases hBshape with hB | ⟨b, hB⟩
      · exact hB
      · rw [hB] at hout
        exact absurd hout (by simp [vmul, Value.isna])
    · exact absurd hout (by simp [hcd])

theorem finCleanRow_gives (c : ColFlags) (q : Row) :
    (c.minimal_price = true →
      clean_numeric (finCleanRow c q).minimal_price = (finCleanRow c q).minimal_price)
    ∧ (c.minimal_price = true → ∀ p, (finCleanRow c q).minimal_price = Value.num p → 0 ≤ p)
    ∧ clean_numeric (finCleanRow c q).base_rate_per_month = (finCleanRow c q).base_rate_per_month
    ∧ (∀ b, (finCleanRow c q).base_rate_per_month = Value.num b → 0 ≤ b)
    ∧ ((finCleanRow c q).base_rate_per_month = Value.null
        ∨ ∃ b, (finCleanRow c q).base_rate_per_month = Value.num b)
    ∧ clean_numeric (finCleanRow c q).card_rate_per_month = (finCleanRow c q).card_rate_per_month
    ∧ (∀ b, (finCleanRow c q).card_rate_per_month = Value.num b → 0 ≤ b) := by
  refine ⟨?_, ?_, ?_, ?_, ?_, ?_, ?_⟩
  · intro h
    rw [finCleanRow_minimal_price, if_pos h]
    exact clean_numeric_idem _
  · intro h p hp
    rw [finCleanRow_minimal_price, if_pos h] at hp
    exact clean_numeric_nonneg _ _ hp
  · rw [finCleanRow_base]
    split_ifs
    · exact clean_numeric_idem _
    · rfl
  · intro b hb
    rw [finCleanRow_base] at hb
    split_ifs at hb <;> first
      | exact clean_numeric_nonneg _ _ hb
      | exact absurd hb (by simp)
  · rw [finCleanRow_base]
    split_ifs
    · exact clean_numeric_shape _
    · exact Or.inl rfl
  · rw [finCleanRow_card]
    split_ifs
    · exact clean_numeric_idem _
    · rfl
  · intro b hb
    rw [finCleanRow_card] at hb
    split_ifs at hb <;> first
      | exact clean_numeric_nonneg _ _ hb
      | exact absurd hb (by simp)

theorem stage4_rows_mem (geo : ℚ → ℚ → Option String) (df : DF) :
    ∀ r ∈ (stage4 geo df).rows,
      Value.str (pyStrip r.billboard_id.toPyStr) = r.billboard_id
      ∧ (df.cols.format_type = true → formatApply r.format_type = r.format_type)
      ∧ (df.cols.lighting_type = true → lightingApply r.lighting_type = r.lighting_type)
      ∧ to_numeric r.latitude = r.latitude
      ∧ to_numeric r.longitude = r.longitude
      ∧ (df.cols.city = true → Value.str (pyTitle r.city.toPyStr) = r.city)
      ∧ (df.cols.city = true → r.district.isna = false)
      ∧ geoCodeRow geo r = r
      ∧ to_numeric r.width_ft = r.width_ft
      ∧ to_numeric r.height_ft = r.height_ft
      ∧ (df.cols.format_type = true → r.width_ft.isna = false ∧ r.height_ft.isna = false)
      ∧ r.frequency_per_minute.isna = false
      ∧ r.quantity.isna = false
      ∧ r.quantity ≠ Value.num 0
      ∧ (df.cols.minimal_price = true → clean_numeric r.minimal_price = r.minimal_price)
      ∧ clean_numeric r.base_rate_per_month = r.base_rate_per_month
      ∧ clean_numeric r.card_rate_per_month = r.card_rate_per_month
      ∧ (df.cols.minimal_price = true → r.base_rate_per_month.isna = false)
      ∧ (r.card_rate_per_month.isna = true → r.base_rate_per_month = Value.null)
      ∧ r.base_rate_per_unit = r.base_rate_per_month
      ∧ r.card_rate_per_unit = r.card_rate_per_month := by
  intro r hr
  obtain ⟨m, hm, rfl⟩ := List.mem_map.mp hr
  obtain ⟨q, hq, rfl⟩ := List.mem_map.mp hm
  obtain ⟨hb, hf, hl, hlaf, hlof, hci, hdi, hgc, hwf, hhf, hwh, hfrq, hqn, hq0⟩ :=
    stage3_rows_mem geo df q hq
  have hc4mp : (fill_dimensions (extract_geography geo (standard_cleanup df))).cols.minimal_price
      = df.cols.minimal_price := by
    show (geoCols (standard_cleanup df).cols).minimal_price = df.cols.minimal_price
    rw [geoCols_minimal_price, standard_cleanup_cols]
  obtain ⟨g1, g2, g3, g4, g5, g6, g7⟩ := finCleanRow_gives
    (fill_dimensions (extract_geography geo (standard_cleanup df))).cols q
  have hmed : (fill_dimensions (extract_geography geo (standard_cleanup df))).cols.minimal_price
        = true →
      0 ≤ medPrice ((fill_dimensions (extract_geography geo (standard_cleanup df))).rows.map
        (finCleanRow (fill_dimensions (extract_geography geo (standard_cleanup df))).cols)) :=
    fun h => medPrice_nonneg _ h
  obtain ⟨f1, f2, f3, f4, f5, f6, f7⟩ := finFillRow_facts _ _ _ hmed g1 g2 g3 g4 g5 g6 g7
  refine ⟨?_, ?_, ?_, ?_, ?_, ?_, ?_, ?_, ?_, ?_, ?_, ?_, ?_, ?_, ?_, f2, f3, ?_, f5, f6, f7⟩
  · rw [finFillRow_billboard_id, finCleanRow_billboard_id]
    exact hb
  · intro h
    rw [finFillRow_format_type, finCleanRow_format_type]
    exact hf h
  · intro h
    rw [finFillRow_lighting_type, finCleanRow_lighting_type]
    exact hl h
  · rw [finFillRow_latitude, finCleanRow_latitude]
    exact hlaf
  · rw [finFillRow_longitude, finCleanRow_longitude]
    exact hlof
  · intro h
    rw [finFillRow_city, finCleanRow_city]
    exact hci h
  · intro h
    rw [finFillRow_district, finCleanRow_district]
    exact hdi h
  · refine geoCodeRow_congr geo q _ ?_ ?_ ?_ hgc
    · rw [finFillRow_location, finCleanRow_location]
    · rw [finFillRow_latitude, finCleanRow_latitude]
    · rw [finFillRow_longitude, finCleanRow_longitude]
  · rw [finFillRow_width_ft, finCleanRow_width_ft]
    exact hwf
  · rw [finFillRow_height_ft, finCleanRow_height_ft]
    exact hhf
  · intro h
    rw [finFillRow_width_ft, finCleanRow_width_ft, finFillRow_height_ft, finCleanRow_height_ft]
    exact hwh h
  · rw [finFillRow_frequency_per_minute, finCleanRow_frequency_per_minute]
    exact hfrq
  · rw [finFillRow_quantity, finCleanRow_quantity]
    exact hqn
  · rw [finFillRow_quantity, finCleanRow_quantity]
    exact hq0
  · intro h
    exact f1 (by rw [hc4mp]; exact h)
  · intro h
    exact f4 (by rw [hc4mp]; exact h)

/-!  Extensionality, empty batches, and the stage-4 column fixed point.  -/

theorem DF_ext (a b : DF) (h1 : a.cols = b.cols) (h2 : a.rows = b.rows) : a = b := by
  obtain ⟨ac, ar⟩ := a
  obtain ⟨bc, br⟩ := b
  simp only at h1 h2
  rw [h1, h2]

theorem standard_cleanup_rows_empty (df : DF) (h : df.rows = []) :
    (standard_cleanup df).rows = [] := by
  unfold standard_cleanup
  split_ifs
  all_goals dsimp only
  all_goals first
    | rfl
    | (rw [h]; simp [dedupBy])

theorem stage4_rows_of_cleanup_nil (geo : ℚ → ℚ → Option String) (df : DF)
    (h : (standard_cleanup df).rows = []) : (stage4 geo df).rows = [] := by
  unfold stage4 calculate_financials fill_dimensions extract_geography
  dsimp only
  rw [h]
  rfl

theorem stage4_rows_nil_no_billboard (geo : ℚ → ℚ → Option String) (df : DF)
    (h : df.cols.billboard_id = false) : (stage4 geo df).rows = [] :=
  stage4_rows_of_cleanup_nil geo df (standard_cleanup_rows_nil df h)

theorem stage4_pairwise (geo : ℚ → ℚ → Option String) (df : DF) :
    (stage4 geo df).rows.Pairwise (fun a b => a.billboard_id ≠ b.billboard_id) := by
  unfold stage4 calculate_financials fill_dimensions extract_geography
  dsimp only
  apply pairwise_key_map (fun r => r.billboard_id) _ (fun r => finFillRow_billboard_id _ _ r)
  apply pairwise_key_map (fun r => r.billboard_id) _ (fun r => finCleanRow_billboard_id _ r)
  apply pairwise_key_map (fun r => r.billboard_id) _ (fun r => dimFillRow_billboard_id _ _ r)
  apply pairwise_key_map (fun r => r.billboard_id) _ (fun r => dimExtractRow_billboard_id _ r)
  apply pairwise_key_map (fun r => r.billboard_id) _ (fun r => geoRowFull_billboard geo _ r)
  exact standard_cleanup_pairwise df

theorem finDimCols_fix (c : ColFlags) (hw : c.width_ft = true) (hh : c.height_ft = true)
    (hfr : c.frequency_per_minute = true) (hq : c.quantity = true)
    (hb : c.base_rate_per_month = true) (hcm : c.card_rate_per_month = true)
    (hbu : c.base_rate_per_unit = true) (hcu : c.card_rate_per_unit = true) :
    ({ c with width_ft := true
              height_ft := true
              frequency_per_minute := true
              quantity := true
              base_rate_per_month := true
              card_rate_per_month := true
              base_rate_per_unit := true
              card_rate_per_unit := true } : ColFlags) = c := by
  obtain ⟨c1, c2, c3, c4, c5, c6, c7, c8, c9, c10, c11, c12, c13, c14, c15, c16,
    c17, c18, c19, c20, c21, c22, c23, c24, c25, c26, c27⟩ := c
  simp only at hw hh hfr hq hb hcm hbu hcu
  subst hw
  subst hh
  subst hfr
  subst hq
  subst hb
  subst hcm
  subst hbu
  subst hcu
  rfl

theorem stage4_cols_fix (geo : ℚ → ℚ → Option String) (d : DF)
    (hid : d.cols.id = false)
    (hlat : d.cols.latitude = true) (hlon : d.cols.longitude = true)
    (hloc : d.cols.location = true)
    (hcd : d.cols.city = true → d.cols.district = true)
    (hla : d.cols.locality = true → d.cols.area = true)
    (hw : d.cols.width_ft = true) (hh : d.cols.height_ft = true)
    (hfr : d.cols.frequency_per_minute = true) (hq : d.cols.quantity = true)
    (hb : d.cols.base_rate_per_month = true) (hcm : d.cols.card_rate_per_month = true)
    (hbu : d.cols.base_rate_per_unit = true) (hcu : d.cols.card_rate_per_unit = true) :
    (stage4 geo d).cols = d.cols := by
  rw [stage4_cols_eq, cleanCols_fix d.cols hid,
    geoCols_id_fix d.cols hlat hlon hloc hcd hla]
  exact finDimCols_fix d.cols hw hh hfr hq hb hcm hbu hcu

/-!  Field projections of the validator's column projection.  -/

theorem projFlags_billboard_id (keep : List String) (c : ColFlags) :
    (projFlags keep c).billboard_id = c.billboard_id := rfl

theorem projFlags_format_type (keep : List String) (c : ColFlags) :
    (projFlags keep c).format_type = c.format_type := rfl

theorem projFlags_lighting_type (keep : List String) (c : ColFlags) :
    (projFlags keep c).lighting_type = c.lighting_type := rfl

theorem projFlags_latitude (keep : List String) (c : ColFlags) :
    (projFlags keep c).latitude = c.latitude := rfl

theorem projFlags_longitude (keep : List String) (c : ColFlags) :
    (projFlags keep c).longitude = c.longitude := rfl

theorem projFlags_city (keep : List String) (c : ColFlags) :
    (projFlags keep c).city = c.city := rfl

theorem projFlags_district (keep : List String) (c : ColFlags) :
    (projFlags keep c).district = c.district := rfl

theorem projFlags_area (keep : List String) (c : ColFlags) :
    (projFlags keep c).area = c.area := rfl

theorem projFlags_location (keep : List String) (c : ColFlags) :
    (projFlags keep c).location = c.location := rfl

theorem projFlags_width_ft (keep : List String) (c : ColFlags) :
    (projFlags keep c).width_ft = c.width_ft := rfl

theorem projFlags_height_ft (keep : List String) (c : ColFlags) :
    (projFlags keep c).height_ft = c.height_ft := rfl

theorem projFlags_frequency_per_minute (keep : List String) (c : ColFlags) :
    (projFlags keep c).frequency_per_minute = c.frequency_per_minute := rfl

theorem projFlags_quantity (keep : List String) (c : ColFlags) :
    (projFlags keep c).quantity = c.quantity := rfl

theorem projFlags_base_rate_per_month (keep : List String) (c : ColFlags) :
    (projFlags keep c).base_rate_per_month = c.base_rate_per_month := rfl

theorem projFlags_card_rate_per_month (keep : List String) (c : ColFlags) :
    (projFlags keep c).card_rate_per_month = c.card_rate_per_month := rfl

theorem projFlags_base_rate_per_unit (keep : List String) (c : ColFlags) :
    (projFlags keep c).base_rate_per_unit = c.base_rate_per_unit := rfl

theorem projFlags_card_rate_per_unit (keep : List String) (c : ColFlags) :
    (projFlags keep c).card_rate_per_unit = c.card_rate_per_unit := rfl

theorem projFlags_image_urls (keep : List String) (c : ColFlags) :
    (projFlags keep c).image_urls = c.image_urls := rfl

theorem projFlags_id_false (keep : List String) (c : ColFlags) (h : c.id = false) :
    (projFlags keep c).id = false := by
  simp [projFlags, h, Bool.decide_and]

theorem projFlags_coordinates_false (keep : List String) (c : ColFlags)
    (h1 : c.latitude = true) (h2 : c.longitude = true) :
    (projFlags keep c).coordinates = false := by
  simp [projFlags, h1, h2, Bool.decide_and]

theorem projFlags_dimensions_false (keep : List String) (c : ColFlags)
    (h1 : c.width_ft = true) (h2 : c.height_ft = true) :
    (projFlags keep c).dimensions = false := by
  simp [projFlags, h1, h2, Bool.decide_and]

theorem projFlags_locality_imp (keep : List String) (c : ColFlags)
    (h : (projFlags keep c).locality = true) : c.locality = true := by
  simp only [projFlags, Bool.decide_and, Bool.and_eq_true, decide_eq_true_eq] at h
  exact h.1

theorem projFlags_minimal_price_imp (keep : List String) (c : ColFlags)
    (h : (projFlags keep c).minimal_price = true) : c.minimal_price = true := by
  simp only [projFlags, Bool.decide_and, Bool.and_eq_true, decide_eq_true_eq] at h
  exact h.1

/-!  Assembling the cleanliness invariant for the validator's output.  -/

theorem dfclean_assemble (geo : ℚ → ℚ → Option String) (keep : List String) (df : DF)
    (c1 : ColFlags) (rows1 : List Row)
    (himg : c1.image_urls = true)
    (hid : c1.id = false)
    (hlat : c1.latitude = true) (hlon : c1.longitude = true) (hloc : c1.location = true)
    (hw : c1.width_ft = true) (hh : c1.height_ft = true)
    (hfr : c1.frequency_per_minute = true) (hq : c1.quantity = true)
    (hb : c1.base_rate_per_month = true) (hcm : c1.card_rate_per_month = true)
    (hbu : c1.base_rate_per_unit = true) (hcu : c1.card_rate_per_unit = true)
    (hcd : c1.city = true → c1.district = true)
    (hla : c1.locality = true → c1.area = true)
    (hbbid : c1.billboard_id = df.cols.billboard_id)
    (hfmt : c1.format_type = df.cols.format_type)
    (hlit : c1.lighting_type = df.cols.lighting_type)
    (hcity : c1.city = df.cols.city)
    (hmp : c1.minimal_price = df.cols.minimal_price)
    (hbbor : df.cols.billboard_id = true ∨ rows1 = [])
    (hpw : rows1.Pairwise fun a b => a.billboard_id ≠ b.billboard_id)
    (hrows : ∀ r ∈ rows1,
      Value.str (pyStrip r.billboard_id.toPyStr) = r.billboard_id
      ∧ (df.cols.format_type = true → formatApply r.format_type = r.format_type)
      ∧ (df.cols.lighting_type = true → lightingApply r.lighting_type = r.lighting_type)
      ∧ to_numeric r.latitude = r.latitude
      ∧ to_numeric r.longitude = r.longitude
      ∧ (df.cols.city = true → Value.str (pyTitle r.city.toPyStr) = r.city)
      ∧ (df.cols.city = true → r.district.isna = false)
      ∧ geoCodeRow geo r = r
      ∧ to_numeric r.width_ft = r.width_ft
      ∧ to_numeric r.height_ft = r.height_ft
      ∧ (df.cols.format_type = true → r.width_ft.isna = false ∧ r.height_ft.isna = false)
      ∧ r.frequency_per_minute.isna = false
      ∧ r.quantity.isna = false
      ∧ r.quantity ≠ Value.num 0
      ∧ (df.cols.minimal_price = true → clean_numeric r.minimal_price = r.minimal_price)
      ∧ clean_numeric r.base_rate_per_month = r.base_rate_per_month
      ∧ clean_numeric r.card_rate_per_month = r.card_rate_per_month
      ∧ (df.cols.minimal_price = true → r.base_rate_per_month.isna = false)
      ∧ (r.card_rate_per_month.isna = true → r.base_rate_per_month = Value.null)
      ∧ r.base_rate_per_unit = r.base_rate_per_month
      ∧ r.card_rate_per_unit = r.card_rate_per_month)
    (himgv : ∀ r ∈ rows1, invalidImage r.image_urls = false)
    (hcoordv : ∀ r ∈ rows1, coordBad r = false) :
    DFClean geo keep ⟨projFlags keep c1, rows1⟩ := by
  refine ⟨⟨projFlags_id_false keep c1 hid,
    by rw [projFlags_latitude]; exact hlat,
    by rw [projFlags_longitude]; exact hlon,
    by rw [projFlags_location]; exact hloc,
    by rw [projFlags_width_ft]; exact hw,
    by rw [projFlags_height_ft]; exact hh,
    by rw [projFlags_frequency_per_minute]; exact hfr,
    by rw [projFlags_quantity]; exact hq,
    by rw [projFlags_base_rate_per_month]; exact hb,
    by rw [projFlags_card_rate_per_month]; exact hcm,
    by rw [projFlags_base_rate_per_unit]; exact hbu,
    by rw [projFlags_card_rate_per_unit]; exact hcu,
    ?_, ?_,
    projFlags_coordinates_false keep c1 hlat hlon,
    projFlags_dimensions_false keep c1 hw hh,
    by rw [projFlags_image_urls]; exact himg,
    projFlags_idem keep c1⟩, ?_, hpw, ?_⟩
  · intro hc
    rw [projFlags_district]
    exact hcd (by rw [← projFlags_city keep c1]; exact hc)
  · intro hc
    rw [projFlags_area]
    exact hla (projFlags_locality_imp keep c1 hc)
  · rcases hbbor with hbb | hnil
    · exact Or.inl (by rw [projFlags_billboard_id, hbbid]; exact hbb)
    · exact Or.inr hnil
  · intro r hr
    obtain ⟨h1, h2, h3, h4, h5, h6, h7, h8, h9, h10, h11, h12, h13, h14, h15, h16,
      h17, h18, h19, h20, h21⟩ := hrows r hr
    refine ⟨h1, ?_, ?_, h4, h5, ?_, ?_, h8, h9, h10, ?_, h12, h13, h14, ?_,
      h16, h17, ?_, h19, h20, h21, himgv r hr, hcoordv r hr⟩
    · intro hc
      exact h2 (by rw [← hfmt, ← projFlags_format_type keep c1]; exact hc)
    · intro hc
      exact h3 (by rw [← hlit, ← projFlags_lighting_type keep c1]; exact hc)
    · intro hc
      exact h6 (by rw [← hcity, ← projFlags_city keep c1]; exact hc)
    · intro hc
      exact h7 (by rw [← hcity, ← projFlags_city keep c1]; exact hc)
    · intro hc
      exact h11 (by rw [← hfmt, ← projFlags_format_type keep c1]; exact hc)
    · intro hc
      exact h15 (by rw [← hmp]; exact projFlags_minimal_price_imp keep c1 hc)
    · intro hc
      exact h18 (by rw [← hmp]; exact projFlags_minimal_price_imp keep c1 hc)

theorem validator_output_clean (geo : ℚ → ℚ → Option String) (keep : List String) (df : DF)
    (himg : (stage4 geo df).cols.image_urls = true ∨ (stage4 geo df).cols.image_url = true) :
    DFClean geo keep (pipeline geo keep df) := by
  rw [pipeline_eq_stage4]
  unfold final_validation
  rw [if_neg (by rcases himg with h | h <;> simp [h])]
  dsimp only
  rw [if_neg (by simp [stage4_cols_latitude, stage4_cols_longitude])]
  dsimp only
  by_cases himgu : (stage4 geo df).cols.image_urls = true
  · rw [if_pos himgu]
    have hres : resolvedRows (stage4 geo df) = (stage4 geo df).rows := by
      unfold resolvedRows
      rw [if_pos himgu]
    rw [hres]
    apply dfclean_assemble geo keep df _ _
      himgu (stage4_cols_idflag geo df) (stage4_cols_latitude geo df)
      (stage4_cols_longitude geo df)
      (stage4_cols_location geo df) (stage4_cols_width_ft geo df) (stage4_cols_height_ft geo df)
      (stage4_cols_frequency_per_minute geo df) (stage4_cols_quantity geo df)
      (stage4_cols_base_rate_per_month geo df) (stage4_cols_card_rate_per_month geo df)
      (stage4_cols_base_rate_per_unit geo df) (stage4_cols_card_rate_per_unit geo df)
      (fun h => stage4_cols_district geo df (by rw [← stage4_cols_city geo df]; exact h))
      (fun h => stage4_cols_area geo df (by rw [← stage4_cols_locality geo df]; exact h))
      (stage4_cols_billboard_id geo df) (stage4_cols_format_type geo df)
      (stage4_cols_lighting_type geo df) (stage4_cols_city geo df)
      (stage4_cols_minimal_price geo df)
      ?_ ?_ ?_ ?_ ?_
    · by_cases hbb : df.cols.billboard_id = true
      · exact Or.inl hbb
      · refine Or.inr ?_
        rw [stage4_rows_nil_no_billboard geo df (by simpa using hbb)]
        rfl
    · exact List.Pairwise.sublist
        (List.Sublist.trans (List.filter_sublist _) (List.filter_sublist _))
        (stage4_pairwise geo df)
    · intro r hr
      exact stage4_rows_mem geo df r (List.mem_filter.mp (List.mem_filter.mp hr).1).1
    · intro r hr
      have h := (List.mem_filter.mp (List.mem_filter.mp hr).1).2
      simpa using h
    · intro r hr
      have h := (List.mem_filter.mp hr).2
      simpa using h
  · rw [if_neg himgu]
    have himgu2 : (stage4 geo df).cols.image_url = true := by
      rcases himg with h | h
      · exact absurd h himgu
      · exact h
    have hres : resolvedRows (stage4 geo df)
        = (stage4 geo df).rows.map (fun r => { r with image_urls := r.image_url }) := by
      unfold resolvedRows
      rw [if_neg himgu]
    rw [hres]
    apply dfclean_assemble geo keep df
      { (stage4 geo df).cols with image_urls := true } _
      rfl (stage4_cols_idflag geo df) (stage4_cols_latitude geo df)
      (stage4_cols_longitude geo df)
      (stage4_cols_location geo df) (stage4_cols_width_ft geo df) (stage4_cols_height_ft geo df)
      (stage4_cols_frequency_per_minute geo df) (stage4_cols_quantity geo df)
      (stage4_cols_base_rate_per_month geo df) (stage4_cols_card_rate_per_month geo df)
      (stage4_cols_base_rate_per_unit geo df) (stage4_cols_card_rate_per_unit geo df)
      (fun h => stage4_cols_district geo df (by rw [← stage4_cols_city geo df]; exact h))
      (fun h => stage4_cols_area geo df (by rw [← stage4_cols_locality geo df]; exact h))
      (stage4_cols_billboard_id geo df) (stage4_cols_format_type geo df)
      (stage4_cols_lighting_type geo df) (stage4_cols_city geo df)
      (stage4_cols_minimal_price geo df)
      ?_ ?_ ?_ ?_ ?_
    · by_cases hbb : df.cols.billboard_id = true
      · exact Or.inl hbb
      · refine Or.inr ?_
        rw [stage4_rows_nil_no_billboard geo df (by simpa using hbb)]
        rfl
    · exact List.Pairwise.sublist
        (List.Sublist.trans (List.filter_sublist _) (List.filter_sublist _))
        (pairwise_key_map (fun r => r.billboard_id)
          (fun r => { r with image_urls := r.image_url }) (fun r => rfl) _
          (stage4_pairwise geo df))
    · intro r hr
      have hr0 := (List.mem_filter.mp (List.mem_filter.mp hr).1).1
      obtain ⟨m, hm, rfl⟩ := List.mem_map.mp hr0
      obtain ⟨h1, h2, h3, h4, h5, h6, h7, h8, h9, h10, h11, h12, h13, h14, h15, h16,
        h17, h18, h19, h20, h21⟩ := stage4_rows_mem geo df m hm
      exact ⟨h1, h2, h3, h4, h5, h6, h7,
        geoCodeRow_congr geo m _ rfl rfl rfl h8,
        h9, h10, h11, h12, h13, h14, h15, h16, h17, h18, h19, h20, h21⟩
    · intro r hr
      have h := (List.mem_filter.mp (List.mem_filter.mp hr).1).2
      simpa using h
    · intro r hr
      have h := (List.mem_filter.mp hr).2
      simpa using h

/-- C9: the standardization-through-validation chain is idempotent: applying the chain (`pipeline`) a second time to its own output yields the same batch - same rows (hence the same row count) and the same field values - for every input batch, every reverse-geocoding collaborator and every `keep_columns` configuration; already-clean data is a fixed point of the chain. -/
theorem pipeline_idempotent (geo : ℚ → ℚ → Option String) (keep : List String) (df : DF) :
    pipeline geo keep (pipeline geo keep df) = pipeline geo keep df := by
  by_cases himg : (stage4 geo df).cols.image_urls = true ∨ (stage4 geo df).cols.image_url = true
  · exact pipeline_fixed geo keep _ (validator_output_clean geo keep df himg)
  · have h1 : (stage4 geo df).cols.image_urls = false := by
      have h := (not_or.mp himg).1
      simpa using h
    have h2 : (stage4 geo df).cols.image_url = false := by
      have h := (not_or.mp himg).2
      simpa using h
    have hV : pipeline geo keep df = ⟨(stage4 geo df).cols, []⟩ := by
      rw [pipeline_eq_stage4]
      unfold final_validation
      rw [if_pos (by simp [h1, h2])]
    rw [hV, pipeline_eq_stage4]
    have hcols : (stage4 geo (⟨(stage4 geo df).cols, []⟩ : DF)).cols = (stage4 geo df).cols :=
      stage4_cols_fix geo _ (stage4_cols_idflag geo df) (stage4_cols_latitude geo df)
        (stage4_cols_longitude geo df) (stage4_cols_location geo df)
        (fun h => stage4_cols_district geo df (by rw [← stage4_cols_city geo df]; exact h))
        (fun h => stage4_cols_area geo df (by rw [← stage4_cols_locality geo df]; exact h))
        (stage4_cols_width_ft geo df) (stage4_cols_height_ft geo df)
        (stage4_cols_frequency_per_minute geo df) (stage4_cols_quantity geo df)
        (stage4_cols_base_rate_per_month geo df) (stage4_cols_card_rate_per_month geo df)
        (stage4_cols_base_rate_per_unit geo df) (stage4_cols_card_rate_per_unit geo df)
    have hrows : (stage4 geo (⟨(stage4 geo df).cols, []⟩ : DF)).rows = [] :=
      stage4_rows_of_cleanup_nil geo _ (standard_cleanup_rows_empty _ rfl)
    rw [DF_ext (stage4 geo (⟨(stage4 geo df).cols, []⟩ : DF))
      (⟨(stage4 geo df).cols, []⟩ : DF) hcols hrows]
    unfold final_validation
    rw [if_pos (by simp [h1, h2])]

end BRP
